import Mathlib

/-!
# gpu-screen-recorder-adwaita: the global-shortcut subsystem

A shallow embedding of the hotkey code of the repository:

* `gsr-config.c`      : the persisted hotkey value and its conversions,
* `gsr-x11-hotkeys.c` : the direct (X11 `XGrabKey`) backend,
* `global_shortcuts.c`: the brokered (XDG GlobalShortcuts portal) client,
* `gsr-hotkeys.c`     : the manager that owns one of the two and dispatches.
* `gsr-window.c`      : the hotkey block of the window: creation of the manager
  and the page-change handler that drives it.

Conventions of the embedding.

* C `unsigned int`, `KeySym`, `KeyCode` values are `Nat`; `int64_t` is `Int`.
  Where the C code can wrap (the handle counter, the `int64_t → uint64_t`
  cast) the modulus is written out.
* A C array with a separate element count (`combos`/`num_combos`,
  `active_combos`/`n_active_combos`) is the `List` of its live entries, oldest
  first; the count is the length of the list.
* A pointer that may be `NULL` is an `Option`.
* Calls that leave the process are appended to a log carried in the state
  (X requests, bus calls, calls into the window); what the outside world
  answers is read from an oracle structure passed as a parameter.
* A C callback invocation is returned by the function that makes it, as a list
  of the invocations in order; the function that registered the callback
  applies it.
-/

namespace Gsr

/-! ## Constants of the X protocol (`<X11/X.h>`, `<X11/keysymdef.h>`) -/

/-- Bit 0 of the X modifier state. -/
def ShiftMask : Nat := 1 <<< 0
/-- Bit 1 of the X modifier state (Caps Lock). -/
def LockMask : Nat := 1 <<< 1
/-- Bit 2 of the X modifier state. -/
def ControlMask : Nat := 1 <<< 2
/-- Bit 3 of the X modifier state (Alt). -/
def Mod1Mask : Nat := 1 <<< 3
/-- Bit 4 of the X modifier state (usually Num Lock). -/
def Mod2Mask : Nat := 1 <<< 4
/-- Bit 5 of the X modifier state. -/
def Mod3Mask : Nat := 1 <<< 5
/-- Bit 6 of the X modifier state (Super). -/
def Mod4Mask : Nat := 1 <<< 6
/-- Keysym of the Num Lock key. -/
def XK_Num_Lock : Nat := 0xFF7F
/-- Event type code of a key release. -/
def KeyRelease : Nat := 3
/-- Number of values of a C `unsigned int`. -/
def UINT_SIZE : Nat := 2 ^ 32

/-! ## gsr-config.h / gsr-config.c : the persisted hotkey -/

def XK_Shift_L : Nat := 0xFFE1
def XK_Shift_R : Nat := 0xFFE2
def XK_Control_L : Nat := 0xFFE3
def XK_Control_R : Nat := 0xFFE4
def XK_Meta_L : Nat := 0xFFE7
def XK_Meta_R : Nat := 0xFFE8
def XK_Alt_L : Nat := 0xFFE9
def XK_Alt_R : Nat := 0xFFEA
def XK_Super_L : Nat := 0xFFEB
def XK_Super_R : Nat := 0xFFEC

/-- The struct `GsrConfigHotkey`: `int64_t keysym; uint32_t modifiers`. -/
structure GsrConfigHotkey where
  keysym : Int
  modifiers : Nat
deriving DecidableEq, Repr

/-- The hotkey fields of `GsrStreamingConfig`. -/
structure GsrStreamingConfig where
  start_stop_hotkey : GsrConfigHotkey
deriving DecidableEq, Repr

/-- The hotkey fields of `GsrRecordConfig`. -/
structure GsrRecordConfig where
  start_stop_hotkey : GsrConfigHotkey
  pause_unpause_hotkey : GsrConfigHotkey
deriving DecidableEq, Repr

/-- The hotkey fields of `GsrReplayConfig`. -/
structure GsrReplayConfig where
  start_stop_hotkey : GsrConfigHotkey
  save_hotkey : GsrConfigHotkey
deriving DecidableEq, Repr

/-- The part of `GsrConfig` the hotkey manager reads. -/
structure GsrConfig where
  streaming_config : GsrStreamingConfig
  record_config : GsrRecordConfig
  replay_config : GsrReplayConfig
deriving DecidableEq, Repr

/-- The value of `DEFAULT_HOTKEY_START_STOP` in `gsr_config_init_defaults`. -/
def DEFAULT_HOTKEY_START_STOP : GsrConfigHotkey := { keysym := 49, modifiers := 256 }

/-- The value of `DEFAULT_HOTKEY_SECONDARY` in `gsr_config_init_defaults`. -/
def DEFAULT_HOTKEY_SECONDARY : GsrConfigHotkey := { keysym := 50, modifiers := 256 }

/-- The hotkey assignments of `gsr_config_init_defaults`. -/
def gsr_config_init_defaults : GsrConfig :=
  { streaming_config := { start_stop_hotkey := DEFAULT_HOTKEY_START_STOP },
    record_config := { start_stop_hotkey := DEFAULT_HOTKEY_START_STOP,
                       pause_unpause_hotkey := DEFAULT_HOTKEY_SECONDARY },
    replay_config := { start_stop_hotkey := DEFAULT_HOTKEY_START_STOP,
                       save_hotkey := DEFAULT_HOTKEY_SECONDARY } }

/-- The inline function `gsr_config_hotkey_is_empty`. -/
def gsr_config_hotkey_is_empty (hk : GsrConfigHotkey) : Bool :=
  hk.keysym == 0

/-- The value `CUSTOM_MASK(ks)`, that is `1u << (ks - XK_Shift_L)`. -/
def CUSTOM_MASK (ks : Nat) : Nat := 1 <<< (ks - XK_Shift_L)

def MASK_SHIFT : Nat := CUSTOM_MASK XK_Shift_L ||| CUSTOM_MASK XK_Shift_R
def MASK_CONTROL : Nat := CUSTOM_MASK XK_Control_L ||| CUSTOM_MASK XK_Control_R
def MASK_ALT : Nat := CUSTOM_MASK XK_Alt_L ||| CUSTOM_MASK XK_Alt_R
def MASK_META : Nat := CUSTOM_MASK XK_Meta_L ||| CUSTOM_MASK XK_Meta_R
def MASK_SUPER : Nat := CUSTOM_MASK XK_Super_L ||| CUSTOM_MASK XK_Super_R

/-- The function `gsr_config_hotkey_to_x11` for a non-NULL hotkey and non-NULL
out-pointers: the pair `(*out_x11_modifiers, *out_keysym)`. The keysym is the
`int64_t` reinterpreted as `uint64_t`. -/
def gsr_config_hotkey_to_x11 (hk : GsrConfigHotkey) : Nat × Nat :=
  let out_keysym := (hk.keysym % (2 ^ 64 : Int)).toNat
  let m := hk.modifiers
  let x11 := 0
  let x11 := if m &&& MASK_CONTROL ≠ 0 then x11 ||| ControlMask else x11
  let x11 := if m &&& MASK_ALT ≠ 0 then x11 ||| Mod1Mask else x11
  let x11 := if m &&& MASK_SHIFT ≠ 0 then x11 ||| ShiftMask else x11
  let x11 := if m &&& (MASK_META ||| MASK_SUPER) ≠ 0 then x11 ||| Mod4Mask else x11
  (x11, out_keysym)

/-- GDK modifier bit for Shift (`<gdk/gdkenums.h>`). -/
def GDK_SHIFT_MASK : Nat := 1 <<< 0
/-- GDK modifier bit for Control. -/
def GDK_CONTROL_MASK : Nat := 1 <<< 2
/-- GDK modifier bit for Alt. -/
def GDK_ALT_MASK : Nat := 1 <<< 3
/-- GDK modifier bit for Super. -/
def GDK_SUPER_MASK : Nat := 1 <<< 26

/-- The accelerator functions of the toolkit: `gtk_accelerator_name keyval mods`
is the text GTK writes, `gtk_accelerator_parse text` is `none` when GTK rejects
the text and else the `(keyval, mods)` it reads. -/
structure Gtk where
  gtk_accelerator_name : Nat → Nat → String
  gtk_accelerator_parse : String → Option (Nat × Nat)

/-- The block of `gsr_config_hotkey_to_accel` that converts the custom modifier
bitmask to a `GdkModifierType`. -/
def gdk_mods_of_custom (m : Nat) : Nat :=
  let mods := 0
  let mods := if m &&& MASK_SHIFT ≠ 0 then mods ||| GDK_SHIFT_MASK else mods
  let mods := if m &&& MASK_CONTROL ≠ 0 then mods ||| GDK_CONTROL_MASK else mods
  let mods := if m &&& MASK_ALT ≠ 0 then mods ||| GDK_ALT_MASK else mods
  let mods := if m &&& (MASK_META ||| MASK_SUPER) ≠ 0 then mods ||| GDK_SUPER_MASK else mods
  mods

/-- The function `gsr_config_hotkey_to_accel` for a non-NULL hotkey; `none` is
the NULL return. The keysym is cast to `guint`, a 32-bit unsigned. -/
def gsr_config_hotkey_to_accel (G : Gtk) (hk : GsrConfigHotkey) : Option String :=
  if hk.keysym = 0 then none
  else
    let mods := gdk_mods_of_custom hk.modifiers
    some (G.gtk_accelerator_name (hk.keysym % (2 ^ 32 : Int)).toNat mods)

/-- The block of `gsr_config_hotkey_from_accel` that converts a
`GdkModifierType` back to the custom bitmask, using the `_L` variants. -/
def custom_of_gdk_mods (mods : Nat) : Nat :=
  let m := 0
  let m := if mods &&& GDK_SHIFT_MASK ≠ 0 then m ||| CUSTOM_MASK XK_Shift_L else m
  let m := if mods &&& GDK_CONTROL_MASK ≠ 0 then m ||| CUSTOM_MASK XK_Control_L else m
  let m := if mods &&& GDK_ALT_MASK ≠ 0 then m ||| CUSTOM_MASK XK_Alt_L else m
  let m := if mods &&& GDK_SUPER_MASK ≠ 0 then m ||| CUSTOM_MASK XK_Super_L else m
  m

/-- The function `gsr_config_hotkey_from_accel` for a non-NULL hotkey: the
return value and the hotkey afterwards. `accel` is `none` for a NULL text. -/
def gsr_config_hotkey_from_accel (G : Gtk) (hk : GsrConfigHotkey) (accel : Option String) :
    Bool × GsrConfigHotkey :=
  match accel with
  | none => (true, { keysym := 0, modifiers := 0 })
  | some text =>
    if text = "" then (true, { keysym := 0, modifiers := 0 })
    else
      match G.gtk_accelerator_parse text with
      | none => (false, hk)
      | some (keyval, mods) =>
        if keyval = 0 then (true, { keysym := 0, modifiers := 0 })
        else (true, { keysym := (keyval : Int), modifiers := custom_of_gdk_mods mods })

/-! ## gsr-x11-hotkeys.h / gsr-x11-hotkeys.c : the direct backend -/

def MAX_GRABBED_COMBOS : Nat := 16

/-- The struct `GsrX11HotkeyCombo`. -/
structure GsrX11HotkeyCombo where
  modifiers : Nat
  keysym : Nat
deriving DecidableEq, Repr

/-- A request sent to the X server on the display connection. -/
inductive XRequest where
  | XGrabKey (keycode modifiers : Nat)
  | XUngrabKey (keycode modifiers : Nat)
  | XSync
deriving DecidableEq, Repr

/-- The result of `XGetModifierMapping`: `modifiermap` holds
`8 * max_keypermod` keycodes. -/
structure XModifierKeymap where
  max_keypermod : Nat
  modifiermap : List Nat
deriving DecidableEq, Repr

/-- What the X server answers. `grab_error sent kc mods` tells whether an
`XGrabKey` of `(kc, mods)` on the root window, issued after the requests
`sent`, raises an X error (another client owns the combination). -/
structure XServer where
  XKeysymToKeycode : Nat → Nat
  XLookupKeysym : Nat → Nat
  XGetModifierMapping : Option XModifierKeymap
  grab_error : List XRequest → Nat → Nat → Bool

/-- The X connection `Display *`: the requests sent on it, oldest first. -/
structure Display where
  requests : List XRequest
deriving DecidableEq, Repr

/-- The struct `_GsrX11Hotkeys`. `combos` holds the entries
`combos[0 .. num_combos)`; the callback is always `on_x11_hotkey`. -/
structure GsrX11Hotkeys where
  display : Display
  numlockmask : Nat
  combos : List GsrX11HotkeyCombo
deriving DecidableEq, Repr

/-- The field `num_combos`. -/
def GsrX11Hotkeys.num_combos (self : GsrX11Hotkeys) : Nat := self.combos.length

/-- The function `detect_numlock_mask`. -/
def detect_numlock_mask (X : XServer) : Nat :=
  let numlock_keycode := X.XKeysymToKeycode XK_Num_Lock
  match X.XGetModifierMapping with
  | none => 0
  | some modmap =>
    (List.range 8).foldl (fun mask i =>
      (List.range modmap.max_keypermod).foldl (fun mask j =>
        if modmap.modifiermap[i * modmap.max_keypermod + j]? = some numlock_keycode
        then 1 <<< i else mask) mask) 0

/-- The function `key_state_without_locks`: `state & ~(Mod2Mask | LockMask)` on
an `unsigned int`. -/
def key_state_without_locks (state : Nat) : Nat :=
  state &&& (UINT_SIZE - 1 - (Mod2Mask ||| LockMask))

/-- The array `modifiers[]` of `gsr_x11_hotkeys_grab` and
`gsr_x11_hotkeys_ungrab_all`. -/
def lock_modifiers (numlockmask : Nat) : List Nat :=
  [0, LockMask, numlockmask, numlockmask ||| LockMask]

/-- Xlib `XSync` on the connection. -/
def XSync (d : Display) : Display :=
  { requests := d.requests ++ [XRequest.XSync] }

/-- Xlib `XGrabKey` on the root window: the connection afterwards and whether
the request raises an X error. -/
def XGrabKey (X : XServer) (d : Display) (keycode modifiers : Nat) : Display × Bool :=
  ({ requests := d.requests ++ [XRequest.XGrabKey keycode modifiers] },
   X.grab_error d.requests keycode modifiers)

/-- Xlib `XUngrabKey` on the root window. -/
def XUngrabKey (d : Display) (keycode modifiers : Nat) : Display :=
  { requests := d.requests ++ [XRequest.XUngrabKey keycode modifiers] }

/-- An X event as read by `x11_source_dispatch`: its type and, for key events,
keycode and modifier state. -/
structure XEvent where
  type : Nat
  keycode : Nat
  state : Nat
deriving DecidableEq, Repr

/-- The inner loop of `x11_source_dispatch`: the callback is invoked for the
first combo that matches, then the loop breaks. -/
def x11_source_dispatch_match (combos : List GsrX11HotkeyCombo) (keysym state : Nat) :
    List (Nat × Nat) :=
  match combos with
  | [] => []
  | c :: rest =>
    if keysym = c.keysym ∧ state = c.modifiers then [(c.modifiers, c.keysym)]
    else x11_source_dispatch_match rest keysym state

/-- The function `x11_source_dispatch` on the pending events: the callback
invocations `(modifiers, keysym)` it makes, in order. -/
def x11_source_dispatch (X : XServer) (self : GsrX11Hotkeys) (pending : List XEvent) :
    List (Nat × Nat) :=
  match pending with
  | [] => []
  | ev :: rest =>
    if ev.type ≠ KeyRelease then x11_source_dispatch X self rest
    else
      let keysym := X.XLookupKeysym ev.keycode
      let state := key_state_without_locks ev.state
      x11_source_dispatch_match self.combos keysym state ++ x11_source_dispatch X self rest

/-- The function `gsr_x11_hotkeys_new` for the callback `on_x11_hotkey`;
`calloc_ok` tells whether the allocation succeeds. Attaching the `GSource` to
the main loop is not modelled. -/
def gsr_x11_hotkeys_new (X : XServer) (calloc_ok : Bool) (display : Option Display) :
    Option GsrX11Hotkeys :=
  match display with
  | none => none
  | some d =>
    if !calloc_ok then none
    else some { display := d, numlockmask := detect_numlock_mask X, combos := [] }

/-- The function `gsr_x11_hotkeys_ungrab_all` for a non-NULL `self`. -/
def gsr_x11_hotkeys_ungrab_all (X : XServer) (self : GsrX11Hotkeys) : GsrX11Hotkeys :=
  let modifiers := lock_modifiers self.numlockmask
  let d := self.combos.foldl (fun d c =>
    let kc := X.XKeysymToKeycode c.keysym
    modifiers.foldl (fun d m => XUngrabKey d kc (c.modifiers ||| m)) d) self.display
  { self with display := XSync d, combos := [] }

/-- The function `gsr_x11_hotkeys_grab` for a non-NULL `self`: the return value
and the backend afterwards. -/
def gsr_x11_hotkeys_grab (X : XServer) (self : GsrX11Hotkeys) (combo : GsrX11HotkeyCombo) :
    Bool × GsrX11Hotkeys :=
  if self.num_combos ≥ MAX_GRABBED_COMBOS then (false, self)
  else if combo.keysym = 0 ∧ combo.modifiers = 0 then (true, self)
  else
    let modifiers := lock_modifiers self.numlockmask
    let d := XSync self.display
    let kc := X.XKeysymToKeycode combo.keysym
    let grabbed := modifiers.foldl (fun (acc : Display × Bool) m =>
      let r := XGrabKey X acc.1 kc (combo.modifiers ||| m)
      (r.1, acc.2 || r.2)) (d, false)
    let d := XSync grabbed.1
    let x_grab_failed := grabbed.2
    if x_grab_failed then
      let d := modifiers.foldl (fun d m => XUngrabKey d kc (combo.modifiers ||| m)) d
      (false, { self with display := XSync d })
    else
      (true, { self with display := d, combos := self.combos ++ [combo] })

/-! ## global_shortcuts.h / global_shortcuts.c : the portal client -/

def DBUS_RANDOM_STR_SIZE : Nat := 16

/-- The struct `gsr_shortcut`. -/
structure gsr_shortcut where
  id : String
  trigger_description : String
deriving DecidableEq, Repr

/-- The struct `gsr_bind_shortcut`. -/
structure gsr_bind_shortcut where
  description : String
  shortcut : gsr_shortcut
deriving DecidableEq, Repr

/-- A `GVariant` of a basic type, tagged with its type string
(`s`, `o`, `u`, `b`). -/
inductive GVariantBasic where
  | string (s : String)
  | object_path (s : String)
  | uint32 (n : Nat)
  | boolean (b : Bool)
deriving DecidableEq, Repr

/-- A `GVariant` stored in a results dictionary: a basic value or an array of
shortcuts of type `a(sa{sv})`. -/
inductive GVariant where
  | basic (v : GVariantBasic)
  | shortcuts (l : List (String × List (String × GVariantBasic)))
deriving DecidableEq, Repr

/-- A dictionary of type `a{sv}`. -/
abbrev VarDict := List (String × GVariant)

/-- The parameters `(u@a{sv})` of a `Response` signal, as read by
`g_variant_get`: the status code and the results, `none` for a NULL
`results`. -/
structure ResponseParameters where
  response : Nat
  results : Option VarDict
deriving DecidableEq, Repr

/-- GLib `g_variant_lookup_value(dict, key, NULL)`: the value stored under the
first entry with that key. -/
def g_variant_lookup_value (dict : VarDict) (key : String) : Option GVariant :=
  match dict with
  | [] => none
  | e :: rest => if e.1 = key then some e.2 else g_variant_lookup_value rest key

/-- GLib `g_variant_lookup(dict, key, "s", &out)`: the string stored under `key`
when there is one and it has type `s`, else failure. -/
def g_variant_lookup_s (dict : VarDict) (key : String) : Option String :=
  match g_variant_lookup_value dict key with
  | some (GVariant.basic (GVariantBasic.string s)) => some s
  | _ => none

/-- A method call made with `g_dbus_connection_call_sync` on
`org.freedesktop.portal.GlobalShortcuts`, with its arguments. -/
inductive BusCall where
  | CreateSession (handle_token session_handle_token : String)
  | ListShortcuts (session_handle : Option String) (handle_token : String)
  | BindShortcuts (session_handle : Option String) (shortcuts : List gsr_bind_shortcut)
      (handle_token : String)
deriving DecidableEq, Repr

/-- Which one-shot handler was connected to a request object. -/
inductive RequestHandler where
  | dbus_signal_create_session
  | dbus_signal_list_bind
deriving DecidableEq, Repr

/-- The session bus as this process has used it: the method calls made, the
`g-signal` handlers connected to request proxies (by object path), and the
number of `g_dbus_connection_signal_subscribe` registrations. -/
structure SessionBus where
  calls : List BusCall
  request_handlers : List (String × RequestHandler)
  signal_subscriptions : Nat
deriving DecidableEq, Repr

/-- The session bus before the process has used it. -/
def SessionBus.fresh : SessionBus :=
  { calls := [], request_handlers := [], signal_subscriptions := 0 }

/-- What the portal answers. `call_sync bus c` is the return of
`g_dbus_connection_call_sync` for the call `c` made in bus state `bus`: `none`
for no reply, `some none` for a reply without an object path, `some (some p)`
for the request object path `p`. `proxy_new bus p` tells whether
`g_dbus_proxy_new_for_bus_sync` yields a proxy for `p`. -/
structure Portal where
  call_sync : SessionBus → BusCall → Option (Option String)
  proxy_new : SessionBus → String → Bool

/-- The struct `gsr_global_shortcuts`; `gdbus_con` tells whether the connection
pointer is non-NULL, `random_str` holds the characters before the
terminator. -/
structure gsr_global_shortcuts where
  gdbus_con : Bool
  session_handle : Option String
  session_created : Bool
  random_str : String
  handle_counter : Nat
deriving DecidableEq, Repr

/-- The alphabet passed to `generate_random_characters` by
`gsr_global_shortcuts_init`. -/
def random_alphabet : List Char :=
  "ABCDEFGHIJKLMNOPQRSTUVWXYZabcdefghijklmnopqrstuvwxyz0123456789".toList

/-- The function `generate_random_characters`. The argument `delivered` holds
the bytes `getrandom` delivers into the buffer; its length is the return value
of the system call. -/
def generate_random_characters (delivered : List Nat) (buffer_size : Nat)
    (alphabet : List Char) : Option String :=
  if delivered.length < buffer_size then none
  else some (String.mk ((delivered.take buffer_size).map
    (fun c => alphabet.getD (c % alphabet.length) 'A')))

/-- The function `gsr_dbus_portal_get_unique_handle_token` writing into a buffer
of `size` bytes: the text written (`snprintf` keeps at most `size - 1`
characters) and the client with the counter incremented. -/
def gsr_dbus_portal_get_unique_handle_token (self : gsr_global_shortcuts) (size : Nat) :
    String × gsr_global_shortcuts :=
  let text := "gpu_screen_recorder_adwaita_handle_" ++ self.random_str ++ "_" ++
    toString self.handle_counter
  (text.take (size - 1), { self with handle_counter := (self.handle_counter + 1) % UINT_SIZE })

/-- The issuing of one portal method call followed by the connection of the
one-shot handler, as written out three times in `global_shortcuts.c`
(`if(ret) ... else return false`): the return value and the bus afterwards. -/
def call_and_connect (P : Portal) (bus : SessionBus) (call : BusCall)
    (handler : RequestHandler) : Bool × SessionBus :=
  let ret := P.call_sync bus call
  let bus := { bus with calls := bus.calls ++ [call] }
  match ret with
  | some (some val) =>
    if P.proxy_new bus val then
      (true, { bus with request_handlers := bus.request_handlers ++ [(val, handler)] })
    else (false, bus)
  | _ => (false, bus)

/-- The static function `gsr_global_shortcuts_create_session`. -/
def gsr_global_shortcuts_create_session (P : Portal) (self : gsr_global_shortcuts)
    (bus : SessionBus) : Bool × gsr_global_shortcuts × SessionBus :=
  let t := gsr_dbus_portal_get_unique_handle_token self 64
  let handle_token := t.1
  let self := t.2
  let session_handle_token := "gpu_screen_recorder_adwaita"
  let r := call_and_connect P bus (BusCall.CreateSession handle_token session_handle_token)
    RequestHandler.dbus_signal_create_session
  (r.1, self, r.2)

/-- The function `gsr_global_shortcuts_deinit`. -/
def gsr_global_shortcuts_deinit (self : gsr_global_shortcuts) : gsr_global_shortcuts :=
  { self with gdbus_con := false, session_handle := none }

/-- The function `gsr_global_shortcuts_init`. `getrandom` holds the bytes the
system call delivers, `bus_get` tells whether `g_bus_get_sync` returns a
connection. The
struct is zeroed first, so the result does not depend on its old contents. -/
def gsr_global_shortcuts_init (P : Portal) (getrandom : List Nat) (bus_get : Bool)
    (bus : SessionBus) : Bool × gsr_global_shortcuts × SessionBus :=
  let self : gsr_global_shortcuts :=
    { gdbus_con := false, session_handle := none, session_created := false,
      random_str := "", handle_counter := 0 }
  match generate_random_characters getrandom DBUS_RANDOM_STR_SIZE random_alphabet with
  | none => (false, self, bus)
  | some str =>
    let self := { self with random_str := str }
    if !bus_get then (false, self, bus)
    else
      let self := { self with gdbus_con := true }
      let r := gsr_global_shortcuts_create_session P self bus
      if !r.1 then (false, gsr_global_shortcuts_deinit r.2.1, r.2.2)
      else (true, r.2.1, r.2.2)

/-- The function `dbus_signal_create_session`, the one-shot handler connected
by `gsr_global_shortcuts_create_session`: the client afterwards and the
invocations of `cu->callback` it makes (the `success` argument of each). -/
def dbus_signal_create_session (signal_name : String) (parameters : ResponseParameters)
    (self : gsr_global_shortcuts) : gsr_global_shortcuts × List Bool :=
  if signal_name ≠ "Response" then (self, [])
  else
    let response := parameters.response
    let results := parameters.results
    if response ≠ 0 ∨ results = none then (self, [false])
    else
      match results.bind (fun r => g_variant_lookup_s r "session_handle") with
      | some session_handle =>
        ({ self with session_handle := some session_handle, session_created := true }, [true])
      | none => (self, [])

/-- The function `gsr_global_shortcuts_list_shortcuts`. -/
def gsr_global_shortcuts_list_shortcuts (P : Portal) (self : gsr_global_shortcuts)
    (bus : SessionBus) : Bool × gsr_global_shortcuts × SessionBus :=
  if !self.session_created then (false, self, bus)
  else
    let t := gsr_dbus_portal_get_unique_handle_token self 64
    let r := call_and_connect P bus (BusCall.ListShortcuts t.2.session_handle t.1)
      RequestHandler.dbus_signal_list_bind
    (r.1, t.2, r.2)

/-- The function `gsr_global_shortcuts_bind_shortcuts`. -/
def gsr_global_shortcuts_bind_shortcuts (P : Portal) (self : gsr_global_shortcuts)
    (bus : SessionBus) (shortcuts : List gsr_bind_shortcut) :
    Bool × gsr_global_shortcuts × SessionBus :=
  if !self.session_created then (false, self, bus)
  else
    let t := gsr_dbus_portal_get_unique_handle_token self 64
    let r := call_and_connect P bus (BusCall.BindShortcuts t.2.session_handle shortcuts t.1)
      RequestHandler.dbus_signal_list_bind
    (r.1, t.2, r.2)

/-- The function `gsr_global_shortcuts_subscribe_activated_signal`. -/
def gsr_global_shortcuts_subscribe_activated_signal (self : gsr_global_shortcuts)
    (bus : SessionBus) : Bool × SessionBus :=
  if !self.session_created then (false, bus)
  else (true, { bus with signal_subscriptions := bus.signal_subscriptions + 1 })

/-- An array of shortcuts of type `a(sa{sv})`: each entry is a shortcut id and
its dictionary of values. -/
abbrev ShortcutArray := List (String × List (String × GVariantBasic))

/-- The function `handle_shortcuts_data`: the invocations of `callback` it
makes, one per entry, in order. -/
def handle_shortcuts_data (shortcuts : ShortcutArray) : List gsr_shortcut :=
  shortcuts.map (fun child =>
    let shortcut_id := child.1
    let shortcut_values : VarDict := child.2.map (fun e => (e.1, GVariant.basic e.2))
    let trigger_description := g_variant_lookup_s shortcut_values "trigger_description"
    { id := shortcut_id,
      trigger_description := match trigger_description with
        | some t => t
        | none => "" })

/-- The function `dbus_signal_list_bind`, the one-shot handler connected by
`gsr_global_shortcuts_list_shortcuts` and `gsr_global_shortcuts_bind_shortcuts`:
the invocations of `userdata->callback` it makes. -/
def dbus_signal_list_bind (signal_name : String) (parameters : ResponseParameters) :
    List gsr_shortcut :=
  if signal_name ≠ "Response" then []
  else
    let response := parameters.response
    let results := parameters.results
    if response ≠ 0 ∨ results = none then []
    else
      match results.bind (fun r => g_variant_lookup_value r "shortcuts") with
      | some (GVariant.shortcuts shortcuts) => handle_shortcuts_data shortcuts
      | _ => []

/-- The parameters of a signal of `org.freedesktop.portal.GlobalShortcuts`, by
their type: `(osta{sv})` as carried by `Activated` and `Deactivated`,
`(oa(sa{sv}))` as carried by `ShortcutsChanged`, or any other type. -/
inductive SignalParameters where
  | ost_dict (session_handle shortcut_id : String) (timestamp : Nat)
      (options : List (String × GVariantBasic))
  | o_shortcuts (session_handle : String) (shortcuts : ShortcutArray)
  | other
deriving DecidableEq, Repr

/-- A callback invocation made by `signal_callback`. -/
inductive SignalInvocation where
  | deactivated_callback (shortcut_id : String)
  | shortcut_changed_callback (shortcut : gsr_shortcut)
deriving DecidableEq, Repr

/-- The function `signal_callback`, the persistent handler registered by
`gsr_global_shortcuts_subscribe_activated_signal`, with `cu->self` the client:
the callback invocations it makes, in order. `g_variant_get` leaves its outputs
NULL when the parameters are not of the type asked for. The result is `none`
where the C code calls `strcmp` on a NULL `cu->self->session_handle`, which is
undefined. -/
def signal_callback (signal_name : String) (parameters : SignalParameters)
    (self : gsr_global_shortcuts) : Option (List SignalInvocation) :=
  if signal_name = "Deactivated" then
    match parameters with
    | SignalParameters.ost_dict session_handle shortcut_id _ _ =>
      match self.session_handle with
      | none => none
      | some own =>
        if session_handle = own then some [SignalInvocation.deactivated_callback shortcut_id]
        else some []
    | _ => some []
  else if signal_name = "ShortcutsChanged" then
    match parameters with
    | SignalParameters.o_shortcuts session_handle shortcuts =>
      match self.session_handle with
      | none => none
      | some own =>
        if session_handle = own then
          some ((handle_shortcuts_data shortcuts).map SignalInvocation.shortcut_changed_callback)
        else some []
    | _ => some []
  else some []

/-! ## gsr-info.h, gsr-window.c : what the manager sees of the host -/

/-- The enum `GsrDisplayServer`. -/
inductive GsrDisplayServer where
  | GSR_DISPLAY_SERVER_UNKNOWN
  | GSR_DISPLAY_SERVER_X11
  | GSR_DISPLAY_SERVER_WAYLAND
deriving DecidableEq, Repr

/-- A call the manager makes into the window: the three leaf actions
`gsr_window_hotkey_start_stop`, `gsr_window_hotkey_pause_unpause`,
`gsr_window_hotkey_save_replay`, and `gsr_window_on_wayland_hotkeys_init`. -/
inductive WindowCall where
  | hotkey_start_stop
  | hotkey_pause_unpause
  | hotkey_save_replay
  | on_wayland_hotkeys_init (success : Bool)
deriving DecidableEq, Repr

/-- The window as the manager uses it: the visible page name
(`gsr_window_get_visible_page_name`, `none` for NULL), the config
(`gsr_window_get_config`, `none` for NULL) and the calls received from the
manager, oldest first. -/
structure GsrWindow where
  visible_page_name : Option String
  config : Option GsrConfig
  calls : List WindowCall
deriving DecidableEq, Repr

/-- The window after receiving one more call. -/
def GsrWindow.call (w : GsrWindow) (c : WindowCall) : GsrWindow :=
  { w with calls := w.calls ++ [c] }

/-! ## gsr-hotkeys.c : the manager -/

def SHORTCUT_ID_START_STOP : String := "gpu_screen_recorder_start_stop_recording"
def SHORTCUT_ID_PAUSE_UNPAUSE : String := "gpu_screen_recorder_pause_unpause_recording"
def SHORTCUT_ID_SAVE_REPLAY : String := "gpu_screen_recorder_save_replay"

/-- The enum `HotkeyAction`. -/
inductive HotkeyAction where
  | HOTKEY_ACTION_START_STOP
  | HOTKEY_ACTION_PAUSE_UNPAUSE
  | HOTKEY_ACTION_SAVE_REPLAY
deriving DecidableEq, Repr

/-- The struct `GrabbedCombo`. -/
structure GrabbedCombo where
  x11_modifiers : Nat
  keysym : Nat
  action : HotkeyAction
deriving DecidableEq, Repr

def MAX_ACTIVE_COMBOS : Nat := 4

/-- The struct `_GsrHotkeys`. `active_combos` holds the entries
`active_combos[0 .. n_active_combos)`. `window` is the window pointed to and
`bus` the session bus the portal client talks to. `grab_log` is not a C field:
it records every call `gsr_x11_hotkeys_grab(self->x11, combo)` made by
`grab_hotkey_from_config`, as the combo passed and the action it was made
for, oldest first. -/
structure GsrHotkeys where
  display_server : GsrDisplayServer
  window : GsrWindow
  x11 : Option GsrX11Hotkeys
  active_combos : List GrabbedCombo
  wayland : gsr_global_shortcuts
  wayland_initialized : Bool
  wayland_shortcuts_bound : Bool
  wayland_shortcuts_received : Bool
  bus : SessionBus
  grab_log : List GrabbedCombo
deriving DecidableEq, Repr

/-- The field `n_active_combos`. -/
def GsrHotkeys.n_active_combos (self : GsrHotkeys) : Nat := self.active_combos.length

/-- The function `get_visible_page_name`. -/
def get_visible_page_name (self : GsrHotkeys) : Option String :=
  self.window.visible_page_name

/-- The function `dispatch_start_stop`. -/
def dispatch_start_stop (self : GsrHotkeys) : GsrHotkeys :=
  { self with window := self.window.call WindowCall.hotkey_start_stop }

/-- The function `dispatch_pause_unpause`. -/
def dispatch_pause_unpause (self : GsrHotkeys) : GsrHotkeys :=
  { self with window := self.window.call WindowCall.hotkey_pause_unpause }

/-- The function `dispatch_save_replay`. -/
def dispatch_save_replay (self : GsrHotkeys) : GsrHotkeys :=
  { self with window := self.window.call WindowCall.hotkey_save_replay }

/-- Either lookup loop of `on_x11_hotkey`: the action of the first entry whose
keysym and modifiers equal the given ones, `none` when the loop ends without
`found`. -/
def on_x11_hotkey_lookup (combos : List GrabbedCombo) (modifiers keysym : Nat) :
    Option HotkeyAction :=
  match combos with
  | [] => none
  | c :: rest =>
    if c.keysym = keysym ∧ c.x11_modifiers = modifiers then some c.action
    else on_x11_hotkey_lookup rest modifiers keysym

/-- The function `on_x11_hotkey` with `userdata` the manager. -/
def on_x11_hotkey (modifiers keysym : Nat) (self : GsrHotkeys) : GsrHotkeys :=
  let first := on_x11_hotkey_lookup self.active_combos modifiers keysym
  let found :=
    match first with
    | some action => some action
    | none =>
      let base_mods := modifiers &&& (ControlMask ||| ShiftMask ||| Mod1Mask ||| Mod4Mask)
      on_x11_hotkey_lookup self.active_combos base_mods keysym
  match found with
  | none => self
  | some HotkeyAction.HOTKEY_ACTION_START_STOP => dispatch_start_stop self
  | some HotkeyAction.HOTKEY_ACTION_PAUSE_UNPAUSE => dispatch_pause_unpause self
  | some HotkeyAction.HOTKEY_ACTION_SAVE_REPLAY => dispatch_save_replay self

/-- The function `on_wayland_init` with `userdata` the manager. -/
def on_wayland_init (success : Bool) (self : GsrHotkeys) : GsrHotkeys :=
  let self := { self with wayland_initialized := success }
  let self :=
    if success then
      { self with bus := (gsr_global_shortcuts_subscribe_activated_signal self.wayland self.bus).2 }
    else self
  { self with window := self.window.call (WindowCall.on_wayland_hotkeys_init success) }

/-- The function `on_wayland_deactivated` with `userdata` the manager. -/
def on_wayland_deactivated (shortcut_id : String) (self : GsrHotkeys) : GsrHotkeys :=
  match get_visible_page_name self with
  | none => self
  | some page =>
    if shortcut_id = SHORTCUT_ID_START_STOP then
      if page = "stream" ∨ page = "record" ∨ page = "replay" then dispatch_start_stop self
      else self
    else if shortcut_id = SHORTCUT_ID_PAUSE_UNPAUSE then
      if page = "record" then dispatch_pause_unpause self else self
    else if shortcut_id = SHORTCUT_ID_SAVE_REPLAY then
      if page = "replay" then dispatch_save_replay self else self
    else self

/-- The function `on_wayland_shortcut_changed` with `userdata` the manager. -/
def on_wayland_shortcut_changed (_shortcut : gsr_shortcut) (self : GsrHotkeys) : GsrHotkeys :=
  { self with wayland_shortcuts_received := true }

/-- The process environment `gsr_hotkeys_new` runs in: whether the two
allocations succeed, whether GDK has a default display, the X connection GDK
hands out (`none` for NULL), the X server, the bytes `getrandom` delivers,
whether `g_bus_get_sync` yields a connection, and the portal. -/
structure Env where
  calloc_hotkeys : Bool
  gdk_display_get_default : Bool
  gdk_x11_display_get_xdisplay : Option Display
  calloc_x11 : Bool
  X : XServer
  getrandom : List Nat
  g_bus_get_sync : Bool
  portal : Portal

/-- The function `gsr_hotkeys_new`, compiled with both `HAVE_X11` and
`HAVE_WAYLAND`; `none` is the NULL return. The bus has not been used before. -/
def gsr_hotkeys_new (E : Env) (display_server : GsrDisplayServer) (window : GsrWindow) :
    Option GsrHotkeys :=
  if !E.calloc_hotkeys then none
  else
    let self : GsrHotkeys :=
      { display_server := display_server, window := window, x11 := none, active_combos := [],
        wayland := { gdbus_con := false, session_handle := none, session_created := false,
                     random_str := "", handle_counter := 0 },
        wayland_initialized := false, wayland_shortcuts_bound := false,
        wayland_shortcuts_received := false,
        bus := SessionBus.fresh,
        grab_log := [] }
    match display_server with
    | GsrDisplayServer.GSR_DISPLAY_SERVER_X11 =>
      if !E.gdk_display_get_default then none
      else
        match E.gdk_x11_display_get_xdisplay with
        | none => none
        | some xdisplay =>
          match gsr_x11_hotkeys_new E.X E.calloc_x11 (some xdisplay) with
          | none => none
          | some x11 => some { self with x11 := some x11 }
    | GsrDisplayServer.GSR_DISPLAY_SERVER_WAYLAND =>
      let r := gsr_global_shortcuts_init E.portal E.getrandom E.g_bus_get_sync self.bus
      some { self with wayland := r.2.1, bus := r.2.2 }
    | GsrDisplayServer.GSR_DISPLAY_SERVER_UNKNOWN => some self

/-- Delivery of a `g-signal` of the create-session request proxy to its
handler as `gsr_hotkeys_new` has it connected: `dbus_signal_create_session`
runs with `cu->self = &self->wayland`, `cu->callback = on_wayland_init` and
`cu->userdata = self`. -/
def create_session_signal (signal_name : String) (parameters : ResponseParameters)
    (self : GsrHotkeys) : GsrHotkeys :=
  let r := dbus_signal_create_session signal_name parameters self.wayland
  r.2.foldl (fun s success => on_wayland_init success s) { self with wayland := r.1 }

/-- The function `grab_hotkey_from_config`. `KeySym` is a 64-bit
`unsigned long`, so the cast of the keysym is the identity. -/
def grab_hotkey_from_config (X : XServer) (self : GsrHotkeys) (hk : GsrConfigHotkey)
    (action : HotkeyAction) : GsrHotkeys :=
  if gsr_config_hotkey_is_empty hk then self
  else
    let x11_mods := (gsr_config_hotkey_to_x11 hk).1
    let keysym := (gsr_config_hotkey_to_x11 hk).2
    if keysym = 0 then self
    else
      let combo : GsrX11HotkeyCombo := { modifiers := x11_mods, keysym := keysym }
      let entry : GrabbedCombo :=
        { x11_modifiers := x11_mods, keysym := keysym, action := action }
      let self := { self with grab_log := self.grab_log ++ [entry] }
      match self.x11 with
      | none => self
      | some x11 =>
        let r := gsr_x11_hotkeys_grab X x11 combo
        let self := { self with x11 := some r.2 }
        if !r.1 then self
        else if self.n_active_combos < MAX_ACTIVE_COMBOS then
          { self with active_combos := self.active_combos ++ [entry] }
        else self

/-- The function `gsr_hotkeys_regrab_for_visible_page` for a non-NULL
manager. -/
def gsr_hotkeys_regrab_for_visible_page (X : XServer) (self : GsrHotkeys) : GsrHotkeys :=
  match self.x11 with
  | none => self
  | some x11 =>
    if self.display_server ≠ GsrDisplayServer.GSR_DISPLAY_SERVER_X11 then self
    else
      let self := { self with x11 := some (gsr_x11_hotkeys_ungrab_all X x11),
                              active_combos := [] }
      match get_visible_page_name self with
      | none => self
      | some page =>
        match self.window.config with
        | none => self
        | some config =>
          if page = "stream" then
            grab_hotkey_from_config X self config.streaming_config.start_stop_hotkey
              HotkeyAction.HOTKEY_ACTION_START_STOP
          else if page = "record" then
            let self := grab_hotkey_from_config X self config.record_config.start_stop_hotkey
              HotkeyAction.HOTKEY_ACTION_START_STOP
            grab_hotkey_from_config X self config.record_config.pause_unpause_hotkey
              HotkeyAction.HOTKEY_ACTION_PAUSE_UNPAUSE
          else if page = "replay" then
            let self := grab_hotkey_from_config X self config.replay_config.start_stop_hotkey
              HotkeyAction.HOTKEY_ACTION_START_STOP
            grab_hotkey_from_config X self config.replay_config.save_hotkey
              HotkeyAction.HOTKEY_ACTION_SAVE_REPLAY
          else self

/-- The array `shortcuts[3]` of `gsr_hotkeys_register_wayland_shortcuts_once`. -/
def wayland_shortcuts : List gsr_bind_shortcut :=
  [ { description := "Start/stop recording/replay/streaming",
      shortcut := { id := SHORTCUT_ID_START_STOP, trigger_description := "ALT+1" } },
    { description := "Pause/unpause recording",
      shortcut := { id := SHORTCUT_ID_PAUSE_UNPAUSE, trigger_description := "ALT+2" } },
    { description := "Save replay",
      shortcut := { id := SHORTCUT_ID_SAVE_REPLAY, trigger_description := "ALT+3" } } ]

/-- The function `gsr_hotkeys_register_wayland_shortcuts_once` for a non-NULL
manager. -/
def gsr_hotkeys_register_wayland_shortcuts_once (P : Portal) (self : GsrHotkeys) : GsrHotkeys :=
  if self.display_server ≠ GsrDisplayServer.GSR_DISPLAY_SERVER_WAYLAND then self
  else if !self.wayland_initialized then self
  else if self.wayland_shortcuts_bound || self.wayland_shortcuts_received then self
  else
    let self := { self with wayland_shortcuts_bound := true }
    let r := gsr_global_shortcuts_bind_shortcuts P self.wayland self.bus wayland_shortcuts
    { self with wayland := r.2.1, bus := r.2.2 }

/-- Delivery of a portal signal to `signal_callback` as `on_wayland_init` has it
subscribed: `cu->self = &self->wayland`, `cu->deactivated_callback =
on_wayland_deactivated`, `cu->shortcut_changed_callback =
on_wayland_shortcut_changed` and `cu->userdata = self`. -/
def portal_signal (signal_name : String) (parameters : SignalParameters)
    (self : GsrHotkeys) : Option GsrHotkeys :=
  (signal_callback signal_name parameters self.wayland).map (fun invocations =>
    invocations.foldl (fun s invocation =>
      match invocation with
      | SignalInvocation.deactivated_callback shortcut_id => on_wayland_deactivated shortcut_id s
      | SignalInvocation.shortcut_changed_callback shortcut =>
        on_wayland_shortcut_changed shortcut s) self)

/-! ## gsr-window.c : where the window drives the manager -/

/-- The fields `hotkeys` and `wayland_shortcuts_registered` of the struct
`_GsrWindow`; `hotkeys = none` is the NULL pointer. The view stack and the
configuration of the window are reached through `GsrHotkeys.window`, which
points back to the same window. -/
structure GsrWindowHotkeys where
  hotkeys : Option GsrHotkeys
  wayland_shortcuts_registered : Bool
deriving DecidableEq, Repr

/-- The hotkey block of `gsr_window_init`, compiled with both `HAVE_X11` and
`HAVE_WAYLAND`: the manager is created, the flag cleared and the initial grab
for the visible page made. -/
def gsr_window_init_hotkeys (E : Env) (display_server : GsrDisplayServer)
    (window : GsrWindow) : GsrWindowHotkeys :=
  { hotkeys := (gsr_hotkeys_new E display_server window).map
      (gsr_hotkeys_regrab_for_visible_page E.X),
    wayland_shortcuts_registered := false }

/-- The function `on_visible_page_changed`, the handler of
`notify::visible-child-name`, compiled with both `HAVE_X11` and
`HAVE_WAYLAND`. -/
def on_visible_page_changed (X : XServer) (P : Portal) (self : GsrWindowHotkeys) :
    GsrWindowHotkeys :=
  match self.hotkeys with
  | none => self
  | some hotkeys =>
    let hotkeys := gsr_hotkeys_regrab_for_visible_page X hotkeys
    if !self.wayland_shortcuts_registered then
      match hotkeys.window.visible_page_name with
      | none => { self with hotkeys := some hotkeys }
      | some page =>
        if page ≠ "config" then
          { hotkeys := some (gsr_hotkeys_register_wayland_shortcuts_once P hotkeys),
            wayland_shortcuts_registered := true }
        else { self with hotkeys := some hotkeys }
    else { self with hotkeys := some hotkeys }

/-- The function `gsr_window_on_hotkey_changed` after `save_config`: the
bindings of the window are now `config`. -/
def gsr_window_on_hotkey_changed (X : XServer) (config : GsrConfig) (self : GsrWindowHotkeys) :
    GsrWindowHotkeys :=
  { self with hotkeys := self.hotkeys.map (fun hotkeys =>
      gsr_hotkeys_regrab_for_visible_page X
        { hotkeys with window := { hotkeys.window with config := some config } }) }


/-! ## Vocabulary of the statements -/

/-- The leaf action the `switch` of `on_x11_hotkey` invokes for a `HotkeyAction`. -/
def HotkeyAction.leaf : HotkeyAction → WindowCall
  | HotkeyAction.HOTKEY_ACTION_START_STOP => WindowCall.hotkey_start_stop
  | HotkeyAction.HOTKEY_ACTION_PAUSE_UNPAUSE => WindowCall.hotkey_pause_unpause
  | HotkeyAction.HOTKEY_ACTION_SAVE_REPLAY => WindowCall.hotkey_save_replay

/-- The modifier bits `{Control, Shift, Mod1/Alt, Mod4/Super}`. -/
def BASE_MODS : Nat := ControlMask ||| ShiftMask ||| Mod1Mask ||| Mod4Mask

/-- A remembered combo matches a fired `(modifiers, keysym)`: same keysym, and
modifiers equal to the fired ones or to the fired ones masked to `BASE_MODS`. -/
def GrabbedCombo.matches_fired (c : GrabbedCombo) (modifiers keysym : Nat) : Prop :=
  c.keysym = keysym ∧ (c.x11_modifiers = modifiers ∨ c.x11_modifiers = modifiers &&& BASE_MODS)

instance (c : GrabbedCombo) (modifiers keysym : Nat) :
    Decidable (c.matches_fired modifiers keysym) := by
  unfold GrabbedCombo.matches_fired
  exact inferInstance

/-- The hotkey respects the C field types: `keysym` is an `int64_t` and
`modifiers` a `uint32_t`. -/
def GsrConfigHotkey.in_range (hk : GsrConfigHotkey) : Prop :=
  -(2 ^ 63 : Int) ≤ hk.keysym ∧ hk.keysym < (2 ^ 63 : Int) ∧ hk.modifiers < 2 ^ 32

instance (hk : GsrConfigHotkey) : Decidable hk.in_range := by
  unfold GsrConfigHotkey.in_range
  exact inferInstance

/-- Every hotkey of the config respects the C field types. -/
def GsrConfig.in_range (config : GsrConfig) : Prop :=
  config.streaming_config.start_stop_hotkey.in_range ∧
  config.record_config.start_stop_hotkey.in_range ∧
  config.record_config.pause_unpause_hotkey.in_range ∧
  config.replay_config.start_stop_hotkey.in_range ∧
  config.replay_config.save_hotkey.in_range

instance (config : GsrConfig) : Decidable config.in_range := by
  unfold GsrConfig.in_range
  exact inferInstance

/-- The grab a binding stands for, in the words of the specification: none for
an empty binding, else one grab of the binding converted to X11 form, tagged
with the action. -/
def binding_grab (hk : GsrConfigHotkey) (action : HotkeyAction) : List GrabbedCombo :=
  if hk.keysym = 0 then []
  else [{ x11_modifiers := (gsr_config_hotkey_to_x11 hk).1,
          keysym := (gsr_config_hotkey_to_x11 hk).2, action := action }]

/-- The grabs of a page, in the words of the specification: "stream" has the
streaming start/stop binding, "record" the record start/stop and pause/unpause bindings,
"replay" the replay start/stop and save bindings, any other page none. -/
def page_grabs (page : Option String) (config : Option GsrConfig) : List GrabbedCombo :=
  match config with
  | none => []
  | some config =>
    if page = some "stream" then
      binding_grab config.streaming_config.start_stop_hotkey HotkeyAction.HOTKEY_ACTION_START_STOP
    else if page = some "record" then
      binding_grab config.record_config.start_stop_hotkey HotkeyAction.HOTKEY_ACTION_START_STOP ++
      binding_grab config.record_config.pause_unpause_hotkey
        HotkeyAction.HOTKEY_ACTION_PAUSE_UNPAUSE
    else if page = some "replay" then
      binding_grab config.replay_config.start_stop_hotkey HotkeyAction.HOTKEY_ACTION_START_STOP ++
      binding_grab config.replay_config.save_hotkey HotkeyAction.HOTKEY_ACTION_SAVE_REPLAY
    else []

/-- The four `XGrabKey` requests of a combination, in the order the
specification lists them: modifiers `m`, `m|LockMask`, `m|numlockmask`, `m|numlockmask|LockMask`. -/
def grab_requests (X : XServer) (numlockmask : Nat) (combo : GsrX11HotkeyCombo) :
    List XRequest :=
  [ XRequest.XGrabKey (X.XKeysymToKeycode combo.keysym) combo.modifiers,
    XRequest.XGrabKey (X.XKeysymToKeycode combo.keysym) (combo.modifiers ||| LockMask),
    XRequest.XGrabKey (X.XKeysymToKeycode combo.keysym) (combo.modifiers ||| numlockmask),
    XRequest.XGrabKey (X.XKeysymToKeycode combo.keysym)
      (combo.modifiers ||| numlockmask ||| LockMask) ]

/-- The four `XUngrabKey` requests of a combination, in the same order. -/
def ungrab_requests (X : XServer) (numlockmask : Nat) (combo : GsrX11HotkeyCombo) :
    List XRequest :=
  [ XRequest.XUngrabKey (X.XKeysymToKeycode combo.keysym) combo.modifiers,
    XRequest.XUngrabKey (X.XKeysymToKeycode combo.keysym) (combo.modifiers ||| LockMask),
    XRequest.XUngrabKey (X.XKeysymToKeycode combo.keysym) (combo.modifiers ||| numlockmask),
    XRequest.XUngrabKey (X.XKeysymToKeycode combo.keysym)
      (combo.modifiers ||| numlockmask ||| LockMask) ]

/-- Whether one of the four grab requests of a combination raises an X error
when they are issued, in order, after the requests `sent`. -/
def any_grab_fails (X : XServer) (sent : List XRequest) (numlockmask : Nat)
    (combo : GsrX11HotkeyCombo) : Bool :=
  let kc := X.XKeysymToKeycode combo.keysym
  let m := combo.modifiers
  X.grab_error sent kc m ||
  X.grab_error (sent ++ [XRequest.XGrabKey kc m]) kc (m ||| LockMask) ||
  X.grab_error (sent ++ [XRequest.XGrabKey kc m, XRequest.XGrabKey kc (m ||| LockMask)])
    kc (m ||| numlockmask) ||
  X.grab_error (sent ++ [XRequest.XGrabKey kc m, XRequest.XGrabKey kc (m ||| LockMask),
    XRequest.XGrabKey kc (m ||| numlockmask)]) kc (m ||| numlockmask ||| LockMask)

/-- An X server on which keysyms below 256 are their own keycodes, Num Lock is
on Mod2, and every grab of keycode 50 is refused. -/
def sample_xserver : XServer :=
  { XKeysymToKeycode := fun k => if k = XK_Num_Lock then 77 else k % 256,
    XLookupKeysym := fun k => k,
    XGetModifierMapping := some { max_keypermod := 1, modifiermap := [0, 0, 0, 0, 77, 0, 0, 0] },
    grab_error := fun _ kc _ => kc == 50 }

/-- An environment in which the session bus is reachable but the portal does
not reply to any call. -/
def sample_env_no_reply : Env :=
  { calloc_hotkeys := true, gdk_display_get_default := true,
    gdk_x11_display_get_xdisplay := some { requests := [] }, calloc_x11 := true,
    X := sample_xserver, getrandom := List.range 16, g_bus_get_sync := true,
    portal := { call_sync := fun _ _ => none, proxy_new := fun _ _ => true } }

/-- A window showing the page "record" with the default config. -/
def sample_window : GsrWindow :=
  { visible_page_name := some "record", config := some gsr_config_init_defaults, calls := [] }

/-- A later attempt of the host to bind shortcuts: directly through
`gsr_global_shortcuts_bind_shortcuts` on the manager's client, or through
`gsr_hotkeys_register_wayland_shortcuts_once`. -/
inductive BindAttempt where
  | direct (shortcuts : List gsr_bind_shortcut)
  | once
deriving DecidableEq, Repr

/-- One bind attempt on the manager. -/
def BindAttempt.run (P : Portal) (a : BindAttempt) (self : GsrHotkeys) : GsrHotkeys :=
  match a with
  | BindAttempt.direct shortcuts =>
    let r := gsr_global_shortcuts_bind_shortcuts P self.wayland self.bus shortcuts
    { self with wayland := r.2.1, bus := r.2.2 }
  | BindAttempt.once => gsr_hotkeys_register_wayland_shortcuts_once P self

/-- A sequence of bind attempts, run in order. -/
def run_bind_attempts (P : Portal) (attempts : List BindAttempt) (self : GsrHotkeys) :
    GsrHotkeys :=
  attempts.foldl (fun s a => a.run P s) self

/-- A manager on the direct backend, on the page "record", remembering Alt+1
for start/stop and Alt+2 for pause/unpause. -/
def sample_x11_manager : GsrHotkeys :=
  { display_server := GsrDisplayServer.GSR_DISPLAY_SERVER_X11,
    window := { visible_page_name := some "record", config := some gsr_config_init_defaults,
                calls := [] },
    x11 := some { display := { requests := [] }, numlockmask := Mod2Mask,
                  combos := [{ modifiers := 8, keysym := 49 }, { modifiers := 8, keysym := 50 }] },
    active_combos := [{ x11_modifiers := 8, keysym := 49,
                        action := HotkeyAction.HOTKEY_ACTION_START_STOP },
                      { x11_modifiers := 8, keysym := 50,
                        action := HotkeyAction.HOTKEY_ACTION_PAUSE_UNPAUSE }],
    wayland := { gdbus_con := false, session_handle := none, session_created := false,
                 random_str := "", handle_counter := 0 },
    wayland_initialized := false, wayland_shortcuts_bound := false,
    wayland_shortcuts_received := false,
    bus := { calls := [], request_handlers := [], signal_subscriptions := 0 },
    grab_log := [] }

/-- A manager on the brokered backend whose create-session request is pending:
the state `gsr_hotkeys_new` leaves when the call was answered with the request
path "/request/0". -/
def sample_wayland_manager : GsrHotkeys :=
  { display_server := GsrDisplayServer.GSR_DISPLAY_SERVER_WAYLAND,
    window := { visible_page_name := some "config", config := some gsr_config_init_defaults,
                calls := [] },
    x11 := none,
    active_combos := [],
    wayland := { gdbus_con := true, session_handle := none, session_created := false,
                 random_str := "ABCDEFGHIJKLMNOP", handle_counter := 1 },
    wayland_initialized := false, wayland_shortcuts_bound := false,
    wayland_shortcuts_received := false,
    bus := { calls := [BusCall.CreateSession
                         "gpu_screen_recorder_adwaita_handle_ABCDEFGHIJKLMNOP_0"
                         "gpu_screen_recorder_adwaita"],
             request_handlers := [("/request/0", RequestHandler.dbus_signal_create_session)],
             signal_subscriptions := 0 },
    grab_log := [] }

/-- A manager on the brokered backend whose session "/org/x/Session/1" has been
created and whose signals are subscribed: the sample manager after the
create-session response. -/
def sample_wayland_manager_created : GsrHotkeys :=
  { sample_wayland_manager with
    wayland := { sample_wayland_manager.wayland with
      session_handle := some "/org/x/Session/1", session_created := true },
    wayland_initialized := true,
    bus := { sample_wayland_manager.bus with signal_subscriptions := 1 },
    window := { sample_wayland_manager.window with
      visible_page_name := some "record",
      calls := [WindowCall.on_wayland_hotkeys_init true] } }

/-- A portal that answers every call with the request path "/request/1". -/
def sample_portal : Portal :=
  { call_sync := fun _ _ => some (some "/request/1"), proxy_new := fun _ _ => true }

/-- A portal that does not reply to any call. -/
def sample_portal_no_reply : Portal :=
  { call_sync := fun _ _ => none, proxy_new := fun _ _ => true }

/-- A sequence of calls of `gsr_hotkeys_register_wayland_shortcuts_once`, one per
portal behaviour in the list, run in order. -/
def register_wayland_shortcuts_repeatedly (portals : List Portal) (self : GsrHotkeys) :
    GsrHotkeys :=
  portals.foldl (fun s P => gsr_hotkeys_register_wayland_shortcuts_once P s) self

/-- Two managers agree on what decides the outcome of a regrab: the window, the
display server, the remembered combos of manager and backend, and the
backend's Num Lock mask. -/
def same_remembered (a b : GsrHotkeys) : Prop :=
  a.window = b.window ∧ a.display_server = b.display_server ∧
  a.active_combos = b.active_combos ∧
  a.x11.map (fun x => x.combos) = b.x11.map (fun x => x.combos) ∧
  a.x11.map (fun x => x.numlockmask) = b.x11.map (fun x => x.numlockmask)

/-- The first half of `gsr_hotkeys_regrab_for_visible_page` on the direct
backend `x11`: everything is ungrabbed and `n_active_combos` is reset. -/
def regrab_ungrab_phase (X : XServer) (self : GsrHotkeys) (x11 : GsrX11Hotkeys) : GsrHotkeys :=
  { self with x11 := some (gsr_x11_hotkeys_ungrab_all X x11), active_combos := [] }

/-- The second half of `gsr_hotkeys_regrab_for_visible_page`: the grabs for the
visible page. -/
def regrab_grab_phase (X : XServer) (self : GsrHotkeys) : GsrHotkeys :=
  match get_visible_page_name self with
  | none => self
  | some page =>
    match self.window.config with
    | none => self
    | some config =>
      if page = "stream" then
        grab_hotkey_from_config X self config.streaming_config.start_stop_hotkey
          HotkeyAction.HOTKEY_ACTION_START_STOP
      else if page = "record" then
        grab_hotkey_from_config X
          (grab_hotkey_from_config X self config.record_config.start_stop_hotkey
            HotkeyAction.HOTKEY_ACTION_START_STOP)
          config.record_config.pause_unpause_hotkey HotkeyAction.HOTKEY_ACTION_PAUSE_UNPAUSE
      else if page = "replay" then
        grab_hotkey_from_config X
          (grab_hotkey_from_config X self config.replay_config.start_stop_hotkey
            HotkeyAction.HOTKEY_ACTION_START_STOP)
          config.replay_config.save_hotkey HotkeyAction.HOTKEY_ACTION_SAVE_REPLAY
      else self

/-- The second manager has the window, the display server and the backend
Num Lock mask of the first. -/
def same_frame (a b : GsrHotkeys) : Prop :=
  b.window = a.window ∧ b.display_server = a.display_server ∧
  b.x11.map (fun x => x.numlockmask) = a.x11.map (fun x => x.numlockmask)

/-- The portable modifier mask in canonical form: the left Shift, Control and
Alt bits stand for either variant of their modifier, the left Super bit stands
for any of Meta and Super, and every other bit is cleared. -/
def canonical_modifiers (m : Nat) : Nat :=
  (if m.testBit 0 = true ∨ m.testBit 1 = true then CUSTOM_MASK XK_Shift_L else 0) |||
  (if m.testBit 2 = true ∨ m.testBit 3 = true then CUSTOM_MASK XK_Control_L else 0) |||
  (if m.testBit 8 = true ∨ m.testBit 9 = true then CUSTOM_MASK XK_Alt_L else 0) |||
  (if m.testBit 6 = true ∨ m.testBit 7 = true ∨ m.testBit 10 = true ∨ m.testBit 11 = true
   then CUSTOM_MASK XK_Super_L else 0)

/-- The toolkit's accelerator name/parse pair is inverse at `(keyval, mods)`: the
name written for them is not empty and parses back to them. -/
def Gtk.inverse_at (G : Gtk) (keyval mods : Nat) : Prop :=
  G.gtk_accelerator_name keyval mods ≠ "" ∧
  G.gtk_accelerator_parse (G.gtk_accelerator_name keyval mods) = some (keyval, mods)

instance (G : Gtk) (keyval mods : Nat) : Decidable (G.inverse_at keyval mods) := by
  unfold Gtk.inverse_at
  exact inferInstance

/-- The accelerator names GTK gives the key `1` (keyval 49) alone and with Alt,
with Super and with Shift; every other text is rejected. -/
def sample_gtk : Gtk :=
  { gtk_accelerator_name := fun keyval mods =>
      if keyval = 49 ∧ mods = 0 then "1"
      else if keyval = 49 ∧ mods = GDK_ALT_MASK then "<Alt>1"
      else if keyval = 49 ∧ mods = GDK_SUPER_MASK then "<Super>1"
      else if keyval = 49 ∧ mods = GDK_SHIFT_MASK then "<Shift>1"
      else "",
    gtk_accelerator_parse := fun text =>
      if text = "1" then some (49, 0)
      else if text = "<Alt>1" then some (49, GDK_ALT_MASK)
      else if text = "<Super>1" then some (49, GDK_SUPER_MASK)
      else if text = "<Shift>1" then some (49, GDK_SHIFT_MASK)
      else none }

/-- An X server like `sample_xserver` but with Num Lock on Mod3 and no grab
refused. -/
def sample_xserver_numlock_mod3 : XServer :=
  { XKeysymToKeycode := fun k => if k = XK_Num_Lock then 77 else k % 256,
    XLookupKeysym := fun k => k,
    XGetModifierMapping := some { max_keypermod := 1, modifiermap := [0, 0, 0, 0, 0, 77, 0, 0] },
    grab_error := fun _ _ _ => false }

/-- The backend made by `gsr_x11_hotkeys_new` on `sample_xserver_numlock_mod3`
after a grab of Alt+1. -/
def sample_x11_numlock_mod3 : Option GsrX11Hotkeys :=
  (gsr_x11_hotkeys_new sample_xserver_numlock_mod3 true (some { requests := [] })).map
    (fun x => (gsr_x11_hotkeys_grab sample_xserver_numlock_mod3 x
      { modifiers := Mod1Mask, keysym := 49 }).2)

/-- The backend made by `gsr_x11_hotkeys_new` on `sample_xserver` after two
grabs of Alt+1. -/
def sample_x11_grabbed_twice : Option GsrX11Hotkeys :=
  (gsr_x11_hotkeys_new sample_xserver true (some { requests := [] })).map
    (fun x => (gsr_x11_hotkeys_grab sample_xserver
      (gsr_x11_hotkeys_grab sample_xserver x { modifiers := Mod1Mask, keysym := 49 }).2
      { modifiers := Mod1Mask, keysym := 49 }).2)

/-- The first remembered combo with exactly the given keysym and modifiers. -/
def first_exact (combos : List GrabbedCombo) (modifiers keysym : Nat) : Option GrabbedCombo :=
  combos.find? (fun c => decide (c.keysym = keysym ∧ c.x11_modifiers = modifiers))


/-- The combination `grab_hotkey_from_config` passes to the backend for a
binding. -/
def binding_combo (hk : GsrConfigHotkey) : GsrX11HotkeyCombo :=
  { modifiers := (gsr_config_hotkey_to_x11 hk).1, keysym := (gsr_config_hotkey_to_x11 hk).2 }

/-- The entry `grab_hotkey_from_config` remembers for a binding and its action
tag. -/
def binding_entry (b : GsrConfigHotkey × HotkeyAction) : GrabbedCombo :=
  { x11_modifiers := (gsr_config_hotkey_to_x11 b.1).1,
    keysym := (gsr_config_hotkey_to_x11 b.1).2, action := b.2 }

/-- The binding is configured: it passes both emptiness tests of
`grab_hotkey_from_config`, so a grab is requested for it. -/
def binding_configured (hk : GsrConfigHotkey) : Prop :=
  hk.keysym ≠ 0 ∧ (gsr_config_hotkey_to_x11 hk).2 ≠ 0

instance (hk : GsrConfigHotkey) : Decidable (binding_configured hk) := by
  unfold binding_configured
  exact inferInstance

/-- The bindings of a page with their action tags, in the order
`gsr_hotkeys_regrab_for_visible_page` walks them. -/
def page_bindings (page : String) (config : GsrConfig) :
    List (GsrConfigHotkey × HotkeyAction) :=
  if page = "stream" then
    [(config.streaming_config.start_stop_hotkey, HotkeyAction.HOTKEY_ACTION_START_STOP)]
  else if page = "record" then
    [(config.record_config.start_stop_hotkey, HotkeyAction.HOTKEY_ACTION_START_STOP),
     (config.record_config.pause_unpause_hotkey, HotkeyAction.HOTKEY_ACTION_PAUSE_UNPAUSE)]
  else if page = "replay" then
    [(config.replay_config.start_stop_hotkey, HotkeyAction.HOTKEY_ACTION_START_STOP),
     (config.replay_config.save_hotkey, HotkeyAction.HOTKEY_ACTION_SAVE_REPLAY)]
  else []

/-- Whether the server refuses the grab of `combo` requested on the backend
`x`: one of the four requests, issued after the backend's sync, raises an X
error. -/
def grab_refused (X : XServer) (x : GsrX11Hotkeys) (combo : GsrX11HotkeyCombo) : Bool :=
  any_grab_fails X (x.display.requests ++ [XRequest.XSync]) x.numlockmask combo

/-- The `(modifiers, keysym)` pair of a remembered combo of the manager, as a
combination of the backend. -/
def GrabbedCombo.combo (c : GrabbedCombo) : GsrX11HotkeyCombo :=
  { modifiers := c.x11_modifiers, keysym := c.keysym }

/-- The grabs of a list of bindings made one after the other, as
`gsr_hotkeys_regrab_for_visible_page` makes them for a page. -/
def grab_bindings (X : XServer) (bindings : List (GsrConfigHotkey × HotkeyAction))
    (self : GsrHotkeys) : GsrHotkeys :=
  bindings.foldl (fun s b => grab_hotkey_from_config X s b.1 b.2) self


/-- The bindings `gsr_hotkeys_regrab_for_visible_page` walks for the manager's
window: those of the visible page, none without a page name or a config. -/
def visible_bindings (self : GsrHotkeys) : List (GsrConfigHotkey × HotkeyAction) :=
  match self.window.visible_page_name, self.window.config with
  | some page, some config => page_bindings page config
  | _, _ => []


/-- The backend states reachable from `gsr_x11_hotkeys_new` through
`gsr_x11_hotkeys_grab` and `gsr_x11_hotkeys_ungrab_all`, when a grab of `combo`
is requested on a backend `x` only if `allowed x combo`. -/
inductive BackendReachable (X : XServer)
    (allowed : GsrX11Hotkeys → GsrX11HotkeyCombo → Prop) : GsrX11Hotkeys → Prop where
  | new (calloc_ok : Bool) (display : Option Display) (x : GsrX11Hotkeys) :
      gsr_x11_hotkeys_new X calloc_ok display = some x → BackendReachable X allowed x
  | grab (x : GsrX11Hotkeys) (combo : GsrX11HotkeyCombo) :
      BackendReachable X allowed x → allowed x combo →
      BackendReachable X allowed (gsr_x11_hotkeys_grab X x combo).2
  | ungrab_all (x : GsrX11Hotkeys) :
      BackendReachable X allowed x →
      BackendReachable X allowed (gsr_x11_hotkeys_ungrab_all X x)

/-- The manager states reachable in the environment `E`: made by
`gsr_hotkeys_new`, then driven by regrabs, by the one-time registration, by
fired hotkeys, by signals of the create-session request and of the portal, and
by the host changing the page or the configuration of the window. -/
inductive HotkeysReachable (E : Env) : GsrHotkeys → Prop where
  | new (display_server : GsrDisplayServer) (window : GsrWindow) (s : GsrHotkeys) :
      gsr_hotkeys_new E display_server window = some s → HotkeysReachable E s
  | regrab (s : GsrHotkeys) :
      HotkeysReachable E s → HotkeysReachable E (gsr_hotkeys_regrab_for_visible_page E.X s)
  | register (s : GsrHotkeys) :
      HotkeysReachable E s →
      HotkeysReachable E (gsr_hotkeys_register_wayland_shortcuts_once E.portal s)
  | x11_hotkey (modifiers keysym : Nat) (s : GsrHotkeys) :
      HotkeysReachable E s → HotkeysReachable E (on_x11_hotkey modifiers keysym s)
  | create_session_signal (signal_name : String) (parameters : ResponseParameters)
      (s : GsrHotkeys) :
      HotkeysReachable E s → HotkeysReachable E (create_session_signal signal_name parameters s)
  | portal_signal (signal_name : String) (parameters : SignalParameters) (s s' : GsrHotkeys) :
      HotkeysReachable E s → portal_signal signal_name parameters s = some s' →
      HotkeysReachable E s'
  | window_changed (window : GsrWindow) (s : GsrHotkeys) :
      HotkeysReachable E s → HotkeysReachable E { s with window := window }

/-- The sample manager on the direct backend with the pause/unpause binding of
the page "record" set to the start/stop binding, Alt+1. -/
def sample_x11_manager_same_bindings : GsrHotkeys :=
  { sample_x11_manager with
    window := { visible_page_name := some "record",
                config := some { gsr_config_init_defaults with
                  record_config := { start_stop_hotkey := DEFAULT_HOTKEY_START_STOP,
                                     pause_unpause_hotkey := DEFAULT_HOTKEY_START_STOP } },
                calls := [] } }

/-- The manager `gsr_hotkeys_new` makes in `sample_env_no_reply` for the X11
display server and the sample window. -/
def sample_x11_manager_fresh : GsrHotkeys :=
  { display_server := GsrDisplayServer.GSR_DISPLAY_SERVER_X11,
    window := sample_window,
    x11 := some { display := { requests := [] }, numlockmask := Mod2Mask, combos := [] },
    active_combos := [],
    wayland := { gdbus_con := false, session_handle := none, session_created := false,
                 random_str := "", handle_counter := 0 },
    wayland_initialized := false, wayland_shortcuts_bound := false,
    wayland_shortcuts_received := false,
    bus := SessionBus.fresh,
    grab_log := [] }

/-- A backend at capacity: Alt+1 remembered `MAX_GRABBED_COMBOS` times. -/
def sample_x11_full : GsrX11Hotkeys :=
  { display := { requests := [] }, numlockmask := Mod2Mask,
    combos := List.replicate MAX_GRABBED_COMBOS { modifiers := Mod1Mask, keysym := 49 } }


/-- The value of a decimal digit character. -/
def digit_value (c : Char) : Nat := c.toNat - 48

/-- The number a list of decimal digits denotes, most significant digit first,
continuing from the value `acc` of the digits already read. -/
def decode_decimal (acc : Nat) (l : List Char) : Nat :=
  l.foldl (fun a c => 10 * a + digit_value c) acc

/-- The handle token in the words of the specification: the fixed text, the
salt, an underscore and the counter in decimal. -/
def handle_token_text (salt : String) (counter : Nat) : String :=
  "gpu_screen_recorder_adwaita_handle_" ++ salt ++ "_" ++ toString counter

/-- The client after `n` calls of `gsr_dbus_portal_get_unique_handle_token` with
the 64-byte buffer of `create_session`, `list_shortcuts` and
`bind_shortcuts`. -/
def handle_token_calls (self : gsr_global_shortcuts) : Nat → gsr_global_shortcuts
  | 0 => self
  | n + 1 => (gsr_dbus_portal_get_unique_handle_token (handle_token_calls self n) 64).2


/-- A toolkit that names the key-less accelerator with Alt "<Alt>" and reads it
back as keyval 0 with Alt; every other text is rejected. -/
def sample_gtk_modifier_only : Gtk :=
  { gtk_accelerator_name := fun keyval mods =>
      if keyval = 0 ∧ mods = GDK_ALT_MASK then "<Alt>" else "",
    gtk_accelerator_parse := fun text =>
      if text = "<Alt>" then some (0, GDK_ALT_MASK) else none }


/-- What the main loop delivers to the window of a manager on the brokered
backend: the view stack shows another page, or the `Response` signal of the
create-session request arrives. -/
inductive HostEvent where
  | page_changed (page : String)
  | create_session_response (parameters : ResponseParameters)
deriving DecidableEq, Repr

/-- The handling of one event: a page change sets the visible page and runs
`on_visible_page_changed`; the response runs the handler connected by
`gsr_hotkeys_new`. -/
def HostEvent.run (X : XServer) (P : Portal) (e : HostEvent) (w : GsrWindowHotkeys) :
    GsrWindowHotkeys :=
  match e with
  | HostEvent.page_changed page =>
    on_visible_page_changed X P
      { w with hotkeys := w.hotkeys.map (fun h =>
          { h with window := { h.window with visible_page_name := some page } }) }
  | HostEvent.create_session_response parameters =>
    { w with hotkeys := w.hotkeys.map (create_session_signal "Response" parameters) }

/-- The events handled in order. -/
def run_host_events (X : XServer) (P : Portal) (events : List HostEvent)
    (w : GsrWindowHotkeys) : GsrWindowHotkeys :=
  events.foldl (fun w e => e.run X P w) w

/-- The bind calls the window's manager has made on the session bus. -/
def bind_calls (w : GsrWindowHotkeys) : List BusCall :=
  match w.hotkeys with
  | none => []
  | some h => h.bus.calls.filter (fun c =>
      match c with
      | BusCall.BindShortcuts _ _ _ => true
      | _ => false)

/-- The window after `gsr_window_init` on the brokered backend: its manager is
`sample_wayland_manager`, whose create-session request is pending, the page
"config" is shown and the registration flag is clear. -/
def sample_window_hotkeys_wayland : GsrWindowHotkeys :=
  { hotkeys := some sample_wayland_manager, wayland_shortcuts_registered := false }

/-- An environment on the brokered backend: `getrandom` delivers the bytes
0 to 15 and the portal answers every call with the request path
"/request/0". -/
def sample_env_wayland : Env :=
  { calloc_hotkeys := true, gdk_display_get_default := true,
    gdk_x11_display_get_xdisplay := none, calloc_x11 := true,
    X := sample_xserver, getrandom := List.range 16, g_bus_get_sync := true,
    portal := { call_sync := fun _ _ => some (some "/request/0"),
                proxy_new := fun _ _ => true } }


/-- The parameters of a successful create-session response. -/
def sample_session_response : ResponseParameters :=
  { response := 0,
    results := some [("session_handle",
      GVariant.basic (GVariantBasic.string "/org/x/Session/1"))] }


/-- The modifier state with the lock-key bits stripped, in the words of the
specification: the bit detected for Num Lock and the Caps Lock bit are cleared
on an `unsigned int`. -/
def state_without_lock_bits (numlockmask state : Nat) : Nat :=
  state &&& (UINT_SIZE - 1 - (numlockmask ||| LockMask))


/-! ## Lemmas on the lookup loop of `on_x11_hotkey` -/

theorem on_x11_hotkey_lookup_eq_none (combos : List GrabbedCombo) (modifiers keysym : Nat) :
    on_x11_hotkey_lookup combos modifiers keysym = none ↔
      ∀ c ∈ combos, ¬ (c.keysym = keysym ∧ c.x11_modifiers = modifiers) := by
  induction combos with
  | nil => simp [on_x11_hotkey_lookup]
  | cons c rest ih =>
    unfold on_x11_hotkey_lookup
    by_cases h : c.keysym = keysym ∧ c.x11_modifiers = modifiers
    · simp [h]
    · simp only [h, if_false, ih, List.mem_cons, forall_eq_or_imp, not_false_eq_true, true_and]

theorem on_x11_hotkey_lookup_eq_some (combos : List GrabbedCombo) (modifiers keysym : Nat)
    (a : HotkeyAction) (h : on_x11_hotkey_lookup combos modifiers keysym = some a) :
    ∃ c ∈ combos, c.keysym = keysym ∧ c.x11_modifiers = modifiers ∧ c.action = a := by
  induction combos with
  | nil => simp [on_x11_hotkey_lookup] at h
  | cons c rest ih =>
    unfold on_x11_hotkey_lookup at h
    by_cases hc : c.keysym = keysym ∧ c.x11_modifiers = modifiers
    · simp only [hc, and_self, if_true, Option.some.injEq] at h
      exact ⟨c, List.mem_cons_self _ _, hc.1, hc.2, h⟩
    · simp only [hc, if_false] at h
      obtain ⟨c', hmem, h'⟩ := ih h
      exact ⟨c', List.mem_cons_of_mem _ hmem, h'⟩

/-- The effect of `on_x11_hotkey` once the outcome of its two loops is known. -/
theorem on_x11_hotkey_of_found (modifiers keysym : Nat) (self : GsrHotkeys) (a : HotkeyAction)
    (h : (match on_x11_hotkey_lookup self.active_combos modifiers keysym with
          | some action => some action
          | none => on_x11_hotkey_lookup self.active_combos
              (modifiers &&& (ControlMask ||| ShiftMask ||| Mod1Mask ||| Mod4Mask)) keysym)
         = some a) :
    on_x11_hotkey modifiers keysym self = { self with window := self.window.call a.leaf } := by
  unfold on_x11_hotkey
  simp only [h]
  cases a <;> rfl

/-! ## Lemmas on `grab_hotkey_from_config` -/

theorem gsr_config_hotkey_to_x11_keysym_ne_zero (hk : GsrConfigHotkey) (hr : hk.in_range)
    (h : hk.keysym ≠ 0) : (gsr_config_hotkey_to_x11 hk).2 ≠ 0 := by
  obtain ⟨h1, h2, _⟩ := hr
  simp only [gsr_config_hotkey_to_x11]
  norm_num at h1 h2 ⊢
  omega

theorem grab_hotkey_from_config_grab_log (X : XServer) (self : GsrHotkeys)
    (hk : GsrConfigHotkey) (action : HotkeyAction) (hr : hk.in_range) :
    (grab_hotkey_from_config X self hk action).grab_log =
      self.grab_log ++ binding_grab hk action := by
  unfold grab_hotkey_from_config binding_grab gsr_config_hotkey_is_empty
  by_cases h0 : hk.keysym = 0
  · simp [h0]
  · have hne := gsr_config_hotkey_to_x11_keysym_ne_zero hk hr h0
    simp only [beq_iff_eq, h0, if_false, hne]
    cases self.x11 with
    | none => rfl
    | some x11 =>
      simp only
      split
      · rfl
      · split <;> rfl

theorem grab_hotkey_from_config_window (X : XServer) (self : GsrHotkeys)
    (hk : GsrConfigHotkey) (action : HotkeyAction) :
    (grab_hotkey_from_config X self hk action).window = self.window := by
  unfold grab_hotkey_from_config
  split
  · rfl
  · simp only
    split
    · rfl
    · cases self.x11 with
      | none => rfl
      | some x11 =>
        simp only
        split
        · rfl
        · split <;> rfl

/-! ## Lemmas on the portal client -/

theorem call_and_connect_false (P : Portal) (bus : SessionBus) (call : BusCall)
    (handler : RequestHandler) (h : (call_and_connect P bus call handler).1 = false) :
    (call_and_connect P bus call handler).2 = { bus with calls := bus.calls ++ [call] } := by
  unfold call_and_connect at h ⊢
  rcases hr : P.call_sync bus call with _ | _ | val
  · rfl
  · rfl
  · simp only [hr] at h ⊢
    by_cases hp : P.proxy_new { bus with calls := bus.calls ++ [call] } val = true
    · simp [hp] at h
    · simp [hp]

theorem bind_attempt_run_disabled (P : Portal) (a : BindAttempt) (self : GsrHotkeys)
    (hc : self.wayland.session_created = false) (hi : self.wayland_initialized = false) :
    a.run P self = self := by
  cases a with
  | direct shortcuts =>
    unfold BindAttempt.run gsr_global_shortcuts_bind_shortcuts
    simp [hc]
  | once =>
    unfold BindAttempt.run gsr_hotkeys_register_wayland_shortcuts_once
    simp [hi]

theorem run_bind_attempts_disabled (P : Portal) (attempts : List BindAttempt)
    (self : GsrHotkeys) (hc : self.wayland.session_created = false)
    (hi : self.wayland_initialized = false) :
    run_bind_attempts P attempts self = self := by
  unfold run_bind_attempts
  induction attempts with
  | nil => rfl
  | cons a rest ih =>
    rw [List.foldl_cons, bind_attempt_run_disabled P a self hc hi]
    exact ih

theorem call_and_connect_calls (P : Portal) (bus : SessionBus) (call : BusCall)
    (handler : RequestHandler) :
    (call_and_connect P bus call handler).2.calls = bus.calls ++ [call] := by
  unfold call_and_connect
  rcases P.call_sync bus call with _ | _ | val
  · rfl
  · rfl
  · simp only
    split <;> rfl

theorem register_wayland_shortcuts_once_noop (P : Portal) (self : GsrHotkeys)
    (h : self.wayland_shortcuts_bound = true ∨ self.wayland_shortcuts_received = true) :
    gsr_hotkeys_register_wayland_shortcuts_once P self = self := by
  unfold gsr_hotkeys_register_wayland_shortcuts_once
  rcases h with h | h <;> simp [h]

theorem register_wayland_shortcuts_repeatedly_noop (portals : List Portal) (self : GsrHotkeys)
    (h : self.wayland_shortcuts_bound = true ∨ self.wayland_shortcuts_received = true) :
    register_wayland_shortcuts_repeatedly portals self = self := by
  unfold register_wayland_shortcuts_repeatedly
  induction portals with
  | nil => rfl
  | cons P rest ih =>
    rw [List.foldl_cons, register_wayland_shortcuts_once_noop P self h]
    exact ih

/-! ## Lemmas on the direct backend -/

theorem ungrab_all_fold_requests (X : XServer) (numlockmask : Nat)
    (combos : List GsrX11HotkeyCombo) (d : Display) :
    (combos.foldl (fun d c =>
      (lock_modifiers numlockmask).foldl
        (fun d m => XUngrabKey d (X.XKeysymToKeycode c.keysym) (c.modifiers ||| m)) d) d).requests =
      d.requests ++ combos.flatMap (ungrab_requests X numlockmask) := by
  induction combos generalizing d with
  | nil => simp
  | cons c rest ih =>
    rw [List.foldl_cons, ih]
    simp [lock_modifiers, List.foldl, XUngrabKey, ungrab_requests, Nat.lor_assoc]

theorem gsr_x11_hotkeys_ungrab_all_requests (X : XServer) (self : GsrX11Hotkeys) :
    (gsr_x11_hotkeys_ungrab_all X self).display.requests =
      self.display.requests ++ self.combos.flatMap (ungrab_requests X self.numlockmask) ++
        [XRequest.XSync] := by
  unfold gsr_x11_hotkeys_ungrab_all XSync
  simp only [ungrab_all_fold_requests]

theorem gsr_x11_hotkeys_grab_outcome (X : XServer) (outcome : Nat → Nat → Bool)
    (hX : ∀ sent kc mods, X.grab_error sent kc mods = outcome kc mods)
    (x y : GsrX11Hotkeys) (combo : GsrX11HotkeyCombo)
    (hc : x.combos = y.combos) (hn : x.numlockmask = y.numlockmask) :
    (gsr_x11_hotkeys_grab X x combo).1 = (gsr_x11_hotkeys_grab X y combo).1 ∧
    (gsr_x11_hotkeys_grab X x combo).2.combos = (gsr_x11_hotkeys_grab X y combo).2.combos ∧
    (gsr_x11_hotkeys_grab X x combo).2.numlockmask =
      (gsr_x11_hotkeys_grab X y combo).2.numlockmask := by
  unfold gsr_x11_hotkeys_grab GsrX11Hotkeys.num_combos
  simp only [hc, hn, lock_modifiers, List.foldl, XGrabKey, hX]
  split
  · exact ⟨rfl, hc, hn⟩
  · split
    · exact ⟨rfl, hc, hn⟩
    · split
      · exact ⟨rfl, rfl, rfl⟩
      · exact ⟨rfl, rfl, rfl⟩

theorem gsr_x11_hotkeys_grab_requests (X : XServer) (x : GsrX11Hotkeys)
    (combo : GsrX11HotkeyCombo) :
    ∃ rest, (gsr_x11_hotkeys_grab X x combo).2.display.requests =
      x.display.requests ++ rest := by
  unfold gsr_x11_hotkeys_grab
  split
  · exact ⟨[], by simp⟩
  · split
    · exact ⟨[], by simp⟩
    · simp only [lock_modifiers, List.foldl, XGrabKey, XSync, XUngrabKey]
      split
      · exact ⟨_, by simp only [List.append_assoc]; rfl⟩
      · exact ⟨_, by simp only [List.append_assoc]; rfl⟩

theorem grab_hotkey_from_config_same_remembered (X : XServer) (outcome : Nat → Nat → Bool)
    (hX : ∀ sent kc mods, X.grab_error sent kc mods = outcome kc mods)
    (a b : GsrHotkeys) (hk : GsrConfigHotkey) (action : HotkeyAction)
    (h : same_remembered a b) :
    same_remembered (grab_hotkey_from_config X a hk action)
      (grab_hotkey_from_config X b hk action) := by
  obtain ⟨hw, hd, hac, hcm, hnm⟩ := h
  unfold grab_hotkey_from_config
  by_cases he : gsr_config_hotkey_is_empty hk = true
  · simp only [he, if_true]
    exact ⟨hw, hd, hac, hcm, hnm⟩
  · simp only [he, Bool.false_eq_true, if_false]
    by_cases hz : (gsr_config_hotkey_to_x11 hk).2 = 0
    · simp only [hz, if_true]
      exact ⟨hw, hd, hac, hcm, hnm⟩
    · simp only [hz, if_false]
      cases hxa : a.x11 with
      | none =>
        cases hxb : b.x11 with
        | none =>
          simp only
          exact ⟨hw, hd, hac, by simp [hxa, hxb], by simp [hxa, hxb]⟩
        | some xb => rw [hxa, hxb] at hcm; simp at hcm
      | some xa =>
        cases hxb : b.x11 with
        | none => rw [hxa, hxb] at hcm; simp at hcm
        | some xb =>
          rw [hxa, hxb] at hcm hnm
          simp only [Option.map_some', Option.some.injEq] at hcm hnm
          obtain ⟨r1, r2, r3⟩ := gsr_x11_hotkeys_grab_outcome X outcome hX xa xb
            { modifiers := (gsr_config_hotkey_to_x11 hk).1,
              keysym := (gsr_config_hotkey_to_x11 hk).2 } hcm hnm
          simp only [r1, GsrHotkeys.n_active_combos, hac]
          split
          · exact ⟨hw, hd, rfl, by simp [r2], by simp [r3]⟩
          · split
            · exact ⟨hw, hd, rfl, by simp [r2], by simp [r3]⟩
            · exact ⟨hw, hd, rfl, by simp [r2], by simp [r3]⟩

theorem grab_hotkey_from_config_requests (X : XServer) (self : GsrHotkeys) (x11 : GsrX11Hotkeys)
    (hk : GsrConfigHotkey) (action : HotkeyAction) (hx : self.x11 = some x11) :
    ∃ x11' rest, (grab_hotkey_from_config X self hk action).x11 = some x11' ∧
      x11'.display.requests = x11.display.requests ++ rest := by
  unfold grab_hotkey_from_config
  split
  · exact ⟨x11, [], hx, by simp⟩
  · simp only
    split
    · exact ⟨x11, [], hx, by simp⟩
    · simp only [hx]
      obtain ⟨rest, hrest⟩ := gsr_x11_hotkeys_grab_requests X x11
        { modifiers := (gsr_config_hotkey_to_x11 hk).1,
          keysym := (gsr_config_hotkey_to_x11 hk).2 }
      refine ⟨_, rest, ?_, hrest⟩
      split
      · rfl
      · split <;> rfl

theorem gsr_hotkeys_regrab_for_visible_page_phases (X : XServer) (self : GsrHotkeys)
    (x11 : GsrX11Hotkeys) (hx : self.x11 = some x11)
    (hd : self.display_server = GsrDisplayServer.GSR_DISPLAY_SERVER_X11) :
    gsr_hotkeys_regrab_for_visible_page X self =
      regrab_grab_phase X (regrab_ungrab_phase X self x11) := by
  unfold gsr_hotkeys_regrab_for_visible_page regrab_grab_phase regrab_ungrab_phase
  simp only [hx, hd, ne_eq, not_true_eq_false, if_false]

theorem gsr_x11_hotkeys_grab_numlockmask (X : XServer) (x : GsrX11Hotkeys)
    (combo : GsrX11HotkeyCombo) :
    (gsr_x11_hotkeys_grab X x combo).2.numlockmask = x.numlockmask := by
  unfold gsr_x11_hotkeys_grab
  split
  · rfl
  · split
    · rfl
    · simp only
      split <;> rfl

theorem grab_hotkey_from_config_same_frame (X : XServer) (self : GsrHotkeys)
    (hk : GsrConfigHotkey) (action : HotkeyAction) :
    same_frame self (grab_hotkey_from_config X self hk action) := by
  unfold grab_hotkey_from_config same_frame
  split
  · exact ⟨rfl, rfl, rfl⟩
  · simp only
    split
    · exact ⟨rfl, rfl, rfl⟩
    · cases hx : self.x11 with
      | none => exact ⟨rfl, rfl, by simp [hx]⟩
      | some x11 =>
        simp only
        have hn := gsr_x11_hotkeys_grab_numlockmask X x11
          { modifiers := (gsr_config_hotkey_to_x11 hk).1,
            keysym := (gsr_config_hotkey_to_x11 hk).2 }
        split
        · exact ⟨rfl, rfl, by simp [hn]⟩
        · split
          · exact ⟨rfl, rfl, by simp [hn]⟩
          · exact ⟨rfl, rfl, by simp [hn]⟩

theorem same_frame_trans (a b c : GsrHotkeys) (h1 : same_frame a b) (h2 : same_frame b c) :
    same_frame a c :=
  ⟨h2.1.trans h1.1, h2.2.1.trans h1.2.1, h2.2.2.trans h1.2.2⟩

theorem regrab_grab_phase_same_frame (X : XServer) (self : GsrHotkeys) :
    same_frame self (regrab_grab_phase X self) := by
  unfold regrab_grab_phase
  split
  · exact ⟨rfl, rfl, rfl⟩
  · split
    · exact ⟨rfl, rfl, rfl⟩
    · split
      · exact grab_hotkey_from_config_same_frame X self _ _
      · split
        · exact same_frame_trans _ _ _ (grab_hotkey_from_config_same_frame X self _ _)
            (grab_hotkey_from_config_same_frame X _ _ _)
        · split
          · exact same_frame_trans _ _ _ (grab_hotkey_from_config_same_frame X self _ _)
              (grab_hotkey_from_config_same_frame X _ _ _)
          · exact ⟨rfl, rfl, rfl⟩

theorem regrab_grab_phase_same_remembered (X : XServer) (outcome : Nat → Nat → Bool)
    (hX : ∀ sent kc mods, X.grab_error sent kc mods = outcome kc mods)
    (a b : GsrHotkeys) (h : same_remembered a b) :
    same_remembered (regrab_grab_phase X a) (regrab_grab_phase X b) := by
  have hw : a.window = b.window := h.1
  unfold regrab_grab_phase get_visible_page_name
  rw [hw]
  cases b.window.visible_page_name with
  | none => exact h
  | some page =>
    cases b.window.config with
    | none => exact h
    | some config =>
      simp only
      split
      · exact grab_hotkey_from_config_same_remembered X outcome hX a b _ _ h
      · split
        · exact grab_hotkey_from_config_same_remembered X outcome hX _ _ _ _
            (grab_hotkey_from_config_same_remembered X outcome hX a b _ _ h)
        · split
          · exact grab_hotkey_from_config_same_remembered X outcome hX _ _ _ _
              (grab_hotkey_from_config_same_remembered X outcome hX a b _ _ h)
          · exact h

theorem regrab_grab_phase_requests (X : XServer) (self : GsrHotkeys) (x11 : GsrX11Hotkeys)
    (hx : self.x11 = some x11) :
    ∃ x11' rest, (regrab_grab_phase X self).x11 = some x11' ∧
      x11'.display.requests = x11.display.requests ++ rest := by
  unfold regrab_grab_phase
  split
  · exact ⟨x11, [], hx, by simp⟩
  · split
    · exact ⟨x11, [], hx, by simp⟩
    · split
      · exact grab_hotkey_from_config_requests X self x11 _ _ hx
      · split
        · obtain ⟨x1, r1, h1, e1⟩ := grab_hotkey_from_config_requests X self x11 _
            HotkeyAction.HOTKEY_ACTION_START_STOP hx
          obtain ⟨x2, r2, h2, e2⟩ := grab_hotkey_from_config_requests X _ x1 _
            HotkeyAction.HOTKEY_ACTION_PAUSE_UNPAUSE h1
          exact ⟨x2, r1 ++ r2, h2, by rw [e2, e1, List.append_assoc]⟩
        · split
          · obtain ⟨x1, r1, h1, e1⟩ := grab_hotkey_from_config_requests X self x11 _
              HotkeyAction.HOTKEY_ACTION_START_STOP hx
            obtain ⟨x2, r2, h2, e2⟩ := grab_hotkey_from_config_requests X _ x1 _
              HotkeyAction.HOTKEY_ACTION_SAVE_REPLAY h1
            exact ⟨x2, r1 ++ r2, h2, by rw [e2, e1, List.append_assoc]⟩
          · exact ⟨x11, [], hx, by simp⟩

/-! ## Lemmas on the modifier masks -/

theorem and_ne_zero_iff_exists_testBit (m mask : Nat) :
    m &&& mask ≠ 0 ↔ ∃ i, m.testBit i = true ∧ mask.testBit i = true := by
  constructor
  · intro h
    obtain ⟨i, hi⟩ := Nat.ne_zero_implies_bit_true h
    rw [Nat.testBit_and, Bool.and_eq_true] at hi
    exact ⟨i, hi⟩
  · rintro ⟨i, h1, h2⟩ h0
    have h3 : (m &&& mask).testBit i = true := by
      rw [Nat.testBit_and, h1, h2]
      rfl
    rw [h0, Nat.zero_testBit] at h3
    exact Bool.noConfusion h3

theorem testBit_of_mask_bound (mask i n : Nat) (hm : mask < 2 ^ n)
    (h : mask.testBit i = true) : i < n := by
  by_contra hge
  have hlt : mask < 2 ^ i :=
    lt_of_lt_of_le hm (Nat.pow_le_pow_right (by norm_num) (Nat.le_of_not_lt hge))
  rw [Nat.testBit_lt_two_pow hlt] at h
  exact Bool.noConfusion h

theorem and_MASK_SHIFT (m : Nat) :
    m &&& MASK_SHIFT ≠ 0 ↔ (m.testBit 0 = true ∨ m.testBit 1 = true) := by
  rw [and_ne_zero_iff_exists_testBit]
  constructor
  · rintro ⟨i, h1, h2⟩
    have hi : i < 2 := testBit_of_mask_bound MASK_SHIFT i 2 (by decide) h2
    interval_cases i
    · exact Or.inl h1
    · exact Or.inr h1
  · rintro (h | h)
    · exact ⟨0, h, by decide⟩
    · exact ⟨1, h, by decide⟩

theorem and_MASK_CONTROL (m : Nat) :
    m &&& MASK_CONTROL ≠ 0 ↔ (m.testBit 2 = true ∨ m.testBit 3 = true) := by
  rw [and_ne_zero_iff_exists_testBit]
  constructor
  · rintro ⟨i, h1, h2⟩
    have hi : i < 4 := testBit_of_mask_bound MASK_CONTROL i 4 (by decide) h2
    interval_cases i
    · exact absurd h2 (by decide)
    · exact absurd h2 (by decide)
    · exact Or.inl h1
    · exact Or.inr h1
  · rintro (h | h)
    · exact ⟨2, h, by decide⟩
    · exact ⟨3, h, by decide⟩

theorem and_MASK_ALT (m : Nat) :
    m &&& MASK_ALT ≠ 0 ↔ (m.testBit 8 = true ∨ m.testBit 9 = true) := by
  rw [and_ne_zero_iff_exists_testBit]
  constructor
  · rintro ⟨i, h1, h2⟩
    have hi : i < 10 := testBit_of_mask_bound MASK_ALT i 10 (by decide) h2
    interval_cases i
    · exact absurd h2 (by decide)
    · exact absurd h2 (by decide)
    · exact absurd h2 (by decide)
    · exact absurd h2 (by decide)
    · exact absurd h2 (by decide)
    · exact absurd h2 (by decide)
    · exact absurd h2 (by decide)
    · exact absurd h2 (by decide)
    · exact Or.inl h1
    · exact Or.inr h1
  · rintro (h | h)
    · exact ⟨8, h, by decide⟩
    · exact ⟨9, h, by decide⟩

theorem and_MASK_META_SUPER (m : Nat) :
    m &&& (MASK_META ||| MASK_SUPER) ≠ 0 ↔
      (m.testBit 6 = true ∨ m.testBit 7 = true ∨ m.testBit 10 = true ∨
        m.testBit 11 = true) := by
  rw [and_ne_zero_iff_exists_testBit]
  constructor
  · rintro ⟨i, h1, h2⟩
    have hi : i < 12 := testBit_of_mask_bound (MASK_META ||| MASK_SUPER) i 12 (by decide) h2
    interval_cases i
    · exact absurd h2 (by decide)
    · exact absurd h2 (by decide)
    · exact absurd h2 (by decide)
    · exact absurd h2 (by decide)
    · exact absurd h2 (by decide)
    · exact absurd h2 (by decide)
    · exact Or.inl h1
    · exact Or.inr (Or.inl h1)
    · exact absurd h2 (by decide)
    · exact absurd h2 (by decide)
    · exact Or.inr (Or.inr (Or.inl h1))
    · exact Or.inr (Or.inr (Or.inr h1))
  · rintro (h | h | h | h)
    · exact ⟨6, h, by decide⟩
    · exact ⟨7, h, by decide⟩
    · exact ⟨10, h, by decide⟩
    · exact ⟨11, h, by decide⟩

theorem custom_of_gdk_mods_of_custom (m : Nat) :
    custom_of_gdk_mods (gdk_mods_of_custom m) = canonical_modifiers m := by
  unfold canonical_modifiers
  simp only [← and_MASK_SHIFT, ← and_MASK_CONTROL, ← and_MASK_ALT, ← and_MASK_META_SUPER]
  unfold custom_of_gdk_mods gdk_mods_of_custom
  by_cases h1 : m &&& MASK_SHIFT ≠ 0 <;> by_cases h2 : m &&& MASK_CONTROL ≠ 0 <;>
    by_cases h3 : m &&& MASK_ALT ≠ 0 <;> by_cases h4 : m &&& (MASK_META ||| MASK_SUPER) ≠ 0 <;>
    simp only [h1, h2, h3, h4, ne_eq, not_true_eq_false, not_false_eq_true, if_true,
      if_false] <;> decide

theorem gsr_global_shortcuts_init_gdbus_con (P : Portal) (getrandom : List Nat)
    (bus_get : Bool) (bus : SessionBus) :
    (gsr_global_shortcuts_init P getrandom bus_get bus).2.1.gdbus_con =
      (gsr_global_shortcuts_init P getrandom bus_get bus).1 := by
  unfold gsr_global_shortcuts_init
  cases generate_random_characters getrandom DBUS_RANDOM_STR_SIZE random_alphabet with
  | none => rfl
  | some str =>
    simp only
    cases bus_get with
    | false => rfl
    | true =>
      simp only [Bool.not_true, Bool.false_eq_true, if_false]
      cases hr : (gsr_global_shortcuts_create_session P
        { gdbus_con := true, session_handle := none, session_created := false,
          random_str := str, handle_counter := 0 } bus).1 with
      | false => simp [gsr_global_shortcuts_deinit]
      | true =>
        simp only [Bool.not_true, Bool.false_eq_true, if_false]
        simp [gsr_global_shortcuts_create_session, gsr_dbus_portal_get_unique_handle_token]

/-! ## Lemmas on the two dispatch loops -/

theorem on_x11_hotkey_lookup_eq_first_exact (combos : List GrabbedCombo)
    (modifiers keysym : Nat) :
    on_x11_hotkey_lookup combos modifiers keysym =
      (first_exact combos modifiers keysym).map (fun c => c.action) := by
  induction combos with
  | nil => rfl
  | cons c rest ih =>
    unfold on_x11_hotkey_lookup first_exact
    by_cases h : c.keysym = keysym ∧ c.x11_modifiers = modifiers
    · simp [h, List.find?]
    · simp only [if_neg h, List.find?, decide_eq_false h]
      exact ih

theorem x11_source_dispatch_match_eq (combos : List GsrX11HotkeyCombo) (keysym state : Nat) :
    x11_source_dispatch_match combos keysym state =
      if ({ modifiers := state, keysym := keysym } : GsrX11HotkeyCombo) ∈ combos
      then [(state, keysym)] else [] := by
  induction combos with
  | nil => simp [x11_source_dispatch_match]
  | cons c rest ih =>
    unfold x11_source_dispatch_match
    by_cases h : keysym = c.keysym ∧ state = c.modifiers
    · obtain ⟨hk, hs⟩ := h
      subst hk
      subst hs
      simp
    · rw [if_neg h, ih]
      have hne : ({ modifiers := state, keysym := keysym } : GsrX11HotkeyCombo) ≠ c := by
        intro e
        apply h
        subst e
        exact ⟨rfl, rfl⟩
      simp [List.mem_cons, hne]


/-! ## Lemmas on the grabs of a page -/

theorem gsr_x11_hotkeys_grab_below_capacity (X : XServer) (x : GsrX11Hotkeys)
    (c : GsrX11HotkeyCombo) (hcap : x.num_combos < MAX_GRABBED_COMBOS) (hk : c.keysym ≠ 0) :
    (gsr_x11_hotkeys_grab X x c).1 = !grab_refused X x c ∧
    (gsr_x11_hotkeys_grab X x c).2.combos =
      (if grab_refused X x c = true then x.combos else x.combos ++ [c]) ∧
    (gsr_x11_hotkeys_grab X x c).2.numlockmask = x.numlockmask := by
  have hcap' : ¬ x.num_combos ≥ MAX_GRABBED_COMBOS := Nat.not_le.mpr hcap
  have hne : ¬ (c.keysym = 0 ∧ c.modifiers = 0) := fun h => hk h.1
  have hassoc : c.modifiers ||| (x.numlockmask ||| LockMask) =
      c.modifiers ||| x.numlockmask ||| LockMask := (Nat.lor_assoc _ _ _).symm
  unfold gsr_x11_hotkeys_grab grab_refused any_grab_fails
  simp only [hcap', hne, if_false, lock_modifiers, List.foldl, XGrabKey, XSync,
    Nat.or_zero, hassoc, Bool.false_or, List.append_assoc, List.singleton_append,
    List.cons_append, List.nil_append]
  split <;> rename_i hf
  · simp only [hf, Bool.not_true, if_true, and_self]
  · simp only [Bool.not_eq_true] at hf
    simp only [hf, Bool.not_false, Bool.false_eq_true, if_false, and_self]

theorem grab_hotkey_from_config_skipped (X : XServer) (self : GsrHotkeys) (hk : GsrConfigHotkey)
    (action : HotkeyAction) (h : ¬ binding_configured hk) :
    grab_hotkey_from_config X self hk action = self := by
  unfold grab_hotkey_from_config gsr_config_hotkey_is_empty
  by_cases h0 : hk.keysym = 0
  · simp [h0]
  · have h1 : (gsr_config_hotkey_to_x11 hk).2 = 0 := by
      by_contra h1
      exact h ⟨h0, h1⟩
    simp [h0, h1]

theorem grab_hotkey_from_config_step (X : XServer) (self : GsrHotkeys) (x : GsrX11Hotkeys)
    (hk : GsrConfigHotkey) (action : HotkeyAction) (hx : self.x11 = some x)
    (hc : binding_configured hk) (hcap : x.num_combos < MAX_GRABBED_COMBOS)
    (hn : self.active_combos.length < MAX_ACTIVE_COMBOS) :
    grab_hotkey_from_config X self hk action =
      { self with
        grab_log := self.grab_log ++ [binding_entry (hk, action)],
        x11 := some (gsr_x11_hotkeys_grab X x (binding_combo hk)).2,
        active_combos :=
          if grab_refused X x (binding_combo hk) = true then self.active_combos
          else self.active_combos ++ [binding_entry (hk, action)] } := by
  obtain ⟨h0, h1⟩ := hc
  obtain ⟨r1, _, _⟩ := gsr_x11_hotkeys_grab_below_capacity X x (binding_combo hk) hcap h1
  unfold grab_hotkey_from_config gsr_config_hotkey_is_empty
  unfold binding_combo at r1
  simp only [beq_iff_eq, h0, h1, if_false, hx, GsrHotkeys.n_active_combos, hn, if_true, r1,
    Bool.not_not, binding_entry, binding_combo]
  split <;> rename_i hg <;> simp only [hg, if_true, if_false]

theorem regrab_grab_phase_eq_grab_bindings (X : XServer) (self : GsrHotkeys) (page : String)
    (config : GsrConfig) (hp : self.window.visible_page_name = some page)
    (hc : self.window.config = some config) :
    regrab_grab_phase X self = grab_bindings X (page_bindings page config) self := by
  unfold regrab_grab_phase get_visible_page_name grab_bindings page_bindings
  simp only [hp, hc]
  split
  · rfl
  · split
    · rfl
    · split
      · rfl
      · rfl

theorem page_bindings_length (page : String) (config : GsrConfig) :
    (page_bindings page config).length ≤ 2 := by
  unfold page_bindings
  split
  · simp
  · split
    · simp
    · split <;> simp

theorem grab_bindings_cons (X : XServer) (b : GsrConfigHotkey × HotkeyAction)
    (rest : List (GsrConfigHotkey × HotkeyAction)) (self : GsrHotkeys) :
    grab_bindings X (b :: rest) self =
      grab_bindings X rest (grab_hotkey_from_config X self b.1 b.2) := rfl

theorem grab_bindings_spec (X : XServer) (bindings : List (GsrConfigHotkey × HotkeyAction)) :
    ∀ (self : GsrHotkeys) (x : GsrX11Hotkeys), self.x11 = some x →
      x.combos.length + bindings.length ≤ MAX_GRABBED_COMBOS →
      self.active_combos.length + bindings.length ≤ MAX_ACTIVE_COMBOS →
      ∃ (x' : GsrX11Hotkeys) (granted : List (GsrConfigHotkey × HotkeyAction)),
        (grab_bindings X bindings self).x11 = some x' ∧
        granted.Sublist (bindings.filter (fun b => decide (binding_configured b.1))) ∧
        x'.combos = x.combos ++ granted.map (fun b => binding_combo b.1) ∧
        (grab_bindings X bindings self).active_combos =
          self.active_combos ++ granted.map binding_entry ∧
        (grab_bindings X bindings self).grab_log =
          self.grab_log ++
            (bindings.filter (fun b => decide (binding_configured b.1))).map binding_entry := by
  induction bindings with
  | nil =>
    intro self x hx _ _
    exact ⟨x, [], hx, List.Sublist.refl _, by simp, by simp [grab_bindings],
      by simp [grab_bindings]⟩
  | cons b rest ih =>
    intro self x hx hcap hn
    simp only [List.length_cons, MAX_GRABBED_COMBOS, MAX_ACTIVE_COMBOS] at hcap hn
    rw [grab_bindings_cons]
    by_cases hc : binding_configured b.1
    · have hcap1 : x.num_combos < MAX_GRABBED_COMBOS := by
        simp only [GsrX11Hotkeys.num_combos, MAX_GRABBED_COMBOS]
        omega
      have hn1 : self.active_combos.length < MAX_ACTIVE_COMBOS := by
        simp only [MAX_ACTIVE_COMBOS]
        omega
      obtain ⟨_, r2, _⟩ := gsr_x11_hotkeys_grab_below_capacity X x (binding_combo b.1) hcap1 hc.2
      rw [grab_hotkey_from_config_step X self x b.1 b.2 hx hc hcap1 hn1]
      rw [List.filter_cons_of_pos (by simpa using hc)]
      by_cases hg : grab_refused X x (binding_combo b.1) = true
      · simp only [hg, if_true] at r2 ⊢
        obtain ⟨x', granted, e1, e2, e3, e4, e5⟩ := ih
          { self with
            grab_log := self.grab_log ++ [binding_entry (b.1, b.2)],
            x11 := some (gsr_x11_hotkeys_grab X x (binding_combo b.1)).2,
            active_combos := self.active_combos }
          (gsr_x11_hotkeys_grab X x (binding_combo b.1)).2 rfl
          (by simp only [r2, MAX_GRABBED_COMBOS]; omega)
          (by simp only [MAX_ACTIVE_COMBOS]; omega)
        refine ⟨x', granted, e1, List.Sublist.cons _ e2, ?_, ?_, ?_⟩
        · rw [e3, r2]
        · rw [e4]
        · rw [e5]
          simp
      · simp only [hg, Bool.false_eq_true, if_false] at r2 ⊢
        obtain ⟨x', granted, e1, e2, e3, e4, e5⟩ := ih
          { self with
            grab_log := self.grab_log ++ [binding_entry (b.1, b.2)],
            x11 := some (gsr_x11_hotkeys_grab X x (binding_combo b.1)).2,
            active_combos := self.active_combos ++ [binding_entry (b.1, b.2)] }
          (gsr_x11_hotkeys_grab X x (binding_combo b.1)).2 rfl
          (by simp only [r2, List.length_append, List.length_singleton, MAX_GRABBED_COMBOS]
              omega)
          (by simp only [List.length_append, List.length_singleton, MAX_ACTIVE_COMBOS]; omega)
        refine ⟨x', b :: granted, e1, List.Sublist.cons₂ _ e2, ?_, ?_, ?_⟩
        · rw [e3, r2]
          simp
        · rw [e4]
          simp
        · rw [e5]
          simp
    · rw [grab_hotkey_from_config_skipped X self b.1 b.2 hc]
      rw [List.filter_cons_of_neg (by simpa using hc)]
      exact ih self x hx (by simp only [MAX_GRABBED_COMBOS]; omega)
        (by simp only [MAX_ACTIVE_COMBOS]; omega)


theorem on_x11_hotkey_of_exact (modifiers keysym : Nat) (self : GsrHotkeys) (a : HotkeyAction)
    (h : on_x11_hotkey_lookup self.active_combos modifiers keysym = some a) :
    on_x11_hotkey modifiers keysym self = { self with window := self.window.call a.leaf } :=
  on_x11_hotkey_of_found modifiers keysym self a (by simp only [h])

theorem visible_bindings_length (self : GsrHotkeys) : (visible_bindings self).length ≤ 2 := by
  unfold visible_bindings
  split
  · exact page_bindings_length _ _
  · simp

theorem regrab_grab_phase_eq_visible (X : XServer) (self : GsrHotkeys) :
    regrab_grab_phase X self = grab_bindings X (visible_bindings self) self := by
  cases hp : self.window.visible_page_name with
  | none =>
    unfold regrab_grab_phase get_visible_page_name visible_bindings
    simp only [hp]
    rfl
  | some page =>
    cases hc : self.window.config with
    | none =>
      unfold regrab_grab_phase get_visible_page_name visible_bindings
      simp only [hp, hc]
      rfl
    | some config =>
      rw [regrab_grab_phase_eq_grab_bindings X self page config hp hc]
      unfold visible_bindings
      simp only [hp, hc]

/-- What a regrab on the direct backend leaves: the backend and the manager
remember the granted ones among the configured bindings of the visible page,
in order, and a grab was requested for each configured binding. -/
theorem regrab_direct_spec (X : XServer) (self : GsrHotkeys) (x : GsrX11Hotkeys)
    (hx : self.x11 = some x)
    (hd : self.display_server = GsrDisplayServer.GSR_DISPLAY_SERVER_X11) :
    ∃ (x' : GsrX11Hotkeys) (granted : List (GsrConfigHotkey × HotkeyAction)),
      (gsr_hotkeys_regrab_for_visible_page X self).x11 = some x' ∧
      granted.Sublist ((visible_bindings self).filter
        (fun b => decide (binding_configured b.1))) ∧
      x'.combos = granted.map (fun b => binding_combo b.1) ∧
      (gsr_hotkeys_regrab_for_visible_page X self).active_combos = granted.map binding_entry ∧
      (gsr_hotkeys_regrab_for_visible_page X self).grab_log =
        self.grab_log ++ ((visible_bindings self).filter
          (fun b => decide (binding_configured b.1))).map binding_entry := by
  rw [gsr_hotkeys_regrab_for_visible_page_phases X self x hx hd, regrab_grab_phase_eq_visible]
  have hv : visible_bindings (regrab_ungrab_phase X self x) = visible_bindings self := rfl
  have hl := visible_bindings_length self
  rw [hv]
  obtain ⟨x', granted, e1, e2, e3, e4, e5⟩ := grab_bindings_spec X (visible_bindings self)
    (regrab_ungrab_phase X self x) (gsr_x11_hotkeys_ungrab_all X x) rfl
    (by
      have hu : (gsr_x11_hotkeys_ungrab_all X x).combos = [] := rfl
      simp only [hu, List.length_nil, MAX_GRABBED_COMBOS]
      omega)
    (by
      simp only [regrab_ungrab_phase, List.length_nil, MAX_ACTIVE_COMBOS]
      omega)
  refine ⟨x', granted, e1, e2, ?_, ?_, e5⟩
  · rw [e3]
    rfl
  · rw [e4]
    rfl

theorem x11_source_dispatch_mem (X : XServer) (self : GsrX11Hotkeys) (pending : List XEvent)
    (fired : Nat × Nat) (h : fired ∈ x11_source_dispatch X self pending) :
    ({ modifiers := fired.1, keysym := fired.2 } : GsrX11HotkeyCombo) ∈ self.combos := by
  induction pending with
  | nil => simp [x11_source_dispatch] at h
  | cons ev rest ih =>
    unfold x11_source_dispatch at h
    by_cases ht : ev.type = KeyRelease
    · simp only [ht, ne_eq, not_true_eq_false, if_false, x11_source_dispatch_match_eq,
        List.mem_append] at h
      rcases h with h | h
      · split at h
        · rename_i hm
          simp only [List.mem_singleton] at h
          subst h
          exact hm
        · simp at h
      · exact ih h
    · simp only [ht, ne_eq, not_false_eq_true, if_true] at h
      exact ih h

theorem on_x11_hotkey_of_dispatched (X : XServer) (s : GsrHotkeys) (x : GsrX11Hotkeys)
    (hagree : s.active_combos.map GrabbedCombo.combo = x.combos) (pending : List XEvent)
    (fired : Nat × Nat) (hf : fired ∈ x11_source_dispatch X x pending) :
    ∃ c, first_exact s.active_combos fired.1 fired.2 = some c ∧
      on_x11_hotkey fired.1 fired.2 s = { s with window := s.window.call c.action.leaf } := by
  have hm := x11_source_dispatch_mem X x pending fired hf
  rw [← hagree, List.mem_map] at hm
  obtain ⟨c0, hc0, he⟩ := hm
  have hk : c0.keysym = fired.2 ∧ c0.x11_modifiers = fired.1 := by
    simp only [GrabbedCombo.combo, GsrX11HotkeyCombo.mk.injEq] at he
    exact ⟨he.2, he.1⟩
  cases hfe : first_exact s.active_combos fired.1 fired.2 with
  | none =>
    unfold first_exact at hfe
    rw [List.find?_eq_none] at hfe
    have := hfe c0 hc0
    simp [hk] at this
  | some c =>
    refine ⟨c, rfl, on_x11_hotkey_of_exact _ _ _ _ ?_⟩
    rw [on_x11_hotkey_lookup_eq_first_exact, hfe]
    rfl


/-! ## Lemmas on what leaves the remembered combos alone -/

theorem foldl_preserves {α : Type} (P : GsrHotkeys → Prop) (f : GsrHotkeys → α → GsrHotkeys)
    (hf : ∀ s a, P s → P (f s a)) (l : List α) (s : GsrHotkeys) (h : P s) :
    P (l.foldl f s) := by
  induction l generalizing s with
  | nil => exact h
  | cons a rest ih => exact ih (f s a) (hf s a h)

theorem on_x11_hotkey_grabs (modifiers keysym : Nat) (self : GsrHotkeys) :
    (on_x11_hotkey modifiers keysym self).active_combos = self.active_combos ∧
    (on_x11_hotkey modifiers keysym self).x11 = self.x11 := by
  unfold on_x11_hotkey
  simp only
  split <;> exact ⟨rfl, rfl⟩

theorem on_wayland_init_grabs (success : Bool) (self : GsrHotkeys) :
    (on_wayland_init success self).active_combos = self.active_combos ∧
    (on_wayland_init success self).x11 = self.x11 := by
  unfold on_wayland_init
  cases success <;> exact ⟨rfl, rfl⟩

theorem on_wayland_deactivated_grabs (shortcut_id : String) (self : GsrHotkeys) :
    (on_wayland_deactivated shortcut_id self).active_combos = self.active_combos ∧
    (on_wayland_deactivated shortcut_id self).x11 = self.x11 := by
  unfold on_wayland_deactivated
  split
  · exact ⟨rfl, rfl⟩
  · split
    · split <;> exact ⟨rfl, rfl⟩
    · split
      · split <;> exact ⟨rfl, rfl⟩
      · split
        · split <;> exact ⟨rfl, rfl⟩
        · exact ⟨rfl, rfl⟩

theorem create_session_signal_grabs (signal_name : String) (parameters : ResponseParameters)
    (self : GsrHotkeys) :
    (create_session_signal signal_name parameters self).active_combos = self.active_combos ∧
    (create_session_signal signal_name parameters self).x11 = self.x11 := by
  unfold create_session_signal
  exact foldl_preserves
    (fun s => s.active_combos = self.active_combos ∧ s.x11 = self.x11) _
    (fun s a h => ⟨(on_wayland_init_grabs a s).1.trans h.1,
      (on_wayland_init_grabs a s).2.trans h.2⟩) _ _ ⟨rfl, rfl⟩

theorem portal_signal_grabs (signal_name : String) (parameters : SignalParameters)
    (self s : GsrHotkeys) (h : portal_signal signal_name parameters self = some s) :
    s.active_combos = self.active_combos ∧ s.x11 = self.x11 := by
  unfold portal_signal at h
  cases hc : signal_callback signal_name parameters self.wayland with
  | none => simp [hc] at h
  | some invocations =>
    simp only [hc, Option.map_some', Option.some.injEq] at h
    subst h
    refine foldl_preserves
      (fun s => s.active_combos = self.active_combos ∧ s.x11 = self.x11) _ ?_ _ _ ⟨rfl, rfl⟩
    intro s a hs
    cases a with
    | deactivated_callback id =>
      exact ⟨(on_wayland_deactivated_grabs id s).1.trans hs.1,
        (on_wayland_deactivated_grabs id s).2.trans hs.2⟩
    | shortcut_changed_callback sc => exact hs

theorem register_wayland_shortcuts_once_grabs (P : Portal) (self : GsrHotkeys) :
    (gsr_hotkeys_register_wayland_shortcuts_once P self).active_combos = self.active_combos ∧
    (gsr_hotkeys_register_wayland_shortcuts_once P self).x11 = self.x11 := by
  unfold gsr_hotkeys_register_wayland_shortcuts_once
  split
  · exact ⟨rfl, rfl⟩
  · split
    · exact ⟨rfl, rfl⟩
    · split <;> exact ⟨rfl, rfl⟩

theorem gsr_x11_hotkeys_grab_combos_cases (X : XServer) (x : GsrX11Hotkeys)
    (c : GsrX11HotkeyCombo) :
    (gsr_x11_hotkeys_grab X x c).2.combos = x.combos ∨
    (x.num_combos < MAX_GRABBED_COMBOS ∧
      (gsr_x11_hotkeys_grab X x c).2.combos = x.combos ++ [c]) := by
  unfold gsr_x11_hotkeys_grab
  split
  · exact Or.inl rfl
  · rename_i hcap
    split
    · exact Or.inl rfl
    · simp only
      split
      · exact Or.inl rfl
      · exact Or.inr ⟨Nat.lt_of_not_le hcap, rfl⟩

theorem gsr_x11_hotkeys_new_combos (X : XServer) (calloc_ok : Bool) (display : Option Display)
    (x : GsrX11Hotkeys) (h : gsr_x11_hotkeys_new X calloc_ok display = some x) :
    x.combos = [] := by
  unfold gsr_x11_hotkeys_new at h
  split at h
  · simp at h
  · split at h
    · simp at h
    · simp only [Option.some.injEq] at h
      subst h
      rfl


theorem gsr_hotkeys_new_grabs (E : Env) (display_server : GsrDisplayServer)
    (window : GsrWindow) (s : GsrHotkeys)
    (h : gsr_hotkeys_new E display_server window = some s) :
    s.active_combos = [] ∧ ∀ x, s.x11 = some x → x.combos = [] := by
  unfold gsr_hotkeys_new at h
  split at h
  · simp at h
  · cases display_server with
    | GSR_DISPLAY_SERVER_X11 =>
      simp only at h
      split at h
      · simp at h
      · split at h
        · simp at h
        · rename_i xdisplay _
          cases hn : gsr_x11_hotkeys_new E.X E.calloc_x11 (some xdisplay) with
          | none => simp [hn] at h
          | some x11 =>
            simp only [hn, Option.some.injEq] at h
            subst h
            refine ⟨rfl, ?_⟩
            intro x hx
            simp only [Option.some.injEq] at hx
            subst hx
            exact gsr_x11_hotkeys_new_combos _ _ _ _ hn
    | GSR_DISPLAY_SERVER_WAYLAND =>
      simp only [Option.some.injEq] at h
      subst h
      exact ⟨rfl, fun x hx => by simp at hx⟩
    | GSR_DISPLAY_SERVER_UNKNOWN =>
      simp only [Option.some.injEq] at h
      subst h
      exact ⟨rfl, fun x hx => by simp at hx⟩

theorem gsr_hotkeys_regrab_for_visible_page_lengths (X : XServer) (self : GsrHotkeys)
    (h : self.active_combos.length ≤ 2 ∧ ∀ x, self.x11 = some x → x.combos.length ≤ 2) :
    (gsr_hotkeys_regrab_for_visible_page X self).active_combos.length ≤ 2 ∧
    ∀ x, (gsr_hotkeys_regrab_for_visible_page X self).x11 = some x → x.combos.length ≤ 2 := by
  cases hx : self.x11 with
  | none =>
    have e : gsr_hotkeys_regrab_for_visible_page X self = self := by
      unfold gsr_hotkeys_regrab_for_visible_page
      simp only [hx]
    rw [e]
    exact h
  | some x =>
    by_cases hd : self.display_server = GsrDisplayServer.GSR_DISPLAY_SERVER_X11
    · obtain ⟨x', granted, e1, e2, e3, e4, _⟩ := regrab_direct_spec X self x hx hd
      have hl : granted.length ≤ 2 :=
        (e2.length_le.trans (List.length_filter_le _ _)).trans (visible_bindings_length self)
      refine ⟨by rw [e4, List.length_map]; exact hl, ?_⟩
      intro y hy
      rw [e1, Option.some.injEq] at hy
      subst hy
      rw [e3, List.length_map]
      exact hl
    · have e : gsr_hotkeys_regrab_for_visible_page X self = self := by
        unfold gsr_hotkeys_regrab_for_visible_page
        simp only [hx, hd, ne_eq, not_false_eq_true, if_true]
      rw [e]
      exact h


/-! ## Lemmas on the handle token -/

theorem digit_value_digitChar (k : Nat) (h : k < 10) : digit_value (Nat.digitChar k) = k := by
  interval_cases k <;> rfl

theorem decode_decimal_toDigitsCore (fuel : Nat) : ∀ (n : Nat) (ds : List Char), n < fuel →
    decode_decimal 0 (Nat.toDigitsCore 10 fuel n ds) = decode_decimal n ds := by
  induction fuel with
  | zero =>
    intro n ds h
    omega
  | succ fuel ih =>
    intro n ds h
    unfold Nat.toDigitsCore
    simp only
    have hd := digit_value_digitChar (n % 10) (Nat.mod_lt _ (by decide))
    split
    · simp only [decode_decimal, List.foldl, hd]
      congr 1
      omega
    · rw [ih (n / 10) _ (by omega)]
      simp only [decode_decimal, List.foldl, hd]
      congr 1
      omega

theorem decode_decimal_repr (n : Nat) : decode_decimal 0 (Nat.repr n).data = n := by
  have := decode_decimal_toDigitsCore (n + 1) n [] (Nat.lt_succ_self n)
  simpa [Nat.repr, Nat.toDigits, decode_decimal] using this

theorem handle_token_text_inj (salt : String) (a b : Nat)
    (h : handle_token_text salt a = handle_token_text salt b) : a = b := by
  have hd := congrArg String.data h
  simp only [handle_token_text, String.data_append] at hd
  have hr : (Nat.repr a).data = (Nat.repr b).data := List.append_cancel_left hd
  rw [← decode_decimal_repr a, ← decode_decimal_repr b, hr]

theorem handle_token_text_length (salt : String) (c : Nat)
    (hs : salt.length = DBUS_RANDOM_STR_SIZE) (hc : c < UINT_SIZE) :
    (handle_token_text salt c).length ≤ 62 := by
  have hr : (Nat.repr c).length ≤ 10 :=
    Nat.repr_length c 10 (by decide) (Nat.lt_trans hc (by decide))
  have hp : "gpu_screen_recorder_adwaita_handle_".length = 35 := by decide
  have hu : "_".length = 1 := by decide
  have ht : toString c = Nat.repr c := rfl
  simp only [handle_token_text, String.length_append, hp, hu, hs, ht, DBUS_RANDOM_STR_SIZE]
  omega

theorem gsr_dbus_portal_get_unique_handle_token_text (self : gsr_global_shortcuts)
    (hs : self.random_str.length = DBUS_RANDOM_STR_SIZE) (hc : self.handle_counter < UINT_SIZE) :
    (gsr_dbus_portal_get_unique_handle_token self 64).1 =
      handle_token_text self.random_str self.handle_counter := by
  have hl := handle_token_text_length self.random_str self.handle_counter hs hc
  unfold gsr_dbus_portal_get_unique_handle_token
  simp only
  show (handle_token_text self.random_str self.handle_counter).take 63 = _
  have hl63 : (handle_token_text self.random_str self.handle_counter).data.length ≤ 63 :=
    Nat.le_trans hl (by decide)
  rw [String.take_eq, List.take_of_length_le hl63]

theorem handle_token_calls_eq (self : gsr_global_shortcuts) (hc : self.handle_counter < UINT_SIZE)
    (n : Nat) :
    handle_token_calls self n =
      { self with handle_counter := (self.handle_counter + n) % UINT_SIZE } := by
  induction n with
  | zero =>
    simp only [handle_token_calls, Nat.add_zero, Nat.mod_eq_of_lt hc]
  | succ n ih =>
    simp only [handle_token_calls, ih, gsr_dbus_portal_get_unique_handle_token]
    congr 1
    simp only [UINT_SIZE]
    omega


/-! ## Lemmas on the accelerator round trip -/

theorem gdk_mods_of_custom_round_trip (m : Nat) :
    gdk_mods_of_custom (custom_of_gdk_mods (gdk_mods_of_custom m)) = gdk_mods_of_custom m := by
  unfold gdk_mods_of_custom
  by_cases h1 : m &&& MASK_SHIFT = 0 <;> by_cases h2 : m &&& MASK_CONTROL = 0 <;>
    by_cases h3 : m &&& MASK_ALT = 0 <;> by_cases h4 : m &&& (MASK_META ||| MASK_SUPER) = 0 <;>
    simp only [h1, h2, h3, h4, ne_eq, not_true_eq_false, not_false_eq_true, if_true,
      if_false] <;> decide

theorem gsr_config_hotkey_to_x11_round_trip (k1 k2 : Int) (m : Nat) :
    (gsr_config_hotkey_to_x11
      { keysym := k1, modifiers := custom_of_gdk_mods (gdk_mods_of_custom m) }).1 =
    (gsr_config_hotkey_to_x11 { keysym := k2, modifiers := m }).1 := by
  unfold gsr_config_hotkey_to_x11 gdk_mods_of_custom
  by_cases h1 : m &&& MASK_SHIFT = 0 <;> by_cases h2 : m &&& MASK_CONTROL = 0 <;>
    by_cases h3 : m &&& MASK_ALT = 0 <;> by_cases h4 : m &&& (MASK_META ||| MASK_SUPER) = 0 <;>
    simp only [h1, h2, h3, h4, ne_eq, not_true_eq_false, not_false_eq_true, if_true,
      if_false] <;> decide

theorem from_accel_to_accel_truncated (G : Gtk) (hk old : GsrConfigHotkey)
    (h0 : hk.keysym % (2 ^ 32 : Int) ≠ 0)
    (hG : G.inverse_at (hk.keysym % (2 ^ 32 : Int)).toNat (gdk_mods_of_custom hk.modifiers)) :
    gsr_config_hotkey_from_accel G old (gsr_config_hotkey_to_accel G hk) =
      (true, { keysym := ((hk.keysym % (2 ^ 32 : Int)).toNat : Int),
               modifiers := custom_of_gdk_mods (gdk_mods_of_custom hk.modifiers) }) := by
  have hne : hk.keysym ≠ 0 := by
    intro h
    rw [h] at h0
    exact h0 rfl
  have hnat : (hk.keysym % (2 ^ 32 : Int)).toNat ≠ 0 := by
    have := Int.emod_nonneg hk.keysym (by norm_num : (2 ^ 32 : Int) ≠ 0)
    omega
  obtain ⟨hG1, hG2⟩ := hG
  unfold gsr_config_hotkey_to_accel gsr_config_hotkey_from_accel
  simp only [hne, if_false, hG1, hG2, hnat]


/-! ## Theorems -/

/-- C1. Fail-closed direct dispatch: when no remembered combo has the fired
keysym together with modifiers equal to the fired modifiers or to the fired
modifiers masked to Control, Shift, Mod1 and Mod4, `on_x11_hotkey` leaves the
manager as it was; the window receives no call, so none of the three leaf
actions is invoked. -/
theorem on_x11_hotkey_fail_closed (modifiers keysym : Nat) (self : GsrHotkeys)
    (h : ∀ c ∈ self.active_combos, ¬ c.matches_fired modifiers keysym) :
    on_x11_hotkey modifiers keysym self = self ∧
      (on_x11_hotkey modifiers keysym self).window.calls = self.window.calls := by
  have h1 : on_x11_hotkey_lookup self.active_combos modifiers keysym = none := by
    rw [on_x11_hotkey_lookup_eq_none]
    intro c hc hm
    exact h c hc ⟨hm.1, Or.inl hm.2⟩
  have h2 : on_x11_hotkey_lookup self.active_combos
      (modifiers &&& (ControlMask ||| ShiftMask ||| Mod1Mask ||| Mod4Mask)) keysym = none := by
    rw [on_x11_hotkey_lookup_eq_none]
    intro c hc hm
    exact h c hc ⟨hm.1, Or.inr hm.2⟩
  have h3 : on_x11_hotkey modifiers keysym self = self := by
    unfold on_x11_hotkey
    simp only [h1, h2]
  exact ⟨h3, by rw [h3]⟩

/-- Witness of C1: the sample manager remembers Alt+1 and Alt+2; Control+1 is
fired. -/
theorem on_x11_hotkey_fail_closed_witness :
    (∀ c ∈ sample_x11_manager.active_combos, ¬ c.matches_fired ControlMask 49) ∧
      on_x11_hotkey ControlMask 49 sample_x11_manager = sample_x11_manager ∧
      (on_x11_hotkey ControlMask 49 sample_x11_manager).window.calls = [] :=
  ⟨by decide, on_x11_hotkey_fail_closed ControlMask 49 sample_x11_manager (by decide)⟩

/-- C2. When exactly one remembered combo matches the fired
`(modifiers, keysym)`, `on_x11_hotkey` makes exactly one call into the window,
the leaf action that combo is tagged with, and changes nothing else. -/
theorem on_x11_hotkey_unique_match (modifiers keysym : Nat) (self : GsrHotkeys)
    (c : GrabbedCombo)
    (h : self.active_combos.filter (fun c => decide (c.matches_fired modifiers keysym)) = [c]) :
    on_x11_hotkey modifiers keysym self = { self with window := self.window.call c.action.leaf } ∧
      (on_x11_hotkey modifiers keysym self).window.calls =
        self.window.calls ++ [c.action.leaf] := by
  have huniq : ∀ c' ∈ self.active_combos, c'.matches_fired modifiers keysym → c' = c := by
    intro c' hmem hm
    have : c' ∈ self.active_combos.filter
        (fun c => decide (c.matches_fired modifiers keysym)) := by
      simp [List.mem_filter, hmem, hm]
    rw [h] at this
    simpa using this
  have hc : c ∈ self.active_combos ∧ c.matches_fired modifiers keysym := by
    have : c ∈ self.active_combos.filter
        (fun c => decide (c.matches_fired modifiers keysym)) := by
      rw [h]; exact List.mem_singleton_self c
    simpa [List.mem_filter] using this
  have key : on_x11_hotkey modifiers keysym self =
      { self with window := self.window.call c.action.leaf } := by
    apply on_x11_hotkey_of_found
    cases h1 : on_x11_hotkey_lookup self.active_combos modifiers keysym with
    | some a =>
      obtain ⟨c', hmem, hk, hm, ha⟩ := on_x11_hotkey_lookup_eq_some _ _ _ _ h1
      have := huniq c' hmem ⟨hk, Or.inl hm⟩
      subst this
      simp [ha]
    | none =>
      simp only
      cases h2 : on_x11_hotkey_lookup self.active_combos
          (modifiers &&& (ControlMask ||| ShiftMask ||| Mod1Mask ||| Mod4Mask)) keysym with
      | some a =>
        obtain ⟨c', hmem, hk, hm, ha⟩ := on_x11_hotkey_lookup_eq_some _ _ _ _ h2
        have := huniq c' hmem ⟨hk, Or.inr hm⟩
        subst this
        simp [ha]
      | none =>
        exfalso
        rw [on_x11_hotkey_lookup_eq_none] at h1 h2
        rcases hc.2 with ⟨hk, hm | hm⟩
        · exact h1 c hc.1 ⟨hk, hm⟩
        · exact h2 c hc.1 ⟨hk, hm⟩
  exact ⟨key, by rw [key]; rfl⟩

/-- Witness of C2: the sample manager is fired with Alt+Mod2 and keysym 50; only
the masked pass finds the pause/unpause combo. -/
theorem on_x11_hotkey_unique_match_witness :
    (on_x11_hotkey (Mod1Mask ||| Mod2Mask) 50 sample_x11_manager).window.calls =
      [WindowCall.hotkey_pause_unpause] :=
  (on_x11_hotkey_unique_match (Mod1Mask ||| Mod2Mask) 50 sample_x11_manager
    { x11_modifiers := 8, keysym := 50, action := HotkeyAction.HOTKEY_ACTION_PAUSE_UNPAUSE }
    (by decide)).2

/-- C3. Brokered dispatch table: the calls `on_wayland_deactivated` adds to the
window are start/stop iff the id is the start/stop id and the page is "stream",
"record" or "replay"; pause/unpause iff the id is the pause/unpause id and the
page is "record"; save iff the id is the save-replay id and the page is
"replay"; nothing for any other id or page or for no page; never more than one
call, never another kind of call, and nothing else in the manager changes. -/
theorem on_wayland_deactivated_table (shortcut_id : String) (self : GsrHotkeys) :
    ∃ added : List WindowCall,
      on_wayland_deactivated shortcut_id self =
        { self with window := { self.window with calls := self.window.calls ++ added } } ∧
      (WindowCall.hotkey_start_stop ∈ added ↔
        shortcut_id = SHORTCUT_ID_START_STOP ∧
          (self.window.visible_page_name = some "stream" ∨
           self.window.visible_page_name = some "record" ∨
           self.window.visible_page_name = some "replay")) ∧
      (WindowCall.hotkey_pause_unpause ∈ added ↔
        shortcut_id = SHORTCUT_ID_PAUSE_UNPAUSE ∧
          self.window.visible_page_name = some "record") ∧
      (WindowCall.hotkey_save_replay ∈ added ↔
        shortcut_id = SHORTCUT_ID_SAVE_REPLAY ∧
          self.window.visible_page_name = some "replay") ∧
      (∀ success, WindowCall.on_wayland_hotkeys_init success ∉ added) ∧
      added.length ≤ 1 := by
  have hsp : SHORTCUT_ID_START_STOP ≠ SHORTCUT_ID_PAUSE_UNPAUSE := by decide
  have hss : SHORTCUT_ID_START_STOP ≠ SHORTCUT_ID_SAVE_REPLAY := by decide
  have hps : SHORTCUT_ID_PAUSE_UNPAUSE ≠ SHORTCUT_ID_SAVE_REPLAY := by decide
  have hrec_rep : ("record" : String) ≠ "replay" := by decide
  have hstr_rec : ("stream" : String) ≠ "record" := by decide
  have hstr_rep : ("stream" : String) ≠ "replay" := by decide
  unfold on_wayland_deactivated get_visible_page_name
  cases hp : self.window.visible_page_name with
  | none => exact ⟨[], by simp⟩
  | some page =>
    simp only [Option.some.injEq]
    by_cases h1 : shortcut_id = SHORTCUT_ID_START_STOP
    · subst h1
      by_cases hpage : page = "stream" ∨ page = "record" ∨ page = "replay"
      · refine ⟨[WindowCall.hotkey_start_stop], ?_⟩
        simp only [if_true, if_pos hpage]
        refine ⟨rfl, ?_⟩
        simp [hpage, hsp, hss]
      · refine ⟨[], ?_⟩
        simp only [if_true, if_neg hpage]
        simp [hpage, hsp, hss]
    · by_cases h2 : shortcut_id = SHORTCUT_ID_PAUSE_UNPAUSE
      · subst h2
        by_cases hpage : page = "record"
        · subst hpage
          refine ⟨[WindowCall.hotkey_pause_unpause], ?_⟩
          simp only [if_neg h1, if_true]
          refine ⟨rfl, ?_⟩
          simp [hsp.symm, hps, hrec_rep]
        · refine ⟨[], ?_⟩
          simp only [if_neg h1, if_true, if_neg hpage]
          simp [hpage, hsp.symm, hps]
      · by_cases h3 : shortcut_id = SHORTCUT_ID_SAVE_REPLAY
        · subst h3
          by_cases hpage : page = "replay"
          · subst hpage
            refine ⟨[WindowCall.hotkey_save_replay], ?_⟩
            simp only [if_neg h1, if_neg h2, if_true]
            refine ⟨rfl, ?_⟩
            simp [hss.symm, hps.symm]
          · refine ⟨[], ?_⟩
            simp only [if_neg h1, if_neg h2, if_true, if_neg hpage]
            simp [hpage, hss.symm, hps.symm]
        · refine ⟨[], ?_⟩
          simp only [if_neg h1, if_neg h2, if_neg h3]
          simp [h1, h2, h3]

/-- C4. Per-context rebinding on the direct backend: the calls of
`gsr_x11_hotkeys_grab` made by `gsr_hotkeys_regrab_for_visible_page` are
exactly the non-empty bindings of the visible page, in order, each converted
to X11 form and tagged with its action, and none on any other page. With the
record start/stop binding stored as key 49 and mask 256, on "record" they are
one grab of `(49, Mod1Mask)` tagged start/stop, followed by the pause/unpause
grab when that binding is not empty, and none tagged save-replay. -/
theorem gsr_hotkeys_regrab_for_visible_page_requests (X : XServer) (self : GsrHotkeys)
    (x11 : GsrX11Hotkeys) (hx : self.x11 = some x11)
    (hd : self.display_server = GsrDisplayServer.GSR_DISPLAY_SERVER_X11)
    (hr : ∀ config, self.window.config = some config → config.in_range) :
    (gsr_hotkeys_regrab_for_visible_page X self).grab_log =
        self.grab_log ++ page_grabs self.window.visible_page_name self.window.config ∧
      (∀ config, self.window.config = some config →
        self.window.visible_page_name = some "record" →
        config.record_config.start_stop_hotkey = { keysym := 49, modifiers := 256 } →
        (gsr_hotkeys_regrab_for_visible_page X self).grab_log =
          self.grab_log ++
            ({ x11_modifiers := Mod1Mask, keysym := 49,
               action := HotkeyAction.HOTKEY_ACTION_START_STOP } ::
             (if config.record_config.pause_unpause_hotkey.keysym = 0 then []
              else [{ x11_modifiers :=
                        (gsr_config_hotkey_to_x11 config.record_config.pause_unpause_hotkey).1,
                      keysym :=
                        (gsr_config_hotkey_to_x11 config.record_config.pause_unpause_hotkey).2,
                      action := HotkeyAction.HOTKEY_ACTION_PAUSE_UNPAUSE }]))) := by
  have main : (gsr_hotkeys_regrab_for_visible_page X self).grab_log =
      self.grab_log ++ page_grabs self.window.visible_page_name self.window.config := by
    unfold gsr_hotkeys_regrab_for_visible_page get_visible_page_name page_grabs
    simp only [hx, hd, ne_eq, not_true_eq_false, if_false]
    cases hp : self.window.visible_page_name with
    | none => cases self.window.config <;> simp
    | some page =>
      cases hc : self.window.config with
      | none => simp
      | some config =>
        obtain ⟨r1, r2, r3, r4, r5⟩ := hr config hc
        simp only [Option.some.injEq]
        by_cases h1 : page = "stream"
        · simp only [h1, if_true]
          rw [grab_hotkey_from_config_grab_log _ _ _ _ r1]
        · by_cases h2 : page = "record"
          · subst h2
            simp only [if_neg h1, if_true]
            rw [grab_hotkey_from_config_grab_log _ _ _ _ r3,
              grab_hotkey_from_config_grab_log _ _ _ _ r2, List.append_assoc]
          · by_cases h3 : page = "replay"
            · subst h3
              simp only [if_neg h1, if_neg h2, if_true]
              rw [grab_hotkey_from_config_grab_log _ _ _ _ r5,
                grab_hotkey_from_config_grab_log _ _ _ _ r4, List.append_assoc]
            · simp only [h1, h2, h3, if_false, List.append_nil]
  refine ⟨main, ?_⟩
  intro config hc hp hk
  have e1 : (some "record" : Option String) ≠ some "stream" := by decide
  have e2 : (49 : Int) ≠ 0 := by decide
  rw [main, hc, hp]
  simp only [page_grabs, binding_grab, hk, if_neg e1, if_neg e2, if_true]
  rfl

/-- Witness of C4: the sample manager, on "record" with the default config,
asks for Alt+1 tagged start/stop and Alt+2 tagged pause/unpause. -/
theorem gsr_hotkeys_regrab_for_visible_page_requests_witness :
    (gsr_hotkeys_regrab_for_visible_page sample_xserver sample_x11_manager).grab_log =
      [{ x11_modifiers := Mod1Mask, keysym := 49,
         action := HotkeyAction.HOTKEY_ACTION_START_STOP },
       { x11_modifiers := Mod1Mask, keysym := 50,
         action := HotkeyAction.HOTKEY_ACTION_PAUSE_UNPAUSE }] :=
  (gsr_hotkeys_regrab_for_visible_page_requests sample_xserver sample_x11_manager
    { display := { requests := [] }, numlockmask := Mod2Mask,
      combos := [{ modifiers := 8, keysym := 49 }, { modifiers := 8, keysym := 50 }] }
    rfl rfl (fun config hc => Option.some.inj hc ▸ by decide)).2
    gsr_config_init_defaults rfl rfl rfl

/-- C5. Grab atomicity: below capacity and for a combination `(m, k)` with
`k ≠ 0`, `gsr_x11_hotkeys_grab` sends a sync, the four grab requests for `k`
with modifiers `m`, `m|LockMask`, `m|numlockmask`, `m|numlockmask|LockMask`, and
a sync; when one of the four raises an error it then sends the four ungrab
requests and a sync, returns false and leaves the remembered combos unchanged;
when none does it returns true and the remembered combos are the old ones with
`(m, k)` appended. -/
theorem gsr_x11_hotkeys_grab_atomic (X : XServer) (self : GsrX11Hotkeys)
    (combo : GsrX11HotkeyCombo) (hcap : self.num_combos < MAX_GRABBED_COMBOS)
    (hk : combo.keysym ≠ 0) :
    (any_grab_fails X (self.display.requests ++ [XRequest.XSync]) self.numlockmask combo = true →
      gsr_x11_hotkeys_grab X self combo =
        (false, { self with display := { requests :=
          self.display.requests ++ [XRequest.XSync] ++ grab_requests X self.numlockmask combo ++
            [XRequest.XSync] ++ ungrab_requests X self.numlockmask combo ++
            [XRequest.XSync] } })) ∧
    (any_grab_fails X (self.display.requests ++ [XRequest.XSync]) self.numlockmask combo = false →
      gsr_x11_hotkeys_grab X self combo =
        (true, { self with
          display := { requests :=
            self.display.requests ++ [XRequest.XSync] ++ grab_requests X self.numlockmask combo ++
              [XRequest.XSync] },
          combos := self.combos ++ [combo] })) := by
  have hcap' : ¬ self.num_combos ≥ MAX_GRABBED_COMBOS := Nat.not_le.mpr hcap
  have hne : ¬ (combo.keysym = 0 ∧ combo.modifiers = 0) := fun h => hk h.1
  have hassoc : combo.modifiers ||| (self.numlockmask ||| LockMask) =
      combo.modifiers ||| self.numlockmask ||| LockMask := (Nat.lor_assoc _ _ _).symm
  constructor
  · intro hf
    unfold gsr_x11_hotkeys_grab
    simp only [any_grab_fails, List.append_assoc, List.singleton_append, List.cons_append,
      List.nil_append] at hf
    simp only [hcap', hne, if_false, lock_modifiers, List.foldl, XGrabKey, XSync, XUngrabKey,
      Nat.or_zero, hassoc, Bool.false_or, List.append_assoc, List.singleton_append,
      List.cons_append, List.nil_append, hf, if_true, grab_requests, ungrab_requests]
  · intro hf
    unfold gsr_x11_hotkeys_grab
    simp only [any_grab_fails, List.append_assoc, List.singleton_append, List.cons_append,
      List.nil_append] at hf
    simp only [hcap', hne, if_false, lock_modifiers, List.foldl, XGrabKey, XSync,
      Nat.or_zero, hassoc, Bool.false_or, List.append_assoc, List.singleton_append,
      List.cons_append, List.nil_append, hf, grab_requests]
    simp

/-- Witness of C5: on the sample server a fresh backend is refused Alt+2
(keycode 50) and rolls the four variants back. -/
theorem gsr_x11_hotkeys_grab_atomic_witness :
    gsr_x11_hotkeys_grab sample_xserver
        { display := { requests := [] }, numlockmask := Mod2Mask, combos := [] }
        { modifiers := Mod1Mask, keysym := 50 } =
      (false,
       { display := { requests :=
           [XRequest.XSync, XRequest.XGrabKey 50 8, XRequest.XGrabKey 50 10,
            XRequest.XGrabKey 50 24, XRequest.XGrabKey 50 26, XRequest.XSync,
            XRequest.XUngrabKey 50 8, XRequest.XUngrabKey 50 10, XRequest.XUngrabKey 50 24,
            XRequest.XUngrabKey 50 26, XRequest.XSync] },
         numlockmask := Mod2Mask, combos := [] }) :=
  (gsr_x11_hotkeys_grab_atomic sample_xserver
    { display := { requests := [] }, numlockmask := Mod2Mask, combos := [] }
    { modifiers := Mod1Mask, keysym := 50 } (by decide) (by decide)).1 (by decide)

/-- C6. On a client whose session has not been created,
`gsr_global_shortcuts_bind_shortcuts` and `gsr_global_shortcuts_list_shortcuts`
return false and leave the client (its handle counter included) and the bus
(calls made, handlers connected, subscriptions) exactly as they were. -/
theorem bind_list_before_session_created (P : Portal) (self : gsr_global_shortcuts)
    (bus : SessionBus) (shortcuts : List gsr_bind_shortcut)
    (h : self.session_created = false) :
    gsr_global_shortcuts_bind_shortcuts P self bus shortcuts = (false, self, bus) ∧
      gsr_global_shortcuts_list_shortcuts P self bus = (false, self, bus) := by
  constructor
  · unfold gsr_global_shortcuts_bind_shortcuts
    simp [h]
  · unfold gsr_global_shortcuts_list_shortcuts
    simp [h]

/-- Witness of C6: the client of the sample manager, whose create-session
request is still pending, on a portal that would answer every call. -/
theorem bind_list_before_session_created_witness :
    gsr_global_shortcuts_bind_shortcuts
        { call_sync := fun _ _ => some (some "/request/1"), proxy_new := fun _ _ => true }
        sample_wayland_manager.wayland sample_wayland_manager.bus wayland_shortcuts =
      (false, sample_wayland_manager.wayland, sample_wayland_manager.bus) ∧
    gsr_global_shortcuts_list_shortcuts
        { call_sync := fun _ _ => some (some "/request/1"), proxy_new := fun _ _ => true }
        sample_wayland_manager.wayland sample_wayland_manager.bus =
      (false, sample_wayland_manager.wayland, sample_wayland_manager.bus) :=
  bind_list_before_session_created _ sample_wayland_manager.wayland
    sample_wayland_manager.bus wayland_shortcuts rfl

/-- C7. Create-session success path: on a `Response` signal with status 0 whose
results hold a string `session_handle` `s`, the handler stores `s`, sets
`session_created` and invokes the init callback once with `true`; through
`on_wayland_init` the manager becomes initialized, exactly one signal
subscription is added (the subscribe call returns true), no method call is
made, and the window receives `on_wayland_hotkeys_init(true)` and nothing
else. -/
theorem create_session_response_success (self : GsrHotkeys) (results : VarDict) (s : String)
    (h : g_variant_lookup_s results "session_handle" = some s) :
    dbus_signal_create_session "Response" { response := 0, results := some results }
        self.wayland =
      ({ self.wayland with session_handle := some s, session_created := true }, [true]) ∧
    create_session_signal "Response" { response := 0, results := some results } self =
      { self with
        wayland := { self.wayland with session_handle := some s, session_created := true },
        wayland_initialized := true,
        bus := { self.bus with signal_subscriptions := self.bus.signal_subscriptions + 1 },
        window := { self.window with
          calls := self.window.calls ++ [WindowCall.on_wayland_hotkeys_init true] } } ∧
    gsr_global_shortcuts_subscribe_activated_signal
        { self.wayland with session_handle := some s, session_created := true } self.bus =
      (true, { self.bus with signal_subscriptions := self.bus.signal_subscriptions + 1 }) := by
  have h1 : dbus_signal_create_session "Response" { response := 0, results := some results }
        self.wayland =
      ({ self.wayland with session_handle := some s, session_created := true }, [true]) := by
    unfold dbus_signal_create_session
    simp [h]
  refine ⟨h1, ?_, ?_⟩
  · unfold create_session_signal
    rw [h1]
    simp [on_wayland_init, gsr_global_shortcuts_subscribe_activated_signal, GsrWindow.call]
  · simp [gsr_global_shortcuts_subscribe_activated_signal]

/-- Witness of C7: the sample manager receives status 0 with
`session_handle = "/org/x/Session/1"`. -/
theorem create_session_response_success_witness :
    (create_session_signal "Response"
        { response := 0,
          results := some [("session_handle",
            GVariant.basic (GVariantBasic.string "/org/x/Session/1"))] }
        sample_wayland_manager).window.calls = [WindowCall.on_wayland_hotkeys_init true] ∧
    (create_session_signal "Response"
        { response := 0,
          results := some [("session_handle",
            GVariant.basic (GVariantBasic.string "/org/x/Session/1"))] }
        sample_wayland_manager).bus.signal_subscriptions = 1 ∧
    (create_session_signal "Response"
        { response := 0,
          results := some [("session_handle",
            GVariant.basic (GVariantBasic.string "/org/x/Session/1"))] }
        sample_wayland_manager).wayland.session_handle = some "/org/x/Session/1" :=
  have e := (create_session_response_success sample_wayland_manager
    [("session_handle", GVariant.basic (GVariantBasic.string "/org/x/Session/1"))]
    "/org/x/Session/1" (by decide)).2.1
  ⟨by rw [e]; rfl, by rw [e]; rfl, by rw [e]⟩

/-- C8. Create-session failure path: on a `Response` signal with a non-zero
status, received by a manager whose client has no session, the handler invokes
the init callback once with `false` and leaves the client as it was (not
created, no handle); the manager stays uninitialized, the bus is untouched (no
subscription), the window receives `on_wayland_hotkeys_init(false)` and nothing
else, and any later sequence of bind attempts, direct or through
`gsr_hotkeys_register_wayland_shortcuts_once`, changes nothing: no bus call is
ever made. -/
theorem create_session_response_failure (P : Portal) (self : GsrHotkeys) (status : Nat)
    (results : Option VarDict) (attempts : List BindAttempt) (hs : status ≠ 0)
    (hc : self.wayland.session_created = false) (hh : self.wayland.session_handle = none) :
    dbus_signal_create_session "Response" { response := status, results := results }
        self.wayland = (self.wayland, [false]) ∧
    create_session_signal "Response" { response := status, results := results } self =
      { self with
        wayland_initialized := false,
        window := { self.window with
          calls := self.window.calls ++ [WindowCall.on_wayland_hotkeys_init false] } } ∧
    (create_session_signal "Response" { response := status, results := results }
        self).wayland.session_created = false ∧
    (create_session_signal "Response" { response := status, results := results }
        self).wayland.session_handle = none ∧
    (create_session_signal "Response" { response := status, results := results }
        self).bus = self.bus ∧
    run_bind_attempts P attempts
        (create_session_signal "Response" { response := status, results := results } self) =
      create_session_signal "Response" { response := status, results := results } self := by
  have h1 : dbus_signal_create_session "Response" { response := status, results := results }
        self.wayland = (self.wayland, [false]) := by
    unfold dbus_signal_create_session
    simp [hs]
  have h2 : create_session_signal "Response" { response := status, results := results } self =
      { self with
        wayland_initialized := false,
        window := { self.window with
          calls := self.window.calls ++ [WindowCall.on_wayland_hotkeys_init false] } } := by
    unfold create_session_signal
    rw [h1]
    simp [on_wayland_init, GsrWindow.call]
  refine ⟨h1, h2, ?_, ?_, ?_, ?_⟩
  · rw [h2]; exact hc
  · rw [h2]; exact hh
  · rw [h2]
  · rw [h2]
    exact run_bind_attempts_disabled P attempts _ hc rfl

/-- Witness of C8: the sample manager receives status 1; three later bind
attempts on a portal that would answer leave the bus with the create-session
call only. -/
theorem create_session_response_failure_witness :
    (run_bind_attempts
        { call_sync := fun _ _ => some (some "/request/1"), proxy_new := fun _ _ => true }
        [BindAttempt.once, BindAttempt.direct wayland_shortcuts, BindAttempt.once]
        (create_session_signal "Response" { response := 1, results := some [] }
          sample_wayland_manager)) =
      create_session_signal "Response" { response := 1, results := some [] }
        sample_wayland_manager :=
  (create_session_response_failure
    { call_sync := fun _ _ => some (some "/request/1"), proxy_new := fun _ _ => true }
    sample_wayland_manager 1 (some [])
    [BindAttempt.once, BindAttempt.direct wayland_shortcuts, BindAttempt.once]
    (by decide) rfl rfl).2.2.2.2.2

/-- C9, the code at the failing input. On a `Response` signal with status 0
whose results hold no `session_handle`, or hold one that is not of type `s`,
`dbus_signal_create_session` invokes the init callback zero times and changes
nothing; the manager and its window are left exactly as they were, so the host
is never told the outcome. -/
theorem dbus_signal_create_session_no_handle_no_callback (self : GsrHotkeys) :
    dbus_signal_create_session "Response" { response := 0, results := some [] }
        self.wayland = (self.wayland, []) ∧
    dbus_signal_create_session "Response"
        { response := 0,
          results := some [("session_handle",
            GVariant.basic (GVariantBasic.object_path "/org/x/Session/1"))] }
        self.wayland = (self.wayland, []) ∧
    create_session_signal "Response" { response := 0, results := some [] } self = self ∧
    create_session_signal "Response"
        { response := 0,
          results := some [("session_handle",
            GVariant.basic (GVariantBasic.object_path "/org/x/Session/1"))] }
        self = self := by
  have h1 : dbus_signal_create_session "Response" { response := 0, results := some [] }
        self.wayland = (self.wayland, []) := by
    simp [dbus_signal_create_session, g_variant_lookup_s, g_variant_lookup_value]
  have h2 : dbus_signal_create_session "Response"
        { response := 0,
          results := some [("session_handle",
            GVariant.basic (GVariantBasic.object_path "/org/x/Session/1"))] }
        self.wayland = (self.wayland, []) := by
    simp [dbus_signal_create_session, g_variant_lookup_s, g_variant_lookup_value]
  refine ⟨h1, h2, ?_, ?_⟩
  · unfold create_session_signal
    rw [h1]
    rfl
  · unfold create_session_signal
    rw [h2]
    rfl

/-- C10, evaluated where the code departs from it: with a portal that does not
reply to the create-session call, `gsr_global_shortcuts_init` returns false and
`gsr_hotkeys_new` returns a manager whose window has received no call at all:
the init callback has not fired, so the window is never told
`on_wayland_hotkeys_init(false)`, and no handler is connected that could fire
it later. -/
theorem gsr_hotkeys_new_no_reply_no_callback :
    (gsr_global_shortcuts_init sample_env_no_reply.portal sample_env_no_reply.getrandom
        sample_env_no_reply.g_bus_get_sync SessionBus.fresh).1 = false ∧
    (gsr_hotkeys_new sample_env_no_reply GsrDisplayServer.GSR_DISPLAY_SERVER_WAYLAND
        sample_window).map
      (fun h => (h.window.calls, h.wayland_initialized, h.bus.request_handlers,
        h.bus.signal_subscriptions)) = some ([], false, [], 0) :=
  ⟨rfl, rfl⟩

/-- What the code does on every synchronous failure of the create-session call
(no reply, a reply without request path, or no proxy for the path), where the
window should have been told of the failure: `gsr_global_shortcuts_init`
returns false and `gsr_hotkeys_new` still returns a manager; its window has
received no call (the init callback is not invoked), it is not initialized, it
has no session, the create-session call is the only bus call made, no handler
and no subscription is registered, and
`gsr_hotkeys_register_wayland_shortcuts_once` changes nothing on it. -/
theorem gsr_hotkeys_new_create_session_sync_failure (E : Env) (window : GsrWindow)
    (hc : E.calloc_hotkeys = true) (hrand : DBUS_RANDOM_STR_SIZE ≤ E.getrandom.length)
    (hbus : E.g_bus_get_sync = true)
    (hfail : ∀ call, E.portal.call_sync SessionBus.fresh call = none ∨
      E.portal.call_sync SessionBus.fresh call = some none ∨
      ∃ path, E.portal.call_sync SessionBus.fresh call = some (some path) ∧
        E.portal.proxy_new
          { calls := [call], request_handlers := [], signal_subscriptions := 0 } path = false) :
    (gsr_global_shortcuts_init E.portal E.getrandom E.g_bus_get_sync SessionBus.fresh).1 = false ∧
    ∃ h, gsr_hotkeys_new E GsrDisplayServer.GSR_DISPLAY_SERVER_WAYLAND window = some h ∧
      h.window = window ∧ h.wayland_initialized = false ∧
      h.wayland.session_created = false ∧ h.wayland.session_handle = none ∧
      h.bus.calls.length = 1 ∧ h.bus.request_handlers = [] ∧ h.bus.signal_subscriptions = 0 ∧
      ∀ P, gsr_hotkeys_register_wayland_shortcuts_once P h = h := by
  have hlen : ¬ E.getrandom.length < DBUS_RANDOM_STR_SIZE := Nat.not_lt.mpr hrand
  have hcc : ∀ call handler,
      call_and_connect E.portal SessionBus.fresh call handler =
        (false, { calls := [call], request_handlers := [], signal_subscriptions := 0 }) := by
    intro call handler
    unfold call_and_connect
    rcases hfail call with h | h | ⟨path, h, hp⟩
    · simp only [h]
      rfl
    · simp only [h]
      rfl
    · have hp' : E.portal.proxy_new
          { SessionBus.fresh with calls := SessionBus.fresh.calls ++ [call] } path = false := hp
      simp only [h, hp']
      rfl
  have hinit : gsr_global_shortcuts_init E.portal E.getrandom E.g_bus_get_sync
      SessionBus.fresh =
      (false,
       { gdbus_con := false, session_handle := none, session_created := false,
         random_str := String.mk ((E.getrandom.take DBUS_RANDOM_STR_SIZE).map
           (fun c => random_alphabet.getD (c % random_alphabet.length) 'A')),
         handle_counter := 1 % UINT_SIZE },
       { request_handlers := [], signal_subscriptions := 0, calls :=
          [BusCall.CreateSession
            (gsr_dbus_portal_get_unique_handle_token
              { gdbus_con := true, session_handle := none, session_created := false,
                random_str := String.mk ((E.getrandom.take DBUS_RANDOM_STR_SIZE).map
                  (fun c => random_alphabet.getD (c % random_alphabet.length) 'A')),
                handle_counter := 0 } 64).1
            "gpu_screen_recorder_adwaita"] }) := by
    unfold gsr_global_shortcuts_init generate_random_characters
    simp only [hlen, if_false, hbus, Bool.not_true, Bool.false_eq_true,
      gsr_global_shortcuts_create_session, hcc, Bool.not_false, if_true,
      gsr_global_shortcuts_deinit]
    rfl
  refine ⟨by rw [hinit], ?_⟩
  unfold gsr_hotkeys_new
  simp only [hc, Bool.not_true, Bool.false_eq_true, if_false, hinit]
  refine ⟨_, rfl, rfl, rfl, rfl, rfl, rfl, rfl, rfl, ?_⟩
  intro P
  simp [gsr_hotkeys_register_wayland_shortcuts_once]

/-- The synchronous failure in the environment whose portal never replies. -/
theorem gsr_hotkeys_new_create_session_sync_failure_witness :
    (gsr_global_shortcuts_init sample_env_no_reply.portal sample_env_no_reply.getrandom
        sample_env_no_reply.g_bus_get_sync SessionBus.fresh).1 = false ∧
    ∃ h, gsr_hotkeys_new sample_env_no_reply GsrDisplayServer.GSR_DISPLAY_SERVER_WAYLAND
        sample_window = some h ∧
      h.window = sample_window ∧ h.wayland_initialized = false ∧
      h.wayland.session_created = false ∧ h.wayland.session_handle = none ∧
      h.bus.calls.length = 1 ∧ h.bus.request_handlers = [] ∧ h.bus.signal_subscriptions = 0 ∧
      ∀ P, gsr_hotkeys_register_wayland_shortcuts_once P h = h :=
  gsr_hotkeys_new_create_session_sync_failure sample_env_no_reply sample_window rfl
    (by decide) rfl (fun _ => Or.inl rfl)

/-- C11, counterexample. A `ShortcutsChanged` signal whose session handle equals
the locally held one but whose shortcut list is empty invokes no callback. -/
theorem signal_callback_empty_shortcuts_changed :
    sample_wayland_manager_created.wayland.session_handle = some "/org/x/Session/1" ∧
    signal_callback "ShortcutsChanged" (SignalParameters.o_shortcuts "/org/x/Session/1" [])
        sample_wayland_manager_created.wayland = some [] ∧
    portal_signal "ShortcutsChanged" (SignalParameters.o_shortcuts "/org/x/Session/1" [])
        sample_wayland_manager_created = some sample_wayland_manager_created := by
  decide

/-- C11, amended. Foreign-signal filtering by `signal_callback` on a client
holding the session handle `own`: a `Deactivated` signal with handle `h` and
shortcut id `i` invokes the deactivated callback, once and with `i`, iff
`h = own`; a `ShortcutsChanged` signal with handle `h` invokes the
shortcut-changed callback once per shortcut of its list, in order, iff
`h = own`, hence not at all for an empty list; a signal with another handle or
any other signal name invokes no callback and leaves the manager unchanged. -/
theorem signal_callback_filters (self : GsrHotkeys) (own : String)
    (h_own : self.wayland.session_handle = some own)
    (session_handle shortcut_id : String) (timestamp : Nat)
    (options : List (String × GVariantBasic)) (shortcuts : ShortcutArray) :
    signal_callback "Deactivated"
        (SignalParameters.ost_dict session_handle shortcut_id timestamp options) self.wayland =
      some (if session_handle = own then [SignalInvocation.deactivated_callback shortcut_id]
            else []) ∧
    signal_callback "ShortcutsChanged" (SignalParameters.o_shortcuts session_handle shortcuts)
        self.wayland =
      some (if session_handle = own then
              (handle_shortcuts_data shortcuts).map SignalInvocation.shortcut_changed_callback
            else []) ∧
    (handle_shortcuts_data shortcuts).map (fun sc => sc.id) = shortcuts.map (fun e => e.1) ∧
    (session_handle ≠ own →
      portal_signal "Deactivated"
          (SignalParameters.ost_dict session_handle shortcut_id timestamp options) self =
        some self ∧
      portal_signal "ShortcutsChanged" (SignalParameters.o_shortcuts session_handle shortcuts)
          self = some self) ∧
    (∀ signal_name parameters, signal_name ≠ "Deactivated" → signal_name ≠ "ShortcutsChanged" →
      signal_callback signal_name parameters self.wayland = some [] ∧
      portal_signal signal_name parameters self = some self) := by
  have h1 : signal_callback "Deactivated"
        (SignalParameters.ost_dict session_handle shortcut_id timestamp options) self.wayland =
      some (if session_handle = own then [SignalInvocation.deactivated_callback shortcut_id]
            else []) := by
    unfold signal_callback
    simp only [if_true, h_own]
    split <;> rfl
  have h2 : signal_callback "ShortcutsChanged"
        (SignalParameters.o_shortcuts session_handle shortcuts) self.wayland =
      some (if session_handle = own then
              (handle_shortcuts_data shortcuts).map SignalInvocation.shortcut_changed_callback
            else []) := by
    unfold signal_callback
    rw [if_neg (by decide), if_pos rfl]
    simp only [h_own]
    split <;> rfl
  refine ⟨h1, h2, ?_, ?_, ?_⟩
  · simp [handle_shortcuts_data]
  · intro hne
    unfold portal_signal
    rw [h1, h2]
    simp [hne]
  · intro signal_name parameters hd hs
    have h3 : signal_callback signal_name parameters self.wayland = some [] := by
      unfold signal_callback
      simp [hd, hs]
    refine ⟨h3, ?_⟩
    unfold portal_signal
    rw [h3]
    rfl

/-- Witness of C11, amended: the sample manager with a created session receives
signals of a foreign session. -/
theorem signal_callback_filters_witness :
    portal_signal "Deactivated"
        (SignalParameters.ost_dict "/org/y/Session/7" SHORTCUT_ID_START_STOP 0 [])
        sample_wayland_manager_created = some sample_wayland_manager_created ∧
    portal_signal "ShortcutsChanged"
        (SignalParameters.o_shortcuts "/org/y/Session/7" [(SHORTCUT_ID_START_STOP, [])])
        sample_wayland_manager_created = some sample_wayland_manager_created :=
  (signal_callback_filters sample_wayland_manager_created "/org/x/Session/1" rfl
    "/org/y/Session/7" SHORTCUT_ID_START_STOP 0 []
    [(SHORTCUT_ID_START_STOP, [])]).2.2.2.1 (by decide)

/-- C12. Bind-once: on a brokered-backend manager whose session has been created
and that has neither bound nor received shortcuts, the first call of
`gsr_hotkeys_register_wayland_shortcuts_once` makes exactly one bus call, a
`BindShortcuts` for the session with the three fixed shortcut ids, whatever the
portal answers; every later call, whatever the portal would answer, leaves the
manager and the bus as they are. -/
theorem register_wayland_shortcuts_once_binds_once (P : Portal) (later : List Portal)
    (self : GsrHotkeys)
    (hd : self.display_server = GsrDisplayServer.GSR_DISPLAY_SERVER_WAYLAND)
    (hi : self.wayland_initialized = true) (hc : self.wayland.session_created = true)
    (hb : self.wayland_shortcuts_bound = false)
    (hr : self.wayland_shortcuts_received = false) :
    (gsr_hotkeys_register_wayland_shortcuts_once P self).bus.calls =
      self.bus.calls ++
        [BusCall.BindShortcuts self.wayland.session_handle wayland_shortcuts
          (gsr_dbus_portal_get_unique_handle_token self.wayland 64).1] ∧
    wayland_shortcuts.map (fun b => b.shortcut.id) =
      [SHORTCUT_ID_START_STOP, SHORTCUT_ID_PAUSE_UNPAUSE, SHORTCUT_ID_SAVE_REPLAY] ∧
    register_wayland_shortcuts_repeatedly later
        (gsr_hotkeys_register_wayland_shortcuts_once P self) =
      gsr_hotkeys_register_wayland_shortcuts_once P self ∧
    (register_wayland_shortcuts_repeatedly (P :: later) self).bus.calls =
      self.bus.calls ++
        [BusCall.BindShortcuts self.wayland.session_handle wayland_shortcuts
          (gsr_dbus_portal_get_unique_handle_token self.wayland 64).1] := by
  have hbound : (gsr_hotkeys_register_wayland_shortcuts_once P self).wayland_shortcuts_bound
      = true := by
    unfold gsr_hotkeys_register_wayland_shortcuts_once
    simp [hd, hi, hb, hr]
  have hcalls : (gsr_hotkeys_register_wayland_shortcuts_once P self).bus.calls =
      self.bus.calls ++
        [BusCall.BindShortcuts self.wayland.session_handle wayland_shortcuts
          (gsr_dbus_portal_get_unique_handle_token self.wayland 64).1] := by
    unfold gsr_hotkeys_register_wayland_shortcuts_once
    simp only [hd, hi, hb, hr, ne_eq, not_true_eq_false, if_false, Bool.not_true,
      Bool.false_eq_true, Bool.or_self]
    unfold gsr_global_shortcuts_bind_shortcuts
    simp only [hc, Bool.not_true, Bool.false_eq_true, if_false, call_and_connect_calls]
    rfl
  have hlater := register_wayland_shortcuts_repeatedly_noop later _ (Or.inl hbound)
  refine ⟨hcalls, rfl, hlater, ?_⟩
  have : register_wayland_shortcuts_repeatedly (P :: later) self =
      register_wayland_shortcuts_repeatedly later
        (gsr_hotkeys_register_wayland_shortcuts_once P self) := rfl
  rw [this, hlater, hcalls]

/-- Witness of C12: three calls on the sample manager with a created session,
the first on a portal that does not reply. -/
theorem register_wayland_shortcuts_once_binds_once_witness :
    (register_wayland_shortcuts_repeatedly [sample_portal_no_reply, sample_portal, sample_portal]
        sample_wayland_manager_created).bus.calls =
      sample_wayland_manager_created.bus.calls ++
        [BusCall.BindShortcuts (some "/org/x/Session/1") wayland_shortcuts
          (gsr_dbus_portal_get_unique_handle_token
            sample_wayland_manager_created.wayland 64).1] :=
  (register_wayland_shortcuts_once_binds_once sample_portal_no_reply
    [sample_portal, sample_portal] sample_wayland_manager_created rfl rfl rfl rfl rfl).2.2.2

/-- C13. Once `on_wayland_shortcut_changed` has run, every call of
`gsr_hotkeys_register_wayland_shortcuts_once`, the first and all later ones,
whatever the portal would answer, leaves the manager unchanged; in particular
the bus call log stays as it was and no bind request is made. -/
theorem register_wayland_shortcuts_once_after_shortcut_changed (portals : List Portal)
    (shortcut : gsr_shortcut) (self : GsrHotkeys) :
    register_wayland_shortcuts_repeatedly portals (on_wayland_shortcut_changed shortcut self) =
      on_wayland_shortcut_changed shortcut self ∧
    (register_wayland_shortcuts_repeatedly portals
      (on_wayland_shortcut_changed shortcut self)).bus = self.bus ∧
    (register_wayland_shortcuts_repeatedly portals
      (on_wayland_shortcut_changed shortcut self)).wayland = self.wayland := by
  have h := register_wayland_shortcuts_repeatedly_noop portals
    (on_wayland_shortcut_changed shortcut self) (Or.inr rfl)
  refine ⟨h, ?_, ?_⟩ <;> rw [h] <;> rfl

/-- C14. With the visible page and the config unchanged and the server's answer
to a grab depending only on the key and modifiers asked for,
`gsr_hotkeys_regrab_for_visible_page` called a second time leaves the
manager's and the backend's remembered combos as the first call left them; and
on the direct backend each call first sends, right after what was sent before,
the four ungrab requests of every previously remembered combo and a sync, and
only then whatever the new grabs send. -/
theorem gsr_hotkeys_regrab_for_visible_page_idempotent (X : XServer)
    (outcome : Nat → Nat → Bool)
    (hX : ∀ sent kc mods, X.grab_error sent kc mods = outcome kc mods)
    (self : GsrHotkeys) :
    (gsr_hotkeys_regrab_for_visible_page X
        (gsr_hotkeys_regrab_for_visible_page X self)).active_combos =
      (gsr_hotkeys_regrab_for_visible_page X self).active_combos ∧
    (gsr_hotkeys_regrab_for_visible_page X
        (gsr_hotkeys_regrab_for_visible_page X self)).x11.map (fun x => x.combos) =
      (gsr_hotkeys_regrab_for_visible_page X self).x11.map (fun x => x.combos) ∧
    (∀ x11, self.x11 = some x11 →
      self.display_server = GsrDisplayServer.GSR_DISPLAY_SERVER_X11 →
      ∃ x11' rest, (gsr_hotkeys_regrab_for_visible_page X self).x11 = some x11' ∧
        x11'.display.requests =
          x11.display.requests ++ x11.combos.flatMap (ungrab_requests X x11.numlockmask) ++
            [XRequest.XSync] ++ rest) := by
  have hord : ∀ x11, self.x11 = some x11 →
      self.display_server = GsrDisplayServer.GSR_DISPLAY_SERVER_X11 →
      ∃ x11' rest, (gsr_hotkeys_regrab_for_visible_page X self).x11 = some x11' ∧
        x11'.display.requests =
          x11.display.requests ++ x11.combos.flatMap (ungrab_requests X x11.numlockmask) ++
            [XRequest.XSync] ++ rest := by
    intro x11 hx hd
    rw [gsr_hotkeys_regrab_for_visible_page_phases X self x11 hx hd]
    obtain ⟨x11', rest, h1, h2⟩ := regrab_grab_phase_requests X
      (regrab_ungrab_phase X self x11) (gsr_x11_hotkeys_ungrab_all X x11) rfl
    exact ⟨x11', rest, h1, by rw [h2, gsr_x11_hotkeys_ungrab_all_requests]⟩
  have hsame : same_remembered (gsr_hotkeys_regrab_for_visible_page X self)
      (gsr_hotkeys_regrab_for_visible_page X
        (gsr_hotkeys_regrab_for_visible_page X self)) := by
    cases hx : self.x11 with
    | none =>
      have e : gsr_hotkeys_regrab_for_visible_page X self = self := by
        unfold gsr_hotkeys_regrab_for_visible_page
        simp only [hx]
      rw [e, e]
      exact ⟨rfl, rfl, rfl, rfl, rfl⟩
    | some x11 =>
      by_cases hd : self.display_server = GsrDisplayServer.GSR_DISPLAY_SERVER_X11
      · have e1 := gsr_hotkeys_regrab_for_visible_page_phases X self x11 hx hd
        obtain ⟨fw, fd, fn⟩ := regrab_grab_phase_same_frame X (regrab_ungrab_phase X self x11)
        rw [← e1] at fw fd fn
        have hd1 : (gsr_hotkeys_regrab_for_visible_page X self).display_server =
            GsrDisplayServer.GSR_DISPLAY_SERVER_X11 := by rw [fd]; exact hd
        cases hx1 : (gsr_hotkeys_regrab_for_visible_page X self).x11 with
        | none => rw [hx1] at fn; simp [regrab_ungrab_phase] at fn
        | some x1 =>
          rw [hx1] at fn
          have hn1 : x1.numlockmask = x11.numlockmask := by
            simpa [regrab_ungrab_phase, gsr_x11_hotkeys_ungrab_all] using fn
          have e2 := gsr_hotkeys_regrab_for_visible_page_phases X _ x1 hx1 hd1
          rw [e2]
          have hpre : same_remembered (regrab_ungrab_phase X self x11)
              (regrab_ungrab_phase X (gsr_hotkeys_regrab_for_visible_page X self) x1) := by
            refine ⟨?_, ?_, rfl, ?_, ?_⟩
            · exact fw.symm
            · exact fd.symm
            · simp [regrab_ungrab_phase, gsr_x11_hotkeys_ungrab_all]
            · simp [regrab_ungrab_phase, gsr_x11_hotkeys_ungrab_all, hn1]
          have := regrab_grab_phase_same_remembered X outcome hX _ _ hpre
          rw [← e1] at this
          exact this
      · have e : gsr_hotkeys_regrab_for_visible_page X self = self := by
          unfold gsr_hotkeys_regrab_for_visible_page
          simp only [hx, ne_eq, hd, not_false_eq_true, if_true]
        rw [e, e]
        exact ⟨rfl, rfl, rfl, rfl, rfl⟩
  exact ⟨hsame.2.2.1.symm, hsame.2.2.2.1.symm, hord⟩

/-- Witness of C14: the sample manager on the sample server, where Alt+1 is
granted and Alt+2 refused on every call. -/
theorem gsr_hotkeys_regrab_for_visible_page_idempotent_witness :
    (gsr_hotkeys_regrab_for_visible_page sample_xserver
        (gsr_hotkeys_regrab_for_visible_page sample_xserver sample_x11_manager)).active_combos =
      (gsr_hotkeys_regrab_for_visible_page sample_xserver sample_x11_manager).active_combos ∧
    (gsr_hotkeys_regrab_for_visible_page sample_xserver sample_x11_manager).active_combos =
      [{ x11_modifiers := Mod1Mask, keysym := 49,
         action := HotkeyAction.HOTKEY_ACTION_START_STOP }] :=
  ⟨(gsr_hotkeys_regrab_for_visible_page_idempotent sample_xserver (fun kc _ => kc == 50)
      (fun _ _ _ => rfl) sample_x11_manager).1, by decide⟩

/-- C15, counterexample. A combination with keysym 0 but modifiers Alt is empty
in the sense of `gsr_config_hotkey_is_empty`, yet `gsr_x11_hotkeys_grab` sends
the four grab requests for it and remembers it. -/
theorem gsr_x11_hotkeys_grab_zero_keysym_grabs :
    gsr_x11_hotkeys_grab sample_xserver
        { display := { requests := [] }, numlockmask := Mod2Mask, combos := [] }
        { modifiers := Mod1Mask, keysym := 0 } =
      (true,
       { display := { requests :=
           [XRequest.XSync, XRequest.XGrabKey 0 8, XRequest.XGrabKey 0 10,
            XRequest.XGrabKey 0 24, XRequest.XGrabKey 0 26, XRequest.XSync] },
         numlockmask := Mod2Mask,
         combos := [{ modifiers := Mod1Mask, keysym := 0 }] }) := by
  decide

/-- C15, amended. For every backend state and the combination with keysym 0 and
modifiers 0, `gsr_x11_hotkeys_grab` sends no request and leaves the backend,
its remembered combos included, unchanged; it returns true when the backend is
below capacity and false when it is at capacity. -/
theorem gsr_x11_hotkeys_grab_empty (X : XServer) (self : GsrX11Hotkeys) :
    gsr_x11_hotkeys_grab X self { modifiers := 0, keysym := 0 } =
      (decide (self.num_combos < MAX_GRABBED_COMBOS), self) := by
  unfold gsr_x11_hotkeys_grab
  by_cases h : self.num_combos ≥ MAX_GRABBED_COMBOS
  · simp [h]
  · simp only [h, if_false, and_self, if_true]
    simp [Nat.lt_of_not_le h]

/-- C16. `gsr_x11_hotkeys_ungrab_all` sends, for every remembered combination
in order, exactly its four ungrab requests (modifiers `m`, `m|LockMask`,
`m|numlockmask`, `m|numlockmask|LockMask`), then a sync, and leaves the
remembered set empty and the Num Lock mask as it was; when nothing is
remembered it sends no ungrab request, only the sync, and leaves remembered set
and Num Lock mask unchanged; so a second call leaves remembered set and
Num Lock mask as the first call left them. -/
theorem gsr_x11_hotkeys_ungrab_all_spec (X : XServer) (self : GsrX11Hotkeys) :
    (gsr_x11_hotkeys_ungrab_all X self).display.requests =
      self.display.requests ++ self.combos.flatMap (ungrab_requests X self.numlockmask) ++
        [XRequest.XSync] ∧
    (gsr_x11_hotkeys_ungrab_all X self).combos = [] ∧
    (gsr_x11_hotkeys_ungrab_all X self).numlockmask = self.numlockmask ∧
    (self.combos = [] →
      gsr_x11_hotkeys_ungrab_all X self =
        { self with display := { requests := self.display.requests ++ [XRequest.XSync] } }) ∧
    gsr_x11_hotkeys_ungrab_all X (gsr_x11_hotkeys_ungrab_all X self) =
      { gsr_x11_hotkeys_ungrab_all X self with
        display := { requests :=
          (gsr_x11_hotkeys_ungrab_all X self).display.requests ++ [XRequest.XSync] } } := by
  refine ⟨gsr_x11_hotkeys_ungrab_all_requests X self, rfl, rfl, ?_, ?_⟩
  · intro h
    simp [gsr_x11_hotkeys_ungrab_all, XSync, h]
  · simp [gsr_x11_hotkeys_ungrab_all, XSync]

/-- Witness of C16: a backend with nothing remembered, and the backend of the
sample manager, which remembers Alt+1 and Alt+2. -/
theorem gsr_x11_hotkeys_ungrab_all_spec_witness :
    gsr_x11_hotkeys_ungrab_all sample_xserver
        { display := { requests := [] }, numlockmask := Mod2Mask, combos := [] } =
      { display := { requests := [XRequest.XSync] }, numlockmask := Mod2Mask, combos := [] } ∧
    (gsr_x11_hotkeys_ungrab_all sample_xserver
        { display := { requests := [] }, numlockmask := Mod2Mask,
          combos := [{ modifiers := 8, keysym := 49 },
                     { modifiers := 8, keysym := 50 }] }).display.requests =
      [XRequest.XUngrabKey 49 8, XRequest.XUngrabKey 49 10, XRequest.XUngrabKey 49 24,
       XRequest.XUngrabKey 49 26, XRequest.XUngrabKey 50 8, XRequest.XUngrabKey 50 10,
       XRequest.XUngrabKey 50 24, XRequest.XUngrabKey 50 26, XRequest.XSync] :=
  ⟨(gsr_x11_hotkeys_ungrab_all_spec sample_xserver
      { display := { requests := [] }, numlockmask := Mod2Mask, combos := [] }).2.2.2.1 rfl,
   (gsr_x11_hotkeys_ungrab_all_spec sample_xserver
      { display := { requests := [] }, numlockmask := Mod2Mask,
        combos := [{ modifiers := 8, keysym := 49 }, { modifiers := 8, keysym := 50 }] }).1⟩

/-- C17, counterexample. With the sample toolkit, whose name/parse pair is
inverse where it is used here, the hotkey Meta_L+1 does not come back from the
accelerator round trip as itself, although it holds no right-hand modifier: it
comes back as Super_L+1. -/
theorem accel_round_trip_meta_becomes_super :
    sample_gtk.inverse_at 49 GDK_SUPER_MASK ∧
    gsr_config_hotkey_from_accel sample_gtk { keysym := 0, modifiers := 0 }
        (gsr_config_hotkey_to_accel sample_gtk
          { keysym := 49, modifiers := CUSTOM_MASK XK_Meta_L }) =
      (true, { keysym := 49, modifiers := CUSTOM_MASK XK_Super_L }) ∧
    CUSTOM_MASK XK_Super_L ≠ CUSTOM_MASK XK_Meta_L := by
  decide

/-- C17, amended. Accelerator round trip: for a hotkey whose keysym lies in
`1 .. 2^32 - 1`, with the toolkit's name/parse pair inverse at the key and
modifier set handed to it, `gsr_config_hotkey_from_accel` applied to
`gsr_config_hotkey_to_accel hk` succeeds and yields the keysym of `hk` with its
modifiers in canonical form: left Shift, Control, Alt for either variant of
these, left Super for any of Meta and Super, all other bits cleared. -/
theorem accel_round_trip (G : Gtk) (hk old : GsrConfigHotkey)
    (h0 : 0 < hk.keysym) (h1 : hk.keysym < 2 ^ 32)
    (hG : G.inverse_at hk.keysym.toNat (gdk_mods_of_custom hk.modifiers)) :
    gsr_config_hotkey_from_accel G old (gsr_config_hotkey_to_accel G hk) =
      (true, { keysym := hk.keysym, modifiers := canonical_modifiers hk.modifiers }) := by
  have hne : hk.keysym ≠ 0 := ne_of_gt h0
  have hmod : (hk.keysym % (2 ^ 32 : Int)).toNat = hk.keysym.toNat := by
    rw [Int.emod_eq_of_lt (le_of_lt h0) h1]
  have hnat : hk.keysym.toNat ≠ 0 := by omega
  have hcast : ((hk.keysym.toNat : Nat) : Int) = hk.keysym := Int.toNat_of_nonneg (le_of_lt h0)
  obtain ⟨hG1, hG2⟩ := hG
  unfold gsr_config_hotkey_to_accel gsr_config_hotkey_from_accel
  simp only [hne, if_false, hmod, hG1, hG2, hnat, hcast, custom_of_gdk_mods_of_custom]

/-- Witness of C17, amended: Alt_R+1 comes back as Alt_L+1. -/
theorem accel_round_trip_witness :
    gsr_config_hotkey_from_accel sample_gtk { keysym := 0, modifiers := 0 }
        (gsr_config_hotkey_to_accel sample_gtk
          { keysym := 49, modifiers := CUSTOM_MASK XK_Alt_R }) =
      (true, { keysym := 49, modifiers := CUSTOM_MASK XK_Alt_L }) :=
  (accel_round_trip sample_gtk { keysym := 49, modifiers := CUSTOM_MASK XK_Alt_R }
    { keysym := 0, modifiers := 0 } (by decide) (by decide) (by decide)).trans (by decide)

/-- C18. `gsr_config_hotkey_from_accel` returns TRUE on a NULL and on an empty
accelerator text and sets the hotkey to keysym 0, modifiers 0; it returns FALSE
exactly when the text is not empty and the accelerator parser rejects it. -/
theorem gsr_config_hotkey_from_accel_empty (G : Gtk) (hk : GsrConfigHotkey)
    (accel : Option String) :
    gsr_config_hotkey_from_accel G hk none = (true, { keysym := 0, modifiers := 0 }) ∧
    gsr_config_hotkey_from_accel G hk (some "") = (true, { keysym := 0, modifiers := 0 }) ∧
    ((gsr_config_hotkey_from_accel G hk accel).1 = false ↔
      ∃ text, accel = some text ∧ text ≠ "" ∧ G.gtk_accelerator_parse text = none) := by
  refine ⟨rfl, rfl, ?_⟩
  unfold gsr_config_hotkey_from_accel
  cases accel with
  | none => simp
  | some text =>
    by_cases ht : text = ""
    · simp [ht]
    · simp only [ht, if_false, Option.some.injEq, ne_eq, exists_eq_left', not_false_eq_true,
        true_and]
      cases hp : G.gtk_accelerator_parse text with
      | none => simp
      | some r =>
        obtain ⟨keyval, mods⟩ := r
        simp only
        split <;> simp

/-- C19. `gsr_config_hotkey_to_x11` on a hotkey within its C field types: the
returned `uint64_t` keysym, read back as a signed 64-bit value, is the stored
key identifier, and equals it as a number when that is not negative; the
returned mask is the OR of `ShiftMask` iff portable bit 0 or 1 is set,
`ControlMask` iff bit 2 or 3, `Mod1Mask` iff bit 8 or 9, and `Mod4Mask` iff any
of bits 6, 7, 10, 11; no bit outside these four is set; and the portable mask
256 converts to `Mod1Mask`. -/
theorem gsr_config_hotkey_to_x11_spec (hk : GsrConfigHotkey) (hr : hk.in_range) :
    (if (gsr_config_hotkey_to_x11 hk).2 < 2 ^ 63 then ((gsr_config_hotkey_to_x11 hk).2 : Int)
     else ((gsr_config_hotkey_to_x11 hk).2 : Int) - 2 ^ 64) = hk.keysym ∧
    (0 ≤ hk.keysym → ((gsr_config_hotkey_to_x11 hk).2 : Int) = hk.keysym) ∧
    (gsr_config_hotkey_to_x11 hk).1 =
      (if hk.modifiers.testBit 0 = true ∨ hk.modifiers.testBit 1 = true then ShiftMask else 0) |||
      (if hk.modifiers.testBit 2 = true ∨ hk.modifiers.testBit 3 = true then ControlMask
       else 0) |||
      (if hk.modifiers.testBit 8 = true ∨ hk.modifiers.testBit 9 = true then Mod1Mask else 0) |||
      (if hk.modifiers.testBit 6 = true ∨ hk.modifiers.testBit 7 = true ∨
          hk.modifiers.testBit 10 = true ∨ hk.modifiers.testBit 11 = true then Mod4Mask
       else 0) ∧
    (gsr_config_hotkey_to_x11 hk).1 &&& (ShiftMask ||| ControlMask ||| Mod1Mask ||| Mod4Mask) =
      (gsr_config_hotkey_to_x11 hk).1 ∧
    (gsr_config_hotkey_to_x11 { keysym := hk.keysym, modifiers := 256 }).1 = Mod1Mask := by
  obtain ⟨hlo, hhi, _⟩ := hr
  have hmask : (gsr_config_hotkey_to_x11 hk).1 =
      (if hk.modifiers.testBit 0 = true ∨ hk.modifiers.testBit 1 = true then ShiftMask else 0) |||
      (if hk.modifiers.testBit 2 = true ∨ hk.modifiers.testBit 3 = true then ControlMask
       else 0) |||
      (if hk.modifiers.testBit 8 = true ∨ hk.modifiers.testBit 9 = true then Mod1Mask else 0) |||
      (if hk.modifiers.testBit 6 = true ∨ hk.modifiers.testBit 7 = true ∨
          hk.modifiers.testBit 10 = true ∨ hk.modifiers.testBit 11 = true then Mod4Mask
       else 0) := by
    simp only [← and_MASK_SHIFT, ← and_MASK_CONTROL, ← and_MASK_ALT, ← and_MASK_META_SUPER]
    unfold gsr_config_hotkey_to_x11
    by_cases h1 : hk.modifiers &&& MASK_SHIFT ≠ 0 <;>
      by_cases h2 : hk.modifiers &&& MASK_CONTROL ≠ 0 <;>
      by_cases h3 : hk.modifiers &&& MASK_ALT ≠ 0 <;>
      by_cases h4 : hk.modifiers &&& (MASK_META ||| MASK_SUPER) ≠ 0 <;>
      simp only [h1, h2, h3, h4, ne_eq, not_true_eq_false, not_false_eq_true, if_true,
        if_false] <;> decide
  have h256 : (gsr_config_hotkey_to_x11 { keysym := hk.keysym, modifiers := 256 }).1 =
      (gsr_config_hotkey_to_x11 { keysym := 0, modifiers := 256 }).1 := rfl
  refine ⟨?_, ?_, hmask, ?_, h256.trans (by decide)⟩
  · simp only [gsr_config_hotkey_to_x11]
    norm_num at hlo hhi ⊢
    split <;> omega
  · intro hnn
    simp only [gsr_config_hotkey_to_x11]
    norm_num at hlo hhi ⊢
    omega
  · rw [hmask]
    by_cases h1 : hk.modifiers.testBit 0 = true ∨ hk.modifiers.testBit 1 = true <;>
      by_cases h2 : hk.modifiers.testBit 2 = true ∨ hk.modifiers.testBit 3 = true <;>
      by_cases h3 : hk.modifiers.testBit 8 = true ∨ hk.modifiers.testBit 9 = true <;>
      by_cases h4 : hk.modifiers.testBit 6 = true ∨ hk.modifiers.testBit 7 = true ∨
        hk.modifiers.testBit 10 = true ∨ hk.modifiers.testBit 11 = true <;>
      simp only [h1, h2, h3, h4, if_true, if_false] <;> decide

/-- Witness of C19: the default start/stop hotkey, key 49 with mask 256,
converts to keysym 49 with `Mod1Mask`. -/
theorem gsr_config_hotkey_to_x11_spec_witness :
    ((gsr_config_hotkey_to_x11 DEFAULT_HOTKEY_START_STOP).2 : Int) = 49 ∧
    (gsr_config_hotkey_to_x11 DEFAULT_HOTKEY_START_STOP).1 = Mod1Mask :=
  ⟨(gsr_config_hotkey_to_x11_spec DEFAULT_HOTKEY_START_STOP (by decide)).2.1 (by decide),
   (gsr_config_hotkey_to_x11_spec DEFAULT_HOTKEY_START_STOP (by decide)).2.2.1.trans
     (by decide)⟩

/-- C20, counterexample. With a portal that does not reply, the create-session
call fails and `gsr_global_shortcuts_init` returns false, yet
`gsr_hotkeys_new` for the Wayland display server returns a manager, not NULL;
that manager has no X11 backend and a portal client without connection. -/
theorem gsr_hotkeys_new_wayland_failure_returns_manager :
    (gsr_global_shortcuts_init sample_env_no_reply.portal sample_env_no_reply.getrandom
        sample_env_no_reply.g_bus_get_sync SessionBus.fresh).1 = false ∧
    (gsr_hotkeys_new sample_env_no_reply GsrDisplayServer.GSR_DISPLAY_SERVER_WAYLAND
        sample_window).map
      (fun h => (h.x11.isSome, h.wayland.gdbus_con, h.wayland_initialized)) =
      some (false, false, false) :=
  ⟨rfl, rfl⟩

/-- C20, amended. For the X11 display server `gsr_hotkeys_new` returns a manager
exactly when the manager can be allocated, GDK has a default display, an X
display is obtained from it and the X11 watcher is created, and NULL
otherwise; the manager returned has the X11 backend and an untouched portal
client. For the Wayland display server it returns a manager whenever the
manager can be allocated, whether or not the bus connection and the
create-session call succeed; the manager returned has no X11 backend, its
portal client holds a connection exactly when `gsr_global_shortcuts_init`
succeeded, and it is not yet initialized. -/
theorem gsr_hotkeys_new_backends (E : Env) (window : GsrWindow) :
    ((gsr_hotkeys_new E GsrDisplayServer.GSR_DISPLAY_SERVER_X11 window).isSome =
      (E.calloc_hotkeys && E.gdk_display_get_default &&
        E.gdk_x11_display_get_xdisplay.isSome && E.calloc_x11)) ∧
    (∀ h, gsr_hotkeys_new E GsrDisplayServer.GSR_DISPLAY_SERVER_X11 window = some h →
      h.x11.isSome = true ∧ h.wayland.gdbus_con = false ∧ h.bus = SessionBus.fresh) ∧
    ((gsr_hotkeys_new E GsrDisplayServer.GSR_DISPLAY_SERVER_WAYLAND window).isSome =
      E.calloc_hotkeys) ∧
    (∀ h, gsr_hotkeys_new E GsrDisplayServer.GSR_DISPLAY_SERVER_WAYLAND window = some h →
      h.x11 = none ∧
      h.wayland.gdbus_con =
        (gsr_global_shortcuts_init E.portal E.getrandom E.g_bus_get_sync
          SessionBus.fresh).1 ∧
      h.wayland_initialized = false) := by
  refine ⟨?_, ?_, ?_, ?_⟩
  · unfold gsr_hotkeys_new gsr_x11_hotkeys_new
    cases E.calloc_hotkeys <;> cases E.gdk_display_get_default <;>
      cases E.gdk_x11_display_get_xdisplay <;> cases E.calloc_x11 <;> rfl
  · intro h hh
    unfold gsr_hotkeys_new gsr_x11_hotkeys_new at hh
    cases hc : E.calloc_hotkeys <;> cases hg : E.gdk_display_get_default <;>
      cases hx : E.gdk_x11_display_get_xdisplay <;> cases hc2 : E.calloc_x11 <;>
      simp [hc, hg, hx, hc2] at hh
    subst hh
    exact ⟨rfl, rfl, rfl⟩
  · unfold gsr_hotkeys_new
    cases E.calloc_hotkeys <;> rfl
  · intro h hh
    unfold gsr_hotkeys_new at hh
    cases hc : E.calloc_hotkeys <;> simp [hc] at hh
    subst hh
    exact ⟨rfl, gsr_global_shortcuts_init_gdbus_con _ _ _ _, rfl⟩

/-- Witness of C20, amended: in the sample environment a manager for X11 gets the
X11 backend, and a manager for Wayland is returned without one. -/
theorem gsr_hotkeys_new_backends_witness :
    (gsr_hotkeys_new sample_env_no_reply GsrDisplayServer.GSR_DISPLAY_SERVER_X11
        sample_window).isSome = true ∧
    (gsr_hotkeys_new sample_env_no_reply GsrDisplayServer.GSR_DISPLAY_SERVER_WAYLAND
        sample_window).isSome = true :=
  ⟨(gsr_hotkeys_new_backends sample_env_no_reply sample_window).1.trans rfl,
   (gsr_hotkeys_new_backends sample_env_no_reply sample_window).2.2.1.trans rfl⟩

/-- C22, evaluated where the code departs from it: on an X server whose Num Lock
is on Mod3 the backend detects `numlockmask = Mod3Mask` and a grab of Alt+1
issues `XGrabKey` for the state `Mod1Mask | Mod3Mask` and remembers the
combination, yet a key release of that key carrying that state invokes no
callback, because `key_state_without_locks` clears the constant `Mod2Mask` and
not the detected bit. The same release with state `Mod1Mask` or
`Mod1Mask | LockMask` is delivered. -/
theorem x11_source_dispatch_numlock_on_mod3 :
    sample_x11_numlock_mod3.map (fun x => (x.numlockmask, x.combos)) =
      some (Mod3Mask, [{ modifiers := Mod1Mask, keysym := 49 }]) ∧
    sample_x11_numlock_mod3.map (fun x =>
      decide (XRequest.XGrabKey 49 (Mod1Mask ||| Mod3Mask) ∈ x.display.requests)) = some true ∧
    sample_x11_numlock_mod3.map (fun x => x11_source_dispatch sample_xserver_numlock_mod3 x
      [{ type := KeyRelease, keycode := 49, state := Mod1Mask ||| Mod3Mask }]) = some [] ∧
    sample_x11_numlock_mod3.map (fun x => x11_source_dispatch sample_xserver_numlock_mod3 x
      [{ type := KeyRelease, keycode := 49, state := Mod1Mask ||| Mod3Mask ||| LockMask }]) =
      some [] ∧
    sample_x11_numlock_mod3.map (fun x => x11_source_dispatch sample_xserver_numlock_mod3 x
      [{ type := KeyRelease, keycode := 49, state := Mod1Mask },
       { type := KeyRelease, keycode := 49, state := Mod1Mask ||| LockMask }]) =
      some [(Mod1Mask, 49), (Mod1Mask, 49)] := by
  decide

/-- C23 as written fails: after two granted grabs of Alt+1 the backend, whose
detected Num Lock bit is `Mod2Mask`, remembers two combinations that both match
a key release of Alt+1, and `x11_source_dispatch` invokes the callback once,
not once per matching combination. -/
theorem x11_source_dispatch_first_match_only :
    sample_x11_grabbed_twice.map (fun x => x.numlockmask) = some Mod2Mask ∧
    sample_x11_grabbed_twice.map (fun x => x.combos) =
      some [{ modifiers := Mod1Mask, keysym := 49 }, { modifiers := Mod1Mask, keysym := 49 }] ∧
    sample_x11_grabbed_twice.map (fun x => x11_source_dispatch sample_xserver x
      [{ type := KeyRelease, keycode := 49, state := Mod1Mask }]) = some [(Mod1Mask, 49)] := by
  decide

/-- C23, amended: on a backend whose detected Num Lock bit is `Mod2Mask`,
`x11_source_dispatch` handles every pending event in order; an event that is
not a key release invokes nothing; a key release with key `k` and state `s`
invokes the callback once when some remembered combination has keysym `k` and
modifiers equal to `s` with the lock-key bits (the detected Num Lock bit and
`LockMask`) stripped, with those registered modifiers and keysym, and invokes
nothing when no remembered combination matches. -/
theorem x11_source_dispatch_spec (X : XServer) (self : GsrX11Hotkeys) (pending : List XEvent)
    (hn : self.numlockmask = Mod2Mask) :
    x11_source_dispatch X self pending =
      pending.flatMap (fun ev =>
        if ev.type = KeyRelease ∧
            ({ modifiers := state_without_lock_bits self.numlockmask ev.state,
               keysym := X.XLookupKeysym ev.keycode } : GsrX11HotkeyCombo) ∈ self.combos
        then [(state_without_lock_bits self.numlockmask ev.state, X.XLookupKeysym ev.keycode)]
        else []) := by
  have e : ∀ s, state_without_lock_bits self.numlockmask s = key_state_without_locks s := by
    intro s
    rw [hn]
    rfl
  simp only [e]
  induction pending with
  | nil => rfl
  | cons ev rest ih =>
    unfold x11_source_dispatch
    rw [List.flatMap_cons, ← ih]
    by_cases h : ev.type = KeyRelease
    · simp only [h, ne_eq, not_true_eq_false, if_false, true_and, x11_source_dispatch_match_eq]
    · simp only [h, ne_eq, not_false_eq_true, if_true, false_and, if_false, List.nil_append]

/-- Witness of C23, amended: a backend with Num Lock on Mod2 that remembers
Alt+1 and Alt+2 handles a release of Alt+1 with Num Lock and Caps Lock on, a
key press, a release of Control+Alt+2 and a release of Alt+2. -/
theorem x11_source_dispatch_spec_witness :
    x11_source_dispatch sample_xserver
      { display := { requests := [] }, numlockmask := Mod2Mask,
        combos := [{ modifiers := Mod1Mask, keysym := 49 },
                   { modifiers := Mod1Mask, keysym := 50 }] }
      [{ type := KeyRelease, keycode := 49, state := Mod1Mask ||| Mod2Mask ||| LockMask },
       { type := 2, keycode := 49, state := Mod1Mask },
       { type := KeyRelease, keycode := 50, state := Mod1Mask ||| ControlMask },
       { type := KeyRelease, keycode := 50, state := Mod1Mask }] =
      [(Mod1Mask, 49), (Mod1Mask, 50)] :=
  (x11_source_dispatch_spec sample_xserver
    { display := { requests := [] }, numlockmask := Mod2Mask,
      combos := [{ modifiers := Mod1Mask, keysym := 49 },
                 { modifiers := Mod1Mask, keysym := 50 }] }
    [{ type := KeyRelease, keycode := 49, state := Mod1Mask ||| Mod2Mask ||| LockMask },
     { type := 2, keycode := 49, state := Mod1Mask },
     { type := KeyRelease, keycode := 50, state := Mod1Mask ||| ControlMask },
     { type := KeyRelease, keycode := 50, state := Mod1Mask }] rfl).trans (by decide)

/-- C24: `on_x11_hotkey` invokes the leaf action of the first remembered combo
whose keysym and modifiers equal the fired ones; only when there is none, that
of the first remembered combo whose keysym equals the fired one and whose
modifiers equal the fired ones masked to `BASE_MODS`; with neither, nothing
changes. An exact match therefore wins over a degraded one wherever they are
stored. -/
theorem on_x11_hotkey_lookup_order (modifiers keysym : Nat) (self : GsrHotkeys) :
    on_x11_hotkey modifiers keysym self =
      match first_exact self.active_combos modifiers keysym with
      | some c => { self with window := self.window.call c.action.leaf }
      | none =>
        match first_exact self.active_combos (modifiers &&& BASE_MODS) keysym with
        | some c => { self with window := self.window.call c.action.leaf }
        | none => self := by
  unfold on_x11_hotkey
  simp only [on_x11_hotkey_lookup_eq_first_exact, BASE_MODS]
  cases h1 : first_exact self.active_combos modifiers keysym with
  | some c => cases h : c.action <;> simp [h, HotkeyAction.leaf, dispatch_start_stop,
      dispatch_pause_unpause, dispatch_save_replay]
  | none =>
    cases h2 : first_exact self.active_combos
        (modifiers &&& (ControlMask ||| ShiftMask ||| Mod1Mask ||| Mod4Mask)) keysym with
    | some c => cases h : c.action <;> simp [h, HotkeyAction.leaf, dispatch_start_stop,
        dispatch_pause_unpause, dispatch_save_replay]
    | none => simp


/-- C29. Manager/backend agreement: after `gsr_hotkeys_regrab_for_visible_page`
on the direct backend the manager's `active_combos` and the backend's
remembered combos list the same `(modifiers, keysym)` pairs in the same order,
at most two of them; so for every callback `x11_source_dispatch` delivers, the
exact-match pass of `on_x11_hotkey` finds a remembered combo, that combo is the
entry of a configured binding of the visible page, and the leaf action of its
tag is invoked. -/
theorem regrab_manager_backend_agreement (X : XServer) (self : GsrHotkeys) (x : GsrX11Hotkeys)
    (hx : self.x11 = some x)
    (hd : self.display_server = GsrDisplayServer.GSR_DISPLAY_SERVER_X11) :
    ∃ x' : GsrX11Hotkeys, (gsr_hotkeys_regrab_for_visible_page X self).x11 = some x' ∧
      (gsr_hotkeys_regrab_for_visible_page X self).active_combos.map GrabbedCombo.combo =
        x'.combos ∧
      x'.combos.length ≤ 2 ∧
      ∀ (pending : List XEvent) (fired : Nat × Nat),
        fired ∈ x11_source_dispatch X x' pending →
        ∃ c, first_exact (gsr_hotkeys_regrab_for_visible_page X self).active_combos
              fired.1 fired.2 = some c ∧
          (∃ b ∈ visible_bindings self, binding_configured b.1 ∧ c = binding_entry b) ∧
          on_x11_hotkey fired.1 fired.2 (gsr_hotkeys_regrab_for_visible_page X self) =
            { gsr_hotkeys_regrab_for_visible_page X self with
              window := (gsr_hotkeys_regrab_for_visible_page X self).window.call
                c.action.leaf } := by
  obtain ⟨x', granted, e1, e2, e3, e4, _⟩ := regrab_direct_spec X self x hx hd
  have hagree : (gsr_hotkeys_regrab_for_visible_page X self).active_combos.map
      GrabbedCombo.combo = x'.combos := by
    rw [e3, e4, List.map_map]
    rfl
  refine ⟨x', e1, hagree, ?_, ?_⟩
  · rw [e3, List.length_map]
    exact (e2.length_le.trans (List.length_filter_le _ _)).trans (visible_bindings_length self)
  · intro pending fired hf
    obtain ⟨c, hc, ho⟩ := on_x11_hotkey_of_dispatched X _ x' hagree pending fired hf
    refine ⟨c, hc, ?_, ho⟩
    have hmem : c ∈ (gsr_hotkeys_regrab_for_visible_page X self).active_combos := by
      unfold first_exact at hc
      exact List.mem_of_find?_eq_some hc
    rw [e4, List.mem_map] at hmem
    obtain ⟨b, hb, hbc⟩ := hmem
    have hb' := e2.subset hb
    rw [List.mem_filter] at hb'
    exact ⟨b, hb'.1, by simpa using hb'.2, hbc.symm⟩

/-- Witness of C29: the sample manager on the direct backend, regrabbed on the
sample server. -/
theorem regrab_manager_backend_agreement_witness :
    ∃ x' : GsrX11Hotkeys,
      (gsr_hotkeys_regrab_for_visible_page sample_xserver sample_x11_manager).x11 = some x' ∧
      (gsr_hotkeys_regrab_for_visible_page sample_xserver sample_x11_manager).active_combos.map
        GrabbedCombo.combo = x'.combos ∧
      x'.combos.length ≤ 2 ∧
      ∀ (pending : List XEvent) (fired : Nat × Nat),
        fired ∈ x11_source_dispatch sample_xserver x' pending →
        ∃ c, first_exact
              (gsr_hotkeys_regrab_for_visible_page sample_xserver sample_x11_manager).active_combos
              fired.1 fired.2 = some c ∧
          (∃ b ∈ visible_bindings sample_x11_manager, binding_configured b.1 ∧
            c = binding_entry b) ∧
          on_x11_hotkey fired.1 fired.2
              (gsr_hotkeys_regrab_for_visible_page sample_xserver sample_x11_manager) =
            { gsr_hotkeys_regrab_for_visible_page sample_xserver sample_x11_manager with
              window := (gsr_hotkeys_regrab_for_visible_page sample_xserver
                sample_x11_manager).window.call c.action.leaf } :=
  regrab_manager_backend_agreement sample_xserver sample_x11_manager
    { display := { requests := [] }, numlockmask := Mod2Mask,
      combos := [{ modifiers := 8, keysym := 49 }, { modifiers := 8, keysym := 50 }] }
    rfl rfl


/-- C26 as written fails: with the pause/unpause binding of the page "record"
set to the start/stop binding, a regrab on the sample server grabs Alt+1 twice
and the backend remembers it twice. -/
theorem regrab_same_binding_remembered_twice :
    (gsr_hotkeys_regrab_for_visible_page sample_xserver
      sample_x11_manager_same_bindings).x11.map (fun x => x.combos) =
      some [{ modifiers := Mod1Mask, keysym := 49 }, { modifiers := Mod1Mask, keysym := 49 }] ∧
    (gsr_hotkeys_regrab_for_visible_page sample_xserver
      sample_x11_manager_same_bindings).x11.map (fun x =>
        x.display.requests.count (XRequest.XGrabKey 49 Mod1Mask)) = some 2 := by
  decide

/-- C26, amended: in every backend state reachable through
`gsr_x11_hotkeys_new`, `gsr_x11_hotkeys_grab` and `gsr_x11_hotkeys_ungrab_all`
in which no grab is requested for a combination that is already remembered,
the remembered combos hold no combination twice; and this is so after
`gsr_hotkeys_regrab_for_visible_page` on the direct backend whenever the
configured bindings of the visible page convert to different combinations. -/
theorem remembered_combos_nodup (X : XServer) :
    (∀ x, BackendReachable X (fun x combo => combo ∉ x.combos) x → x.combos.Nodup) ∧
    (∀ (self : GsrHotkeys) (x : GsrX11Hotkeys), self.x11 = some x →
      self.display_server = GsrDisplayServer.GSR_DISPLAY_SERVER_X11 →
      (((visible_bindings self).filter (fun b => decide (binding_configured b.1))).map
        (fun b => binding_combo b.1)).Nodup →
      ∃ x', (gsr_hotkeys_regrab_for_visible_page X self).x11 = some x' ∧ x'.combos.Nodup) := by
  constructor
  · intro x hr
    induction hr with
    | new calloc_ok display x h =>
      rw [gsr_x11_hotkeys_new_combos X calloc_ok display x h]
      exact List.nodup_nil
    | grab x combo _ hfresh ih =>
      rcases gsr_x11_hotkeys_grab_combos_cases X x combo with e | ⟨_, e⟩
      · rw [e]
        exact ih
      · rw [e]
        exact List.Nodup.append ih (List.nodup_singleton _)
          (by
            intro a ha hb
            rw [List.mem_singleton] at hb
            subst hb
            exact hfresh ha)
    | ungrab_all x _ _ => exact List.nodup_nil
  · intro self x hx hd hn
    obtain ⟨x', granted, e1, e2, e3, _, _⟩ := regrab_direct_spec X self x hx hd
    refine ⟨x', e1, ?_⟩
    rw [e3]
    exact List.Nodup.sublist (List.Sublist.map _ e2) hn

/-- Witness of C26: the backend made on the sample server after grabs of Alt+1
and Alt+3, and the sample manager, whose page "record" binds Alt+1 and
Alt+2. -/
theorem remembered_combos_nodup_witness :
    (gsr_x11_hotkeys_grab sample_xserver
      (gsr_x11_hotkeys_grab sample_xserver
        { display := { requests := [] }, numlockmask := Mod2Mask, combos := [] }
        { modifiers := Mod1Mask, keysym := 49 }).2
      { modifiers := Mod1Mask, keysym := 51 }).2.combos.Nodup ∧
    ∃ x', (gsr_hotkeys_regrab_for_visible_page sample_xserver sample_x11_manager).x11 =
      some x' ∧ x'.combos.Nodup :=
  ⟨(remembered_combos_nodup sample_xserver).1 _
      (BackendReachable.grab _ _
        (BackendReachable.grab _ _
          (BackendReachable.new true (some { requests := [] }) _ rfl) (by decide))
        (by decide)),
   (remembered_combos_nodup sample_xserver).2 sample_x11_manager _ rfl rfl (by decide)⟩

/-- C27. Capacity invariant: every reachable manager state has
`n_active_combos ≤ MAX_ACTIVE_COMBOS` and a backend with
`num_combos ≤ MAX_GRABBED_COMBOS`; every backend state reachable through
`gsr_x11_hotkeys_new`, `gsr_x11_hotkeys_grab` and `gsr_x11_hotkeys_ungrab_all`
has `num_combos ≤ MAX_GRABBED_COMBOS`; and a grab requested at capacity returns
false and leaves the backend, the requests sent on its connection included, as
it was. -/
theorem capacity_invariant (E : Env) :
    (∀ s, HotkeysReachable E s →
      s.n_active_combos ≤ MAX_ACTIVE_COMBOS ∧
      ∀ x, s.x11 = some x → x.num_combos ≤ MAX_GRABBED_COMBOS) ∧
    (∀ x, BackendReachable E.X (fun _ _ => True) x → x.num_combos ≤ MAX_GRABBED_COMBOS) ∧
    (∀ (x : GsrX11Hotkeys) (combo : GsrX11HotkeyCombo), x.num_combos ≥ MAX_GRABBED_COMBOS →
      gsr_x11_hotkeys_grab E.X x combo = (false, x)) := by
  refine ⟨?_, ?_, ?_⟩
  · intro s hr
    have key : s.active_combos.length ≤ 2 ∧ ∀ x, s.x11 = some x → x.combos.length ≤ 2 := by
      induction hr with
      | new display_server window s h =>
        obtain ⟨h1, h2⟩ := gsr_hotkeys_new_grabs E display_server window s h
        refine ⟨by rw [h1]; exact Nat.zero_le _, ?_⟩
        intro x hx
        rw [h2 x hx]
        exact Nat.zero_le _
      | regrab s _ ih => exact gsr_hotkeys_regrab_for_visible_page_lengths E.X s ih
      | register s _ ih =>
        obtain ⟨h1, h2⟩ := register_wayland_shortcuts_once_grabs E.portal s
        rw [h1, h2]
        exact ih
      | x11_hotkey modifiers keysym s _ ih =>
        obtain ⟨h1, h2⟩ := on_x11_hotkey_grabs modifiers keysym s
        rw [h1, h2]
        exact ih
      | create_session_signal signal_name parameters s _ ih =>
        obtain ⟨h1, h2⟩ := create_session_signal_grabs signal_name parameters s
        rw [h1, h2]
        exact ih
      | portal_signal signal_name parameters s s' _ h ih =>
        obtain ⟨h1, h2⟩ := portal_signal_grabs signal_name parameters s s' h
        rw [h1, h2]
        exact ih
      | window_changed window s _ ih => exact ih
    refine ⟨?_, ?_⟩
    · simp only [GsrHotkeys.n_active_combos, MAX_ACTIVE_COMBOS]
      omega
    · intro x hx
      have := key.2 x hx
      simp only [GsrX11Hotkeys.num_combos, MAX_GRABBED_COMBOS]
      omega
  · intro x hr
    induction hr with
    | new calloc_ok display x h =>
      simp [GsrX11Hotkeys.num_combos, gsr_x11_hotkeys_new_combos E.X calloc_ok display x h]
    | grab x combo _ _ ih =>
      rcases gsr_x11_hotkeys_grab_combos_cases E.X x combo with e | ⟨hlt, e⟩
      · simp only [GsrX11Hotkeys.num_combos, e]
        exact ih
      · simp only [GsrX11Hotkeys.num_combos, e, List.length_append, List.length_singleton]
        exact hlt
    | ungrab_all x _ _ => exact Nat.zero_le _
  · intro x combo h
    unfold gsr_x11_hotkeys_grab
    simp only [h, if_true]

/-- Witness of C27: the manager made in the sample environment and regrabbed,
the backend made on the sample server after a grab of Alt+1, and a grab
requested on a backend that remembers `MAX_GRABBED_COMBOS` combos. -/
theorem capacity_invariant_witness :
    ((gsr_hotkeys_regrab_for_visible_page sample_xserver
        sample_x11_manager_fresh).n_active_combos ≤ MAX_ACTIVE_COMBOS ∧
      ∀ x, (gsr_hotkeys_regrab_for_visible_page sample_xserver sample_x11_manager_fresh).x11 =
        some x → x.num_combos ≤ MAX_GRABBED_COMBOS) ∧
    (gsr_x11_hotkeys_grab sample_xserver
      { display := { requests := [] }, numlockmask := Mod2Mask, combos := [] }
      { modifiers := Mod1Mask, keysym := 49 }).2.num_combos ≤ MAX_GRABBED_COMBOS ∧
    gsr_x11_hotkeys_grab sample_xserver sample_x11_full { modifiers := Mod1Mask, keysym := 51 } =
      (false, sample_x11_full) :=
  ⟨(capacity_invariant sample_env_no_reply).1 _
      (HotkeysReachable.regrab _
        (HotkeysReachable.new GsrDisplayServer.GSR_DISPLAY_SERVER_X11 sample_window
          sample_x11_manager_fresh rfl)),
   (capacity_invariant sample_env_no_reply).2.1 _
      (BackendReachable.grab _ _
        (BackendReachable.new true (some { requests := [] }) _ rfl) trivial),
   (capacity_invariant sample_env_no_reply).2.2 sample_x11_full
      { modifiers := Mod1Mask, keysym := 51 } (by decide)⟩


/-- C28. Handle-token uniqueness: for a client with a 16-character salt,
`gsr_dbus_portal_get_unique_handle_token` with the 64-byte buffer increments
the `unsigned int` counter by one; the token is the fixed text, the salt, an
underscore and the counter in decimal, at most 62 characters long and so not
truncated; two clients with the same salt and different counters get different
tokens, and so do any two calls of one client fewer than `2^32` calls apart.
The salt `generate_random_characters` makes for `gsr_global_shortcuts_init` has
16 characters. -/
theorem handle_token_unique (self : gsr_global_shortcuts)
    (hs : self.random_str.length = DBUS_RANDOM_STR_SIZE)
    (hc : self.handle_counter < UINT_SIZE) :
    (gsr_dbus_portal_get_unique_handle_token self 64).2 =
      { self with handle_counter := (self.handle_counter + 1) % UINT_SIZE } ∧
    (self.handle_counter + 1 < UINT_SIZE →
      (gsr_dbus_portal_get_unique_handle_token self 64).2.handle_counter =
        self.handle_counter + 1) ∧
    (gsr_dbus_portal_get_unique_handle_token self 64).1 =
      handle_token_text self.random_str self.handle_counter ∧
    (gsr_dbus_portal_get_unique_handle_token self 64).1.length ≤ 62 ∧
    (∀ other : gsr_global_shortcuts, other.random_str = self.random_str →
      other.handle_counter < UINT_SIZE → other.handle_counter ≠ self.handle_counter →
      (gsr_dbus_portal_get_unique_handle_token other 64).1 ≠
        (gsr_dbus_portal_get_unique_handle_token self 64).1) ∧
    (∀ i j : Nat, i < j → j < i + UINT_SIZE →
      (gsr_dbus_portal_get_unique_handle_token (handle_token_calls self i) 64).1 ≠
        (gsr_dbus_portal_get_unique_handle_token (handle_token_calls self j) 64).1) ∧
    (∀ (delivered : List Nat) (salt : String),
      generate_random_characters delivered DBUS_RANDOM_STR_SIZE random_alphabet = some salt →
      salt.length = DBUS_RANDOM_STR_SIZE) := by
  have ht := gsr_dbus_portal_get_unique_handle_token_text self hs hc
  refine ⟨rfl, ?_, ht, ?_, ?_, ?_, ?_⟩
  · intro h
    show (self.handle_counter + 1) % UINT_SIZE = self.handle_counter + 1
    exact Nat.mod_eq_of_lt h
  · rw [ht]
    exact handle_token_text_length self.random_str self.handle_counter hs hc
  · intro other ho hoc hne he
    rw [ht, gsr_dbus_portal_get_unique_handle_token_text other (ho ▸ hs) hoc, ho] at he
    exact hne (handle_token_text_inj _ _ _ he)
  · intro i j hij hj he
    have hmod : ∀ n, (self.handle_counter + n) % UINT_SIZE < UINT_SIZE :=
      fun n => Nat.mod_lt _ (by decide)
    rw [handle_token_calls_eq self hc i, handle_token_calls_eq self hc j,
      gsr_dbus_portal_get_unique_handle_token_text
        { self with handle_counter := (self.handle_counter + i) % UINT_SIZE } hs (hmod i),
      gsr_dbus_portal_get_unique_handle_token_text
        { self with handle_counter := (self.handle_counter + j) % UINT_SIZE } hs (hmod j)] at he
    have := handle_token_text_inj _ _ _ he
    simp only [UINT_SIZE] at this hj
    omega
  · intro delivered salt h
    unfold generate_random_characters at h
    split at h
    · simp at h
    · rename_i hlen
      simp only [Option.some.injEq] at h
      subst h
      simp only [String.length, List.length_map, List.length_take]
      omega

/-- Witness of C28: the client of the sample manager, whose salt is
"ABCDEFGHIJKLMNOP" and whose counter is 1. -/
theorem handle_token_unique_witness :
    (gsr_dbus_portal_get_unique_handle_token sample_wayland_manager.wayland 64).1 =
      "gpu_screen_recorder_adwaita_handle_ABCDEFGHIJKLMNOP_1" ∧
    (gsr_dbus_portal_get_unique_handle_token sample_wayland_manager.wayland 64).2.handle_counter =
      2 ∧
    (gsr_dbus_portal_get_unique_handle_token sample_wayland_manager.wayland 64).1.length ≤ 62 :=
  have h := handle_token_unique sample_wayland_manager.wayland (by decide) (by decide)
  ⟨h.2.2.1.trans (by decide), h.2.1 (by decide), h.2.2.2.1⟩


/-- C30 as written fails: the key `2^32` is not zero, but its cast to `guint`
is; with a toolkit that names the key-less Alt accelerator "<Alt>" and reads
it back, the round trip of Alt_L with that key yields the empty hotkey, whose
X11 mask is 0 and not `Mod1Mask`. -/
theorem accel_round_trip_truncated_key_loses_mask :
    ({ keysym := 2 ^ 32, modifiers := CUSTOM_MASK XK_Alt_L } : GsrConfigHotkey).keysym ≠ 0 ∧
    sample_gtk_modifier_only.inverse_at 0 GDK_ALT_MASK ∧
    gsr_config_hotkey_from_accel sample_gtk_modifier_only { keysym := 0, modifiers := 0 }
        (gsr_config_hotkey_to_accel sample_gtk_modifier_only
          { keysym := 2 ^ 32, modifiers := CUSTOM_MASK XK_Alt_L }) =
      (true, { keysym := 0, modifiers := 0 }) ∧
    (gsr_config_hotkey_to_x11 { keysym := 2 ^ 32, modifiers := CUSTOM_MASK XK_Alt_L }).1 =
      Mod1Mask ∧
    (gsr_config_hotkey_to_x11 { keysym := 0, modifiers := 0 }).1 = 0 := by
  decide

/-- C30, amended. Canonicalisation preserves what is grabbed: for every portable
modifier mask and every key whose cast to `guint` is not zero, with the
toolkit's name/parse pair inverse at the key and modifier set handed to it, the
X11 mask `gsr_config_hotkey_to_x11` computes from the hotkey that
`gsr_config_hotkey_from_accel` reads back from `gsr_config_hotkey_to_accel` is
the X11 mask of the original hotkey; and a second round trip leaves the mask of
the first unchanged. -/
theorem accel_round_trip_preserves_x11 (G : Gtk) (hk old : GsrConfigHotkey)
    (h0 : hk.keysym % (2 ^ 32 : Int) ≠ 0)
    (hG : G.inverse_at (hk.keysym % (2 ^ 32 : Int)).toNat (gdk_mods_of_custom hk.modifiers)) :
    (gsr_config_hotkey_to_x11
      (gsr_config_hotkey_from_accel G old (gsr_config_hotkey_to_accel G hk)).2).1 =
      (gsr_config_hotkey_to_x11 hk).1 ∧
    (gsr_config_hotkey_from_accel G old (gsr_config_hotkey_to_accel G
      (gsr_config_hotkey_from_accel G old (gsr_config_hotkey_to_accel G hk)).2)).2.modifiers =
      (gsr_config_hotkey_from_accel G old (gsr_config_hotkey_to_accel G hk)).2.modifiers := by
  have e1 := from_accel_to_accel_truncated G hk old h0 hG
  have hnn := Int.emod_nonneg hk.keysym (by norm_num : (2 ^ 32 : Int) ≠ 0)
  have hlt := Int.emod_lt_of_pos hk.keysym (by norm_num : (0 : Int) < 2 ^ 32)
  have hcast : (((hk.keysym % (2 ^ 32 : Int)).toNat : Nat) : Int) = hk.keysym % (2 ^ 32 : Int) :=
    Int.toNat_of_nonneg hnn
  have hmod : (((hk.keysym % (2 ^ 32 : Int)).toNat : Nat) : Int) % (2 ^ 32 : Int) =
      hk.keysym % (2 ^ 32 : Int) := by
    rw [hcast]
    exact Int.emod_eq_of_lt hnn hlt
  have e2 := from_accel_to_accel_truncated G
    { keysym := ((hk.keysym % (2 ^ 32 : Int)).toNat : Int),
      modifiers := custom_of_gdk_mods (gdk_mods_of_custom hk.modifiers) } old
    (by rw [hmod]; exact h0)
    (by rw [hmod, gdk_mods_of_custom_round_trip]; exact hG)
  rw [e1]
  refine ⟨gsr_config_hotkey_to_x11_round_trip _ hk.keysym hk.modifiers, ?_⟩
  rw [e2]
  simp only [gdk_mods_of_custom_round_trip]

/-- Witness of C30, amended: Alt_R+1 with the sample toolkit. -/
theorem accel_round_trip_preserves_x11_witness :
    (gsr_config_hotkey_to_x11
      (gsr_config_hotkey_from_accel sample_gtk { keysym := 0, modifiers := 0 }
        (gsr_config_hotkey_to_accel sample_gtk
          { keysym := 49, modifiers := CUSTOM_MASK XK_Alt_R })).2).1 = Mod1Mask ∧
    (gsr_config_hotkey_from_accel sample_gtk { keysym := 0, modifiers := 0 }
      (gsr_config_hotkey_to_accel sample_gtk
        (gsr_config_hotkey_from_accel sample_gtk { keysym := 0, modifiers := 0 }
          (gsr_config_hotkey_to_accel sample_gtk
            { keysym := 49, modifiers := CUSTOM_MASK XK_Alt_R })).2)).2.modifiers =
      CUSTOM_MASK XK_Alt_L :=
  have h := accel_round_trip_preserves_x11 sample_gtk
    { keysym := 49, modifiers := CUSTOM_MASK XK_Alt_R } { keysym := 0, modifiers := 0 }
    (by decide) (by decide)
  ⟨h.1.trans (by decide), h.2.trans (by decide)⟩


/-- C25, evaluated where the code departs from it: when the host shows the page
"record" before the successful create-session response arrives and later
shows "replay" and "record" again, no bind call is ever made, although the
session was created, no `ShortcutsChanged` signal arrived and the manager has
bound nothing: `on_visible_page_changed` set `wayland_shortcuts_registered` on
the first page change, when `gsr_hotkeys_register_wayland_shortcuts_once`
returned early for want of `wayland_initialized`. With the response handled
first, the same page changes make exactly one bind call. The window starts as
`gsr_window_init` leaves it in the sample environment. -/
theorem bind_never_issued_when_page_changes_first :
    gsr_window_init_hotkeys sample_env_wayland GsrDisplayServer.GSR_DISPLAY_SERVER_WAYLAND
      { visible_page_name := some "config", config := some gsr_config_init_defaults,
        calls := [] } = sample_window_hotkeys_wayland ∧
    bind_calls (run_host_events sample_xserver sample_portal
      [HostEvent.page_changed "record",
       HostEvent.create_session_response sample_session_response,
       HostEvent.page_changed "replay", HostEvent.page_changed "record"]
      sample_window_hotkeys_wayland) = [] ∧
    (run_host_events sample_xserver sample_portal
      [HostEvent.page_changed "record",
       HostEvent.create_session_response sample_session_response,
       HostEvent.page_changed "replay", HostEvent.page_changed "record"]
      sample_window_hotkeys_wayland).wayland_shortcuts_registered = true ∧
    (run_host_events sample_xserver sample_portal
      [HostEvent.page_changed "record",
       HostEvent.create_session_response sample_session_response,
       HostEvent.page_changed "replay", HostEvent.page_changed "record"]
      sample_window_hotkeys_wayland).hotkeys.map (fun h =>
        (h.wayland.session_created, h.wayland_initialized, h.wayland_shortcuts_bound,
         h.wayland_shortcuts_received)) = some (true, true, false, false) ∧
    (bind_calls (run_host_events sample_xserver sample_portal
      [HostEvent.create_session_response sample_session_response,
       HostEvent.page_changed "record",
       HostEvent.page_changed "replay", HostEvent.page_changed "record"]
      sample_window_hotkeys_wayland)).length = 1 := by
  refine ⟨?_, by decide, by decide, by decide, by decide⟩
  set_option maxRecDepth 8000 in decide


end Gsr
